import Mathlib

/-!
# Exynos 7570 kernel drivers

Three parts, each with its definitions in the first half of the file and its theorems
in the second half:

* `Decon`: the DECON display controller (interrupt dispatch, underrun filter, LPD state
  machine), from `drivers/video/fbdev/exynos/decon_7570/decon-int_drv.c`;
* `Mx140`: the MX140 firmware and configuration file loader, from
  `drivers/misc/samsung/scsc/mx140_file.c`;
* `Ktd2692`: the sysfs attribute of the KTD2692 flash LED driver, from
  `drivers/leds/leds-ktd2692.c`.

## DECON display controller

A shallow embedding of `drivers/video/fbdev/exynos/decon_7570/decon-int_drv.c`.

* The device structure and the file-scope statics become an explicit `Machine`
  that every function takes and returns.
* Everything a function does to the outside world (register reads and writes,
  locks, wake-ups, error logs, work-queue operations, calls into the hardware
  enable/disable sequences) is appended to `Machine.trace`, each entry paired
  with the display state the device had when the operation was issued.
* What the outside world answers (register values, return codes of external
  sequences, the clock) is supplied by an `Env`.
* Macros, enum values and configuration switches that live in headers which are
  not part of the sources are collected in `Build` and taken as parameters.

* `decon_disable`, `decon_enable` and `decon_wait_for_vsync` are defined outside
  this file; a call is recorded in the trace and its return code comes from `Env`.
  They are hardware sequences: they do not touch the LPD gate, and the state
  changes around them are the assignments made by the callers in this file.
* The `static int underrun_filter_status`, the frame counters and `frame_idle` are
  32-bit `int`s; arithmetic on them wraps (`s32`).  `unsigned int` arithmetic wraps
  modulo `2^32` (`u32`).
* Work items: `decon->lpd_work` is pending or not (`lpd_work_pending`);
  `flush_workqueue(decon->lpd_wq)` runs it to completion if it is pending.
* Each function runs to completion on the `Machine`.  Where a property depends on other
  contexts, they are made explicit: the vsync thread and the interrupts as a schedule
  of steps (`vsync_schedule`); LPD-entry attempts at the points of `decon_exit_lpd`
  where `lpd_lock` is free (`decon_exit_lpd_interleaved`); a caller that finds
  `lpd_lock` held and waits for the holder (`decon_exit_lpd_waiting`).

Debug tracing (`DISP_SS_EVENT_LOG`, `DISP_SS_EVENT_START`, `DISP_SS_DUMP`,
`exynos_ss_printk`, `trace_printk`, `decon_dbg`) has no effect on the state and is
left out.
-/

namespace Decon

/-! ## Machine integers -/

/-- Value held by a 32-bit `int` after computing `x` (two's-complement wrap). -/
def s32 (x : Int) : Int := (x + 2147483648) % 4294967296 - 2147483648

/-- Value held by a `u32` after computing `x`. -/
def u32 (x : Nat) : Nat := x % 4294967296

/-! ## Data model -/

/-- The display states used by the driver (`enum decon_state`). -/
inductive decon_state
  | DECON_STATE_INIT
  | DECON_STATE_ON
  | DECON_STATE_LPD_ENT_REQ
  | DECON_STATE_LPD_EXIT_REQ
  | DECON_STATE_LPD
  | DECON_STATE_OFF
  deriving DecidableEq, Repr

/-- Panel refresh mode (`decon->pdata->psr_mode`). -/
inductive decon_psr_mode
  | DECON_VIDEO_MODE
  | DECON_DP_PSR_MODE
  | DECON_MIPI_COMMAND_MODE
  deriving DecidableEq, Repr

/-- Trigger mode (`decon->pdata->trig_mode`). -/
inductive decon_trig_mode
  | DECON_HW_TRIG
  | DECON_SW_TRIG
  deriving DecidableEq, Repr

/-- Last argument of `decon_reg_set_trigger`. -/
inductive decon_set_trig
  | DECON_TRIG_DISABLE
  | DECON_TRIG_ENABLE
  deriving DecidableEq, Repr

/-- Return type of an interrupt handler. -/
inductive irqreturn_t
  | IRQ_NONE
  | IRQ_HANDLED
  | IRQ_WAKE_THREAD
  deriving DecidableEq, Repr

/-- Display-pipe registers named by the driver; `SHADOW r` is `r + SHADOW_OFFSET`. -/
inductive Reg
  | VIDINTCON1
  | FRAMEFIFO_REG7
  | WINCHMAP0
  | WINCON (i : Nat)
  | VIDW_ADD0 (i : Nat)
  | SHADOW (r : Reg)
  deriving DecidableEq, Repr

/-- Wait queues of the device. -/
inductive WaitQueue
  | wait_vstatus
  | wait_frmdone
  | vsync_info_wait
  deriving DecidableEq, Repr

/-- The DSIM sub-device ioctls issued by this file. -/
inductive dsim_ioctl
  | DSIM_IOC_PKT_GO_ENABLE
  | DSIM_IOC_PKT_GO_READY
  | DSIM_IOC_PKT_GO_DISABLE
  deriving DecidableEq, Repr

/-- Operations the driver issues on its environment, in program order. -/
inductive Event
  | spin_lock_slock
  | spin_unlock_slock
  | mutex_lock_lpd_lock
  | mutex_unlock_lpd_lock
  | mutex_lock_output_lock
  | mutex_unlock_output_lock
  | decon_read (reg : Reg)
  | decon_write_mask (reg : Reg) (val mask : Nat)
  | writel (val : Nat) (reg : Reg)
  | decon_reg_shadow_protect_win (win_idx : Nat) (protect : Nat)
  | decon_reg_set_regs_data (win_idx : Nat)
  | decon_reg_activate_window (win_idx : Nat)
  | decon_reg_direct_on_off (en : Nat)
  | decon_reg_update_standalone
  | decon_reg_set_trigger (dsi_mode : Nat) (trig : decon_trig_mode) (en : decon_set_trig)
  | wake_up_interruptible_all (q : WaitQueue)
  | decon_err (fmt : String) (args : List Int)
  | dev_err (fmt : String) (args : List Int)
  | msleep (ms : Nat)
  | queue_delayed_work_underrun_filter_work
  | queue_work_lpd_work
  | flush_workqueue_lpd_wq
  | decon_lpd_block
  | decon_lpd_unblock
  | decon_lpd_trig_reset
  | decon_disable
  | decon_enable
  | decon_wait_for_vsync (timeout_msec : Nat)
  | v4l2_subdev_call (cmd : dsim_ioctl)
  deriving DecidableEq, Repr

/-- Reads of a display-pipe register. -/
def Event.is_reg_read : Event → Bool
  | .decon_read _ => true
  | _ => false

/-- Writes to a display-pipe register. -/
def Event.is_reg_write : Event → Bool
  | .decon_write_mask _ _ _ => true
  | .writel _ _ => true
  | .decon_reg_shadow_protect_win _ _ => true
  | .decon_reg_set_regs_data _ => true
  | .decon_reg_activate_window _ => true
  | .decon_reg_direct_on_off _ => true
  | .decon_reg_update_standalone => true
  | .decon_reg_set_trigger _ _ _ => true
  | _ => false

/-- Any access to a display-pipe register. -/
def Event.is_reg_access (e : Event) : Bool := e.is_reg_read || e.is_reg_write

/-- The fields of `struct decon_underrun_stat` used in this file. -/
structure decon_underrun_stat where
  prev_bw : Nat := 0
  chmap : Nat := 0
  fifo_level : Nat := 0
  underrun_cnt : Int := 0
  aclk : Nat := 0
  mif_pll : Nat := 0
  used_windows : Nat := 0
  deriving DecidableEq, Repr

/-- The fields of `decon->pdata` used in this file. -/
structure exynos_decon_platdata where
  psr_mode : decon_psr_mode := .DECON_MIPI_COMMAND_MODE
  trig_mode : decon_trig_mode := .DECON_HW_TRIG
  dsi_mode : Nat := 0
  max_win : Nat := 0
  deriving DecidableEq, Repr

/-- The fields of `decon->vsync_info` used in this file. -/
structure decon_vsync where
  timestamp : Int := 0
  active : Bool := false
  deriving DecidableEq, Repr

/-- The fields of `struct decon_device` used in this file.  The two frame
counters and `frame_idle` are 32-bit `int`s; `lpd_block_cnt` and `lpd_trig_cnt`
are the non-negative counters of the LPD gate; `lpd_work_pending` says whether
`decon->lpd_work` is queued on `decon->lpd_wq`. -/
structure decon_device where
  state : decon_state := .DECON_STATE_INIT
  pdata : exynos_decon_platdata := {}
  prev_bw : Nat := 0
  underrun_stat : decon_underrun_stat := {}
  vsync_info : decon_vsync := {}
  frame_start_cnt_cur : Int := 0
  frame_done_cnt_cur : Int := 0
  frame_idle : Int := 0
  lpd_trig_cnt : Nat := 0
  lpd_block_cnt : Nat := 0
  lpd_work_pending : Bool := false
  deriving DecidableEq, Repr

/-- The device together with the statics of the file and the operation trace. -/
structure Machine where
  decon : decon_device := {}
  underrun_filter_status : Int := 0
  lpd_enable : Bool := false
  trace : List (decon_state × Event) := []
  deriving DecidableEq, Repr

/-- A colour channel description (`struct fb_bitfield`). -/
structure fb_bitfield where
  offset : Nat := 0
  length : Nat := 0
  msb_right : Nat := 0
  deriving DecidableEq, Repr

/-- The fields of `struct fb_var_screeninfo` used in this file (all `__u32`). -/
structure fb_var_screeninfo where
  xres : Nat := 0
  yres : Nat := 0
  xres_virtual : Nat := 0
  yres_virtual : Nat := 0
  xoffset : Nat := 0
  yoffset : Nat := 0
  bits_per_pixel : Nat := 0
  red : fb_bitfield := {}
  green : fb_bitfield := {}
  blue : fb_bitfield := {}
  transp : fb_bitfield := {}
  activate : Nat := 0
  height : Nat := 0
  width : Nat := 0
  pixclock : Nat := 0
  left_margin : Nat := 0
  right_margin : Nat := 0
  upper_margin : Nat := 0
  lower_margin : Nat := 0
  hsync_len : Nat := 0
  vsync_len : Nat := 0
  vmode : Nat := 0
  deriving DecidableEq, Repr

/-- The fields of `struct fb_fix_screeninfo` used in this file. -/
structure fb_fix_screeninfo where
  smem_start : Nat := 0
  type : Nat := 0
  visual : Nat := 0
  xpanstep : Nat := 0
  ypanstep : Nat := 0
  line_length : Nat := 0
  accel : Nat := 0
  deriving DecidableEq, Repr

/-- The fields of `struct decon_win` used in this file; `win->decon` is the
device of the `Machine`. -/
structure decon_win where
  index : Nat := 0
  fps : Nat := 0
  deriving DecidableEq, Repr

/-- The fields of `struct fb_info` used in this file; `par` is the window. -/
structure fb_info where
  var : fb_var_screeninfo := {}
  fix : fb_fix_screeninfo := {}
  par : decon_win := {}
  deriving DecidableEq, Repr

/-- Header macros and configuration switches that the sources use but do not
define. -/
structure Build where
  VIDINTCON1_INT_FRAME : Nat
  VIDINTCON1_INT_FIFO : Nat
  VIDINTCON1_INT_I80 : Nat
  WINCON_ENWIN : Nat
  FRAMEFIFO_FIFO0_VALID_SIZE_GET : Nat → Nat
  DECON_UNDERRUN_THRESHOLD : Int
  VSYNC_TIMEOUT_MSEC : Nat
  CONFIG_DECON_LPD_DISPLAY : Bool
  CONFIG_DECON_MIPI_DSI_PKTGO : Bool

/-- Answers of the environment during one call into the driver. -/
structure Env where
  ktime_get : Int
  decon_read : Reg → Nat
  decon_enable : Int
  decon_disable : Int
  decon_wait_for_vsync : Int
  is_any_pending_frames : Bool
  v4l2_subdev_call : dsim_ioctl → Int

def MHZ : Nat := 1000 * 1000

def UNDERRUN_FILTER_INTERVAL_MS : Nat := 100
def UNDERRUN_FILTER_INIT : Int := 0
def UNDERRUN_FILTER_IDLE : Int := 1

/-- `-EINVAL`. -/
def EINVAL : Int := 22

/-- Append an operation to the trace, tagged with the current display state. -/
def emit (e : Event) (m : Machine) : Machine :=
  { m with trace := m.trace ++ [(m.decon.state, e)] }

/-- The operations issued since the machine was in the state `m0`. -/
def issued (m0 m : Machine) : List (decon_state × Event) :=
  m.trace.drop m0.trace.length

/-! ## Underrun filter -/

/-- Source lines 37-41. -/
def underrun_filter_handler (m : Machine) : Machine :=
  let m := emit (.msleep UNDERRUN_FILTER_INTERVAL_MS) m
  { m with underrun_filter_status := UNDERRUN_FILTER_IDLE }

/-- Source lines 43-63.  `underrun_filter_status++ > UNDERRUN_FILTER_IDLE` compares
the value before the increment. -/
def decon_oneshot_underrun_log (b : Build) (m : Machine) : Machine :=
  let m := { m with decon := { m.decon with underrun_stat :=
    { m.decon.underrun_stat with
      underrun_cnt := s32 (m.decon.underrun_stat.underrun_cnt + 1) } } }
  let status := m.underrun_filter_status
  let m := { m with underrun_filter_status := s32 (status + 1) }
  if status > UNDERRUN_FILTER_IDLE then
    m
  else
    let st := m.decon.underrun_stat
    let m :=
      if st.underrun_cnt > b.DECON_UNDERRUN_THRESHOLD then
        emit (.decon_err
          "underrun (level %d), bw(%llu), mif(%ld), chmap(0x%x), win(0x%lx), aclk(%ld)"
          [st.fifo_level, st.prev_bw, st.mif_pll / MHZ, st.chmap, st.used_windows,
            st.aclk / MHZ]) m
      else m
    let m := { m with decon := { m.decon with underrun_stat :=
      { m.decon.underrun_stat with underrun_cnt := 0 } } }
    emit .queue_delayed_work_underrun_filter_work m

/-- The loop body of `decon_int_get_enabled_win` for window `i`. -/
def decon_int_get_enabled_win_step (b : Build) (env : Env) (m : Machine) (i : Nat) :
    Machine :=
  let m := emit (.decon_read (.SHADOW (.WINCON i))) m
  if env.decon_read (.SHADOW (.WINCON i)) &&& b.WINCON_ENWIN ≠ 0 then
    { m with decon := { m.decon with underrun_stat :=
      { m.decon.underrun_stat with
        used_windows := m.decon.underrun_stat.used_windows ||| (1 <<< (i * 4)) } } }
  else m

/-- Source lines 65-75. -/
def decon_int_get_enabled_win (b : Build) (env : Env) (m : Machine) : Machine :=
  let m := { m with decon := { m.decon with underrun_stat :=
    { m.decon.underrun_stat with used_windows := 0 } } }
  (List.range m.decon.pdata.max_win).foldl (decon_int_get_enabled_win_step b env) m

/-! ## Interrupt dispatch -/

/-- The `irq_end` label of `decon_int_irq_handler`. -/
def decon_int_irq_handler_irq_end (m : Machine) : Machine × irqreturn_t :=
  let m := emit .spin_unlock_slock m
  (m, .IRQ_HANDLED)

/-- Source lines 77-134. -/
def decon_int_irq_handler (b : Build) (env : Env) (m : Machine) : Machine × irqreturn_t :=
  let timestamp := env.ktime_get
  let m := emit .spin_lock_slock m
  if m.decon.state = .DECON_STATE_OFF ∨ m.decon.state = .DECON_STATE_LPD then
    decon_int_irq_handler_irq_end m
  else
    let m := emit (.decon_read .VIDINTCON1) m
    let irq_sts_reg := env.decon_read .VIDINTCON1
    let m :=
      if irq_sts_reg &&& b.VIDINTCON1_INT_FRAME ≠ 0 then
        let m := { m with decon := { m.decon with
          frame_start_cnt_cur := s32 (m.decon.frame_start_cnt_cur + 1) } }
        let m := emit (.wake_up_interruptible_all .wait_vstatus) m
        let m := emit (.decon_write_mask .VIDINTCON1 0xffffffff b.VIDINTCON1_INT_FRAME) m
        if m.decon.pdata.psr_mode = .DECON_VIDEO_MODE then
          let m := { m with decon := { m.decon with
            vsync_info := { m.decon.vsync_info with timestamp := timestamp } } }
          emit (.wake_up_interruptible_all .vsync_info_wait) m
        else m
      else m
    let m :=
      if irq_sts_reg &&& b.VIDINTCON1_INT_FIFO ≠ 0 then
        let m := emit (.decon_read .FRAMEFIFO_REG7) m
        let fifo_level := b.FRAMEFIFO_FIFO0_VALID_SIZE_GET (env.decon_read .FRAMEFIFO_REG7)
        let m := { m with decon := { m.decon with underrun_stat :=
          { m.decon.underrun_stat with fifo_level := fifo_level } } }
        let m := { m with decon := { m.decon with underrun_stat :=
          { m.decon.underrun_stat with prev_bw := m.decon.prev_bw } } }
        let m := emit (.decon_read (.SHADOW .WINCHMAP0)) m
        let m := { m with decon := { m.decon with underrun_stat :=
          { m.decon.underrun_stat with chmap := env.decon_read (.SHADOW .WINCHMAP0) } } }
        let m := decon_int_get_enabled_win b env m
        let m := decon_oneshot_underrun_log b m
        emit (.decon_write_mask .VIDINTCON1 0xffffffff b.VIDINTCON1_INT_FIFO) m
      else m
    let m :=
      if irq_sts_reg &&& b.VIDINTCON1_INT_I80 ≠ 0 then
        let m := emit (.decon_write_mask .VIDINTCON1 0xffffffff b.VIDINTCON1_INT_I80) m
        let m := { m with decon := { m.decon with
          frame_done_cnt_cur := s32 (m.decon.frame_done_cnt_cur + 1) } }
        emit (.wake_up_interruptible_all .wait_frmdone) m
      else m
    decon_int_irq_handler_irq_end m

/-! ## LPD gate

The five helpers below are `static inline` functions of `decon.h`. -/

/-- Modelled from the spec: `decon_is_lpd_blocked` (decon.h is not among the
sources).  Spec, LpdGate: "LPD entry is forbidden while `blockCount > 0`". -/
def decon_is_lpd_blocked (m : Machine) : Bool :=
  decide (0 < m.decon.lpd_block_cnt)

/-- Modelled from the spec: `decon_lpd_block` (decon.h is not among the sources).
Spec 4.4: "`block()` / `unblock()`: plain reference-counted guard around
`blockCount`"; this is the increment. -/
def decon_lpd_block (m : Machine) : Machine :=
  let m := { m with decon := { m.decon with lpd_block_cnt := m.decon.lpd_block_cnt + 1 } }
  emit .decon_lpd_block m

/-- Modelled from the spec: `decon_lpd_unblock` (decon.h is not among the
sources).  Spec 4.4: the decrement of the reference-counted guard; `blockCount`
is a non-negative integer. -/
def decon_lpd_unblock (m : Machine) : Machine :=
  let m := { m with decon := { m.decon with lpd_block_cnt := m.decon.lpd_block_cnt - 1 } }
  emit .decon_lpd_unblock m

/-- Modelled from the spec: `decon_lpd_trig_reset` (decon.h is not among the
sources).  Spec, LpdGate: "`trigCount` (counts pending LPD-entry requests, reset
on forced exit)". -/
def decon_lpd_trig_reset (m : Machine) : Machine :=
  let m := { m with decon := { m.decon with lpd_trig_cnt := 0 } }
  emit .decon_lpd_trig_reset m

/-- Modelled from the spec: `decon_lpd_enter_cond` (decon.h is not among the
sources).  Spec 4.4: entry is forbidden while `blockCount > 0`; otherwise the
report is counted in `trigCount`, and "on the second consecutive report" entry is
due. -/
def decon_lpd_enter_cond (m : Machine) : Machine × Bool :=
  if decon_is_lpd_blocked m then
    (m, false)
  else
    let m := { m with decon := { m.decon with lpd_trig_cnt := m.decon.lpd_trig_cnt + 1 } }
    (m, decide (2 ≤ m.decon.lpd_trig_cnt))

/-! ## LPD entry and exit -/

/-- The `err2` label of `decon_enter_lpd`. -/
def decon_enter_lpd_err2 (m : Machine) (ret : Int) : Machine × Int :=
  let m := emit .mutex_unlock_lpd_lock m
  (m, ret)

/-- The `err` label of `decon_enter_lpd`, falling through to `err2`. -/
def decon_enter_lpd_err (m : Machine) (ret : Int) : Machine × Int :=
  let m := decon_lpd_unblock m
  decon_enter_lpd_err2 m ret

/-- Source lines 958-993.  The return value of `decon_disable` is discarded. -/
def decon_enter_lpd (b : Build) (env : Env) (m : Machine) : Machine × Int :=
  let ret : Int := 0
  if b.CONFIG_DECON_LPD_DISPLAY then
    let m := emit .mutex_lock_lpd_lock m
    if decon_is_lpd_blocked m then
      decon_enter_lpd_err2 m ret
    else
      let m := decon_lpd_block m
      if m.decon.state = .DECON_STATE_LPD ∨ m.decon.state ≠ .DECON_STATE_ON then
        decon_enter_lpd_err m ret
      else
        let m := decon_lpd_trig_reset m
        let m := { m with decon := { m.decon with state := .DECON_STATE_LPD_ENT_REQ } }
        let m := emit .decon_disable m
        let _result := env.decon_disable
        let m := { m with decon := { m.decon with state := .DECON_STATE_LPD } }
        decon_enter_lpd_err m ret
  else
    (m, ret)

/-- Source lines 1080-1087. -/
def decon_int_lpd_handler (b : Build) (env : Env) (m : Machine) : Machine :=
  let (m, cond) := decon_lpd_enter_cond m
  if cond then (decon_enter_lpd b env m).1 else m

/-- `queue_work(decon->lpd_wq, &decon->lpd_work)`. -/
def queue_work_lpd_work (m : Machine) : Machine :=
  let m := emit .queue_work_lpd_work m
  { m with decon := { m.decon with lpd_work_pending := true } }

/-- `flush_workqueue(decon->lpd_wq)`: returns once the queued work, if any, has
run to completion. -/
def flush_workqueue_lpd_wq (b : Build) (env : Env) (m : Machine) : Machine :=
  let m := emit .flush_workqueue_lpd_wq m
  if m.decon.lpd_work_pending then
    decon_int_lpd_handler b env { m with decon := { m.decon with lpd_work_pending := false } }
  else m

/-- The `err` label of `decon_exit_lpd`. -/
def decon_exit_lpd_err (m : Machine) (ret : Int) : Machine × Int :=
  let m := decon_lpd_unblock m
  let m := emit .mutex_unlock_lpd_lock m
  (m, ret)

/-- Source lines 995-1025.  The return value of `decon_enable` is discarded. -/
def decon_exit_lpd (b : Build) (env : Env) (m : Machine) : Machine × Int :=
  let ret : Int := 0
  if b.CONFIG_DECON_LPD_DISPLAY then
    let m := decon_lpd_block m
    let m := flush_workqueue_lpd_wq b env m
    let m := emit .mutex_lock_lpd_lock m
    if m.decon.state ≠ .DECON_STATE_LPD then
      decon_exit_lpd_err m ret
    else
      let m := { m with decon := { m.decon with state := .DECON_STATE_LPD_EXIT_REQ } }
      let m := emit .decon_enable m
      let _result := env.decon_enable
      let m := decon_lpd_trig_reset m
      let m := { m with decon := { m.decon with state := .DECON_STATE_ON } }
      decon_exit_lpd_err m ret
  else
    (m, ret)

/-- Source lines 1034-1037. -/
def decon_lpd_enable (m : Machine) : Machine :=
  { m with lpd_enable := true }

/-- Source lines 1039-1049.  The device pointer is never null here, so the `!decon`
return is not taken. -/
def decon_lpd_block_exit (b : Build) (env : Env) (m : Machine) : Machine × Int :=
  let m := decon_lpd_block m
  decon_exit_lpd b env m

/-! ## Display update -/

/-- Source lines 523-527. -/
def decon_activate_window_dma (m : Machine) (_index : Nat) : Machine :=
  let m := emit (.decon_reg_direct_on_off 1) m
  emit .decon_reg_update_standalone m

/-- The `pan_display_exit` label of `decon_pan_display`. -/
def decon_pan_display_exit (m : Machine) (ret : Int) : Machine × Int :=
  let m :=
    if m.decon.pdata.trig_mode = .DECON_HW_TRIG then
      emit (.decon_reg_set_trigger m.decon.pdata.dsi_mode m.decon.pdata.trig_mode
        .DECON_TRIG_DISABLE) m
    else m
  let m := decon_lpd_unblock m
  let m := emit .mutex_unlock_output_lock m
  (m, ret)

/-- The byte offset `start_boff` computed by `decon_pan_display` (`unsigned int`
arithmetic), or `none` on the `invalid bpp` branch. -/
def decon_pan_display_start_boff (var : fb_var_screeninfo) (info : fb_info) : Option Nat :=
  let start_boff := u32 (var.yoffset * info.fix.line_length)
  if info.var.bits_per_pixel ≥ 8 then
    some (u32 (start_boff + u32 (var.xoffset * (info.var.bits_per_pixel >>> 3))))
  else
    match info.var.bits_per_pixel with
    | 4 => some (u32 (start_boff + (var.xoffset >>> 1)))
    | 2 => some (u32 (start_boff + (var.xoffset >>> 2)))
    | 1 => some (u32 (start_boff + (var.xoffset >>> 3)))
    | _ => none

/-- Source lines 529-610.  `end_boff` is computed but never used. -/
def decon_pan_display (b : Build) (env : Env) (var : fb_var_screeninfo) (info : fb_info)
    (m : Machine) : Machine × Int :=
  let ret : Int := 0
  let win := info.par
  if m.decon.state = .DECON_STATE_OFF then
    (m, ret)
  else
    let m := (decon_lpd_block_exit b env m).1
    let m := emit .mutex_lock_output_lock m
    if m.decon.state = .DECON_STATE_OFF then
      decon_pan_display_exit m ret
    else
      match decon_pan_display_start_boff var info with
      | none =>
        let m := emit (.dev_err "invalid bpp" []) m
        decon_pan_display_exit m (-EINVAL)
      | some start_boff =>
        let m := emit (.decon_reg_shadow_protect_win win.index 1) m
        let m := emit (.decon_reg_set_regs_data win.index) m
        let m := emit (.writel (u32 (info.fix.smem_start + start_boff))
          (.VIDW_ADD0 win.index)) m
        let m := emit (.decon_reg_shadow_protect_win win.index 0) m
        let m := emit (.decon_reg_activate_window win.index) m
        let m := decon_activate_window_dma m win.index
        let m :=
          if m.decon.pdata.trig_mode = .DECON_HW_TRIG then
            let m := emit (.decon_reg_set_trigger m.decon.pdata.dsi_mode
              m.decon.pdata.trig_mode .DECON_TRIG_ENABLE) m
            if b.CONFIG_DECON_MIPI_DSI_PKTGO then
              emit (.v4l2_subdev_call .DSIM_IOC_PKT_GO_ENABLE) m
            else m
          else m
        let m := emit (.decon_wait_for_vsync b.VSYNC_TIMEOUT_MSEC) m
        let ret := env.decon_wait_for_vsync
        if ret ≠ 0 then
          let m := emit (.decon_err "%s:vsync time over" []) m
          decon_pan_display_exit m ret
        else
          decon_pan_display_exit m ret

/-! ## TE interrupt -/

/-- The software-trigger block of `decon_fb_isr_for_eint`. -/
def decon_fb_isr_for_eint_sw_trig (b : Build) (env : Env) (m : Machine) : Machine :=
  if m.decon.pdata.trig_mode = .DECON_SW_TRIG then
    let m := emit (.decon_reg_set_trigger m.decon.pdata.dsi_mode m.decon.pdata.trig_mode
      .DECON_TRIG_ENABLE) m
    if b.CONFIG_DECON_MIPI_DSI_PKTGO then
      let m := emit (.v4l2_subdev_call .DSIM_IOC_PKT_GO_ENABLE) m
      if env.v4l2_subdev_call .DSIM_IOC_PKT_GO_ENABLE ≠ 0 then
        emit (.decon_err "Failed to call DSIM packet go enable!" []) m
      else m
    else m
  else m

/-- The `CONFIG_DECON_MIPI_DSI_PKTGO` block of `decon_fb_isr_for_eint`. -/
def decon_fb_isr_for_eint_pktgo (b : Build) (env : Env) (m : Machine) : Machine :=
  if b.CONFIG_DECON_MIPI_DSI_PKTGO then
    if m.decon.state = .DECON_STATE_ON ∨ m.decon.state = .DECON_STATE_INIT then
      if env.is_any_pending_frames then
        let m := { m with decon := { m.decon with frame_idle := 0 } }
        let m := emit (.v4l2_subdev_call .DSIM_IOC_PKT_GO_READY) m
        if env.v4l2_subdev_call .DSIM_IOC_PKT_GO_READY ≠ 0 then
          emit (.decon_err "Failed to call DSIM packet go ready!" []) m
        else m
      else
        let frame_idle := m.decon.frame_idle
        let m := { m with decon := { m.decon with frame_idle := s32 (frame_idle + 1) } }
        if frame_idle > 1 then
          let m := { m with decon := { m.decon with frame_idle := 0 } }
          let m := emit (.v4l2_subdev_call .DSIM_IOC_PKT_GO_DISABLE) m
          if env.v4l2_subdev_call .DSIM_IOC_PKT_GO_DISABLE ≠ 0 then
            emit (.decon_err "Failed to call DSIM packet go enable!" []) m
          else m
        else m
    else m
  else m

/-- The `CONFIG_DECON_LPD_DISPLAY` block of `decon_fb_isr_for_eint`. -/
def decon_fb_isr_for_eint_lpd (b : Build) (m : Machine) : Machine :=
  if b.CONFIG_DECON_LPD_DISPLAY then
    if m.decon.state = .DECON_STATE_ON then
      let (m, cond) := decon_lpd_enter_cond m
      if cond && m.lpd_enable then queue_work_lpd_work m else m
    else m
  else m

/-- Source lines 708-754, as the sequence of its three conditional blocks around
the timestamp update. -/
def decon_fb_isr_for_eint (b : Build) (env : Env) (m : Machine) : Machine × irqreturn_t :=
  let timestamp := env.ktime_get
  let m := emit .spin_lock_slock m
  let m := decon_fb_isr_for_eint_sw_trig b env m
  let m := decon_fb_isr_for_eint_pktgo b env m
  let m := { m with decon := { m.decon with
    vsync_info := { m.decon.vsync_info with timestamp := timestamp } } }
  let m := emit (.wake_up_interruptible_all .vsync_info_wait) m
  let m := decon_fb_isr_for_eint_lpd b m
  let m := emit .spin_unlock_slock m
  (m, .IRQ_HANDLED)

/-! ## Runs and observations -/

/-- The machine after `n` consecutive calls of `decon_oneshot_underrun_log`, with
no run of `underrun_filter_handler` in between. -/
def underrun_burst (b : Build) : Nat → Machine → Machine
  | 0, m => m
  | n + 1, m => decon_oneshot_underrun_log b (underrun_burst b n m)

/-- Whether a call of `decon_oneshot_underrun_log` made on `m` gets beyond the early
return, observed by its reaching the final `queue_delayed_work`. -/
def passes_filter (b : Build) (m : Machine) : Bool :=
  (issued m (decon_oneshot_underrun_log b m)).any
    (fun e => e.2 == Event.queue_delayed_work_underrun_filter_work)

/-- The machine after `decon_int_irq_handler` has been invoked once per element
of `envs`, in order. -/
def irq_run (b : Build) : List Env → Machine → Machine
  | [], m => m
  | env :: envs, m => irq_run b envs (decon_int_irq_handler b env m).1

/-- Whether the interrupt-status word delivered by `env` has its `FRAME` bit set. -/
def frame_pending (b : Build) (env : Env) : Bool :=
  decide (env.decon_read .VIDINTCON1 &&& b.VIDINTCON1_INT_FRAME ≠ 0)

/-- Whether the interrupt-status word delivered by `env` has its `I80` bit set. -/
def i80_pending (b : Build) (env : Env) : Bool :=
  decide (env.decon_read .VIDINTCON1 &&& b.VIDINTCON1_INT_I80 ≠ 0)

/-- Whether `x` is a value of a 32-bit `int`. -/
def is_s32 (x : Int) : Prop := -2147483648 ≤ x ∧ x ≤ 2147483647

instance is_s32_decidable (x : Int) : Decidable (is_s32 x) := by
  unfold is_s32
  infer_instance

/-- From `m0` to `m` the trace only grew, by operations that all pass the check `p`,
and the display state and platform data are the same. -/
def only_adds (p : decon_state × Event → Bool) (m0 m : Machine) : Prop :=
  m.decon.state = m0.decon.state ∧ m.decon.pdata = m0.decon.pdata ∧
    ∃ l, m.trace = m0.trace ++ l ∧ l.all p = true

/-- The check "is not a register access". -/
def no_reg_access (e : decon_state × Event) : Bool := !e.2.is_reg_access

/-- The operations of the `pan_display_exit` label for a device `d`. -/
def pan_display_exit_ops (d : decon_device) : List Event :=
  (if d.pdata.trig_mode = .DECON_HW_TRIG then
    [Event.decon_reg_set_trigger d.pdata.dsi_mode d.pdata.trig_mode .DECON_TRIG_DISABLE]
   else []) ++ [.decon_lpd_unblock, .mutex_unlock_output_lock]

/-- The operations `decon_pan_display` issues after it has taken `output_lock`, for
the device `d` it finds then. -/
def pan_display_locked_ops (b : Build) (env : Env) (var : fb_var_screeninfo) (info : fb_info)
    (d : decon_device) : List Event :=
  if d.state = .DECON_STATE_OFF then pan_display_exit_ops d
  else
    match decon_pan_display_start_boff var info with
    | none => Event.dev_err "invalid bpp" [] :: pan_display_exit_ops d
    | some start_boff =>
      [Event.decon_reg_shadow_protect_win info.par.index 1,
       .decon_reg_set_regs_data info.par.index,
       .writel (u32 (info.fix.smem_start + start_boff)) (.VIDW_ADD0 info.par.index),
       .decon_reg_shadow_protect_win info.par.index 0,
       .decon_reg_activate_window info.par.index,
       .decon_reg_direct_on_off 1,
       .decon_reg_update_standalone] ++
      (if d.pdata.trig_mode = .DECON_HW_TRIG then
        Event.decon_reg_set_trigger d.pdata.dsi_mode d.pdata.trig_mode .DECON_TRIG_ENABLE ::
          (if b.CONFIG_DECON_MIPI_DSI_PKTGO then
            [Event.v4l2_subdev_call .DSIM_IOC_PKT_GO_ENABLE] else [])
       else []) ++
      [Event.decon_wait_for_vsync b.VSYNC_TIMEOUT_MSEC] ++
      (if env.decon_wait_for_vsync ≠ 0 then [Event.decon_err "%s:vsync time over" []] else []) ++
      pan_display_exit_ops d

/-- The value `decon_pan_display` returns once it has taken `output_lock`. -/
def pan_display_locked_ret (env : Env) (var : fb_var_screeninfo) (info : fb_info)
    (d : decon_device) : Int :=
  if d.state = .DECON_STATE_OFF then 0
  else
    match decon_pan_display_start_boff var info with
    | none => -EINVAL
    | some _ => env.decon_wait_for_vsync

/-- The operations of the LPD gate and of LPD exit. -/
def Event.is_lpd_op : Event → Bool
  | .decon_lpd_block => true
  | .decon_lpd_unblock => true
  | .decon_lpd_trig_reset => true
  | .flush_workqueue_lpd_wq => true
  | .mutex_lock_lpd_lock => true
  | .mutex_unlock_lpd_lock => true
  | .decon_enable => true
  | _ => false

/-- Scan of a sequence of operations for window `w`: `inside` tells whether a
shadow-protect section of `w` is open.  The result is `none` if the window register
data or the buffer address of `w` is written outside such a section, and otherwise
whether a section is still open at the end. -/
def shadow_scan (w : Nat) : Bool → List Event → Option Bool
  | inside, [] => some inside
  | inside, .decon_reg_shadow_protect_win i p :: es =>
    if i = w then shadow_scan w (decide (p ≠ 0)) es else shadow_scan w inside es
  | inside, .decon_reg_set_regs_data i :: es =>
    if i = w ∧ inside = false then none else shadow_scan w inside es
  | inside, .writel _ (.VIDW_ADD0 i) :: es =>
    if i = w ∧ inside = false then none else shadow_scan w inside es
  | inside, _ :: es => shadow_scan w inside es

/-- The condition of the `wait_event_interruptible` of the thread (lines 876-877). -/
def vsync_wait_condition (timestamp : Int) (d : decon_device) : Bool :=
  !(timestamp == d.vsync_info.timestamp) && d.vsync_info.active

/-- The two interrupt sources that write `vsync_info.timestamp`. -/
inductive vsync_irq
  | te (env : Env)
  | decon (env : Env)

/-- Delivery of one interrupt. -/
def vsync_irq_step (b : Build) : vsync_irq → Machine → Machine
  | .te env, m => (decon_fb_isr_for_eint b env m).1
  | .decon env, m => (decon_int_irq_handler b env m).1

/-- The value of `vsync_info.timestamp` after each interrupt of a sequence. -/
def recorded_timestamps (b : Build) : List vsync_irq → Machine → List Int
  | [], _ => []
  | i :: is, m =>
    (vsync_irq_step b i m).decon.vsync_info.timestamp ::
      recorded_timestamps b is (vsync_irq_step b i m)

/-- How many entries of a sequence differ from their predecessor, `prev` being the
predecessor of the first. -/
def count_changes : Int → List Int → Nat
  | _, [] => 0
  | prev, t :: ts => (if t ≠ prev then 1 else 0) + count_changes t ts

/-- The part of the machine the LPD trigger logic reads and writes: display state,
block count, trigger count, whether the LPD work is queued, and `lpd_enable`. -/
def lpd_view (m : Machine) : decon_state × Nat × Nat × Bool × Bool :=
  (m.decon.state, m.decon.lpd_block_cnt, m.decon.lpd_trig_cnt, m.decon.lpd_work_pending,
    m.lpd_enable)

/-- The `VIDINTCON1_INT_FRAME` branch of `decon_int_irq_handler` (source lines 93-105). -/
def decon_int_irq_handler_frame (b : Build) (env : Env) (irq_sts_reg : Nat) (m : Machine) :
    Machine :=
  if irq_sts_reg &&& b.VIDINTCON1_INT_FRAME ≠ 0 then
    let m := { m with decon := { m.decon with
      frame_start_cnt_cur := s32 (m.decon.frame_start_cnt_cur + 1) } }
    let m := emit (.wake_up_interruptible_all .wait_vstatus) m
    let m := emit (.decon_write_mask .VIDINTCON1 0xffffffff b.VIDINTCON1_INT_FRAME) m
    if m.decon.pdata.psr_mode = .DECON_VIDEO_MODE then
      let m := { m with decon := { m.decon with
        vsync_info := { m.decon.vsync_info with timestamp := env.ktime_get } } }
      emit (.wake_up_interruptible_all .vsync_info_wait) m
    else m
  else m

/-- The `VIDINTCON1_INT_FIFO` branch of `decon_int_irq_handler` (source lines 106-122). -/
def decon_int_irq_handler_fifo (b : Build) (env : Env) (irq_sts_reg : Nat) (m : Machine) :
    Machine :=
  if irq_sts_reg &&& b.VIDINTCON1_INT_FIFO ≠ 0 then
    let m := emit (.decon_read .FRAMEFIFO_REG7) m
    let fifo_level := b.FRAMEFIFO_FIFO0_VALID_SIZE_GET (env.decon_read .FRAMEFIFO_REG7)
    let m := { m with decon := { m.decon with underrun_stat :=
      { m.decon.underrun_stat with fifo_level := fifo_level } } }
    let m := { m with decon := { m.decon with underrun_stat :=
      { m.decon.underrun_stat with prev_bw := m.decon.prev_bw } } }
    let m := emit (.decon_read (.SHADOW .WINCHMAP0)) m
    let m := { m with decon := { m.decon with underrun_stat :=
      { m.decon.underrun_stat with chmap := env.decon_read (.SHADOW .WINCHMAP0) } } }
    let m := decon_int_get_enabled_win b env m
    let m := decon_oneshot_underrun_log b m
    emit (.decon_write_mask .VIDINTCON1 0xffffffff b.VIDINTCON1_INT_FIFO) m
  else m

/-- The `VIDINTCON1_INT_I80` branch of `decon_int_irq_handler` (source lines 123-128). -/
def decon_int_irq_handler_i80 (b : Build) (irq_sts_reg : Nat) (m : Machine) : Machine :=
  if irq_sts_reg &&& b.VIDINTCON1_INT_I80 ≠ 0 then
    let m := emit (.decon_write_mask .VIDINTCON1 0xffffffff b.VIDINTCON1_INT_I80) m
    let m := { m with decon := { m.decon with
      frame_done_cnt_cur := s32 (m.decon.frame_done_cnt_cur + 1) } }
    emit (.wake_up_interruptible_all .wait_frmdone) m
  else m

/-- The interrupt acknowledge carried by an operation: value and mask of a masked
write to `VIDINTCON1`. -/
def Event.ack : Event → Option (Nat × Nat)
  | .decon_write_mask .VIDINTCON1 val mask => some (val, mask)
  | _ => none

/-- The values a selector `f` picks among a sequence of issued operations, in order. -/
def picks {α : Type} (f : Event → Option α) (l : List (decon_state × Event)) : List α :=
  l.filterMap (fun e => f e.2)

/-- The acknowledges among a sequence of issued operations, in order. -/
def acks (l : List (decon_state × Event)) : List (Nat × Nat) := picks Event.ack l

/-- From `m0` to `m` the trace only grew, and what `f` picks among the added
operations is `X`. -/
def adds {α : Type} (f : Event → Option α) (X : List α) (m0 m : Machine) : Prop :=
  ∃ l, m.trace = m0.trace ++ l ∧ picks f l = X

/-- Whether an operation is an error log line (`decon_err`). -/
def Event.is_decon_err : Event → Bool
  | .decon_err _ _ => true
  | _ => false

/-- The error log lines among a sequence of issued operations, in order. -/
def err_logs (l : List (decon_state × Event)) : List Event :=
  (l.map Prod.snd).filter Event.is_decon_err

/-- The log line of `decon_oneshot_underrun_log` for the statistics `st`. -/
def underrun_log_line (st : decon_underrun_stat) : Event :=
  .decon_err "underrun (level %d), bw(%llu), mif(%ld), chmap(0x%x), win(0x%lx), aclk(%ld)"
    [st.fifo_level, st.prev_bw, st.mif_pll / MHZ, st.chmap, st.used_windows, st.aclk / MHZ]

/-- The machine `m` with `underrun_stat.underrun_cnt` and `underrun_filter_status`
replaced. -/
def with_underrun (m : Machine) (cnt status : Int) : Machine :=
  { m with
    decon := { m.decon with underrun_stat := { m.decon.underrun_stat with underrun_cnt := cnt } }
    underrun_filter_status := status }

/-- Selector for the queueing of the LPD-entry work. -/
def Event.lpd_queued : Event → Option Unit
  | .queue_work_lpd_work => some ()
  | _ => none

/-- The machine after one TE interrupt (`decon_fb_isr_for_eint`) per element of
`envs`, in order. -/
def te_run (b : Build) : List Env → Machine → Machine
  | [], m => m
  | env :: envs, m => te_run b envs (decon_fb_isr_for_eint b env m).1

/-- What `decon_exit_lpd` does once it holds `lpd_lock` (source lines 1005-1024): it
reads `decon->state` and either leaves through `err` or exits LPD. -/
def decon_exit_lpd_locked (env : Env) (m : Machine) : Machine × Int :=
  let ret : Int := 0
  if m.decon.state ≠ .DECON_STATE_LPD then
    decon_exit_lpd_err m ret
  else
    let m := { m with decon := { m.decon with state := .DECON_STATE_LPD_EXIT_REQ } }
    let m := emit .decon_enable m
    let _result := env.decon_enable
    let m := decon_lpd_trig_reset m
    let m := { m with decon := { m.decon with state := .DECON_STATE_ON } }
    decon_exit_lpd_err m ret

/-- Application of `do_div(n, base)`: the quotient left in the 64-bit `n`, `base` being
converted to `uint32_t`.  A zero `base` leaves 0 here. -/
def do_div (n : Nat) (base : Nat) : Nat := n / u32 base

/-- Value of an `unsigned long long` after computing `x`. -/
def u64 (x : Int) : Nat := (x % 18446744073709551616).toNat

/-- The colour layout `decon_check_var` chooses for the depth found in `var`
(source lines 389-454), or `none` on the `invalid bpp` branch. -/
def decon_check_var_layout (var : fb_var_screeninfo) : Option fb_var_screeninfo :=
  let var := { var with transp := { var.transp with offset := 0, length := 0 } }
  if var.bits_per_pixel = 1 ∨ var.bits_per_pixel = 2 ∨ var.bits_per_pixel = 4 ∨
      var.bits_per_pixel = 8 then
    some { var with
      red := { var.red with offset := 4, length := 5 }
      green := { var.green with offset := 2, length := 3 }
      blue := { var.blue with offset := 0, length := 2 }
      transp := { var.transp with offset := 7, length := 1 } }
  else if var.bits_per_pixel = 19 ∨ var.bits_per_pixel = 18 then
    let var :=
      if var.bits_per_pixel = 19 then
        { var with transp := { var.transp with offset := 18, length := 1 } }
      else var
    some { var with
      bits_per_pixel := 32
      red := { var.red with offset := 12, length := 6 }
      green := { var.green with offset := 6, length := 6 }
      blue := { var.blue with offset := 0, length := 6 } }
  else if var.bits_per_pixel = 16 then
    some { var with
      red := { var.red with offset := 11, length := 5 }
      green := { var.green with offset := 5, length := 6 }
      blue := { var.blue with offset := 0, length := 5 } }
  else if var.bits_per_pixel = 32 ∨ var.bits_per_pixel = 28 ∨ var.bits_per_pixel = 25 ∨
      var.bits_per_pixel = 24 then
    let var :=
      if var.bits_per_pixel ≠ 24 then
        { var with transp := { var.transp with length := var.bits_per_pixel - 24, offset := 24 } }
      else var
    some { var with
      bits_per_pixel := 32
      red := { var.red with offset := 0, length := 8 }
      green := { var.green with offset := 8, length := 8 }
      blue := { var.blue with offset := 16, length := 8 } }
  else none

/-- The refresh rate stored in `win->fps` (source lines 456-471). -/
def decon_check_var_fps (d : decon_device) (var : fb_var_screeninfo) : Nat :=
  let x : Int :=
    if d.pdata.psr_mode = .DECON_MIPI_COMMAND_MODE then s32 var.xres
    else s32 (u32 (var.xres + var.left_margin + var.right_margin + var.hsync_len))
  let y : Int :=
    if d.pdata.psr_mode = .DECON_MIPI_COMMAND_MODE then s32 var.yres
    else s32 (u32 (var.yres + var.upper_margin + var.lower_margin + var.vsync_len))
  let hz : Nat := 1000000000000
  let hz := u64 (hz + (s32 (x * y)).tdiv 2)
  let hz := do_div hz (u64 (s32 (x * y)))
  let hz := u64 (hz + var.pixclock / 2)
  do_div hz var.pixclock

/-- Source lines 375-477.  `decon_validate_x_alignment` is not defined in this file;
it is the parameter `validate`, applied to the device, the left edge, the width and
the depth.  The result is the machine, `*var`, `*info` and the return value. -/
def decon_check_var (validate : decon_device → Nat → Nat → Nat → Bool)
    (var : fb_var_screeninfo) (info : fb_info) (m : Machine) :
    Machine × fb_var_screeninfo × fb_info × Int :=
  let var := { var with xres_virtual := max var.xres_virtual var.xres }
  let var := { var with yres_virtual := max var.yres_virtual var.yres }
  if validate m.decon 0 var.xres var.bits_per_pixel = false then
    (m, var, info, -EINVAL)
  else
    match decon_check_var_layout var with
    | none =>
      let m := emit (.decon_err "invalid bpp %d" [var.bits_per_pixel]) m
      (m, { var with transp := { var.transp with offset := 0, length := 0 } }, info, -EINVAL)
    | some var =>
      (m, var, { info with par := { info.par with fps := decon_check_var_fps m.decon var } }, 0)

/-- The notification thread `decon_wait_for_vsync_thread` (source lines 869-885)
between two of its steps: `waiting` is false at the top of the loop, before line 874
samples the timestamp, and true in the `wait_event_interruptible` of lines 875-877;
`timestamp` is the value sampled last; `notified` counts the `sysfs_notify` calls so
far. -/
structure vsync_thread where
  waiting : Bool := false
  timestamp : Int := 0
  notified : Nat := 0
  deriving DecidableEq, Repr

/-- One step of the thread, which runs concurrently with the interrupt handlers.  At
the top of the loop it samples `vsync_info.timestamp` and goes to wait.  In its wait it
evaluates the condition: if it holds the wait returns 0, the thread notifies and is
back at the top of the loop; otherwise it keeps waiting.  Interruption of the wait by
a signal is not modelled. -/
def decon_wait_for_vsync_thread_step (d : decon_device) (t : vsync_thread) : vsync_thread :=
  if t.waiting then
    if vsync_wait_condition t.timestamp d then
      { t with waiting := false, notified := t.notified + 1 }
    else t
  else { t with waiting := true, timestamp := d.vsync_info.timestamp }

/-- A step of a schedule: an interrupt is delivered and handled, or the thread gets to
run one step. -/
inductive vsync_step
  | irq (i : vsync_irq)
  | thread

/-- The effect of one step of a schedule on the machine and the thread. -/
def vsync_step_run (b : Build) : vsync_step → Machine × vsync_thread → Machine × vsync_thread
  | .irq i, s => (vsync_irq_step b i s.1, s.2)
  | .thread, s => (s.1, decon_wait_for_vsync_thread_step s.1.decon s.2)

/-- A schedule: any interleaving of interrupts and steps of the thread. -/
def vsync_schedule (b : Build) :
    List vsync_step → Machine × vsync_thread → Machine × vsync_thread
  | [], s => s
  | x :: xs, s => vsync_schedule b xs (vsync_step_run b x s)

/-- The interrupts of a schedule, in order. -/
def vsync_irqs : List vsync_step → List vsync_irq
  | [] => []
  | .irq i :: xs => i :: vsync_irqs xs
  | .thread :: xs => vsync_irqs xs

/-- The schedule in which the thread gets to run after every interrupt, before the
next one: it evaluates its wait and, if released, samples again. -/
def vsync_thread_after_each : List vsync_irq → List vsync_step
  | [] => []
  | i :: is => .irq i :: .thread :: .thread :: vsync_thread_after_each is

/-- What `decon_enter_lpd` still does once it has set the state to `LPD_ENT_REQ`
(source lines 981-990): the hardware disable sequence, the state `LPD`, the release
of its blocker and of `lpd_lock`. -/
def decon_enter_lpd_rest (env : Env) (m : Machine) : Machine × Int :=
  let ret : Int := 0
  let m := emit .decon_disable m
  let _result := env.decon_disable
  let m := { m with decon := { m.decon with state := .DECON_STATE_LPD } }
  decon_enter_lpd_err m ret

/-- What `decon_exit_lpd` still does once it has set the state to `LPD_EXIT_REQ`
(source lines 1013-1022): the hardware enable sequence, the trigger reset, the state
`ON`, the release of its blocker and of `lpd_lock`. -/
def decon_exit_lpd_rest (env : Env) (m : Machine) : Machine × Int :=
  let ret : Int := 0
  let m := emit .decon_enable m
  let _result := env.decon_enable
  let m := decon_lpd_trig_reset m
  let m := { m with decon := { m.decon with state := .DECON_STATE_ON } }
  decon_exit_lpd_err m ret

/-- The context that holds `lpd_lock` while the device shows a transitional state: the
two states are assigned only by `decon_enter_lpd` (line 980) and `decon_exit_lpd`
(line 1012), both between `mutex_lock` and `mutex_unlock` of `lpd_lock`, and both
leave the state again before they unlock. -/
inductive lpd_holder
  | entering (env : Env)
  | exiting (env : Env)

/-- The state the device shows while the holder is at work. -/
def lpd_holder.state : lpd_holder → decon_state
  | .entering _ => .DECON_STATE_LPD_ENT_REQ
  | .exiting _ => .DECON_STATE_LPD_EXIT_REQ

/-- The holder runs to its `mutex_unlock`. -/
def lpd_holder.finish : lpd_holder → Machine → Machine
  | .entering env, m => (decon_enter_lpd_rest env m).1
  | .exiting env, m => (decon_exit_lpd_rest env m).1

/-- The steps of `decon_exit_lpd` (LPD feature compiled in) when `lpd_lock` is held by
`h` at the call: `mutex_lock` (line 1004) returns once the holder has run to its
`mutex_unlock`. -/
def decon_exit_lpd_waiting (b : Build) (env : Env) (h : lpd_holder) (m : Machine) :
    Machine × Int :=
  let m := decon_lpd_block m
  let m := flush_workqueue_lpd_wq b env m
  let m := h.finish m
  let m := emit .mutex_lock_lpd_lock m
  decon_exit_lpd_locked env m

/-- The part of `decon_pan_display` from `mutex_lock(&decon->output_lock)` on (source
lines 541-608). -/
def decon_pan_display_update (b : Build) (env : Env) (var : fb_var_screeninfo)
    (info : fb_info) (m : Machine) : Machine × Int :=
  let ret : Int := 0
  let win := info.par
  let m := emit .mutex_lock_output_lock m
  if m.decon.state = .DECON_STATE_OFF then
    decon_pan_display_exit m ret
  else
    match decon_pan_display_start_boff var info with
    | none =>
      let m := emit (.dev_err "invalid bpp" []) m
      decon_pan_display_exit m (-EINVAL)
    | some start_boff =>
      let m := emit (.decon_reg_shadow_protect_win win.index 1) m
      let m := emit (.decon_reg_set_regs_data win.index) m
      let m := emit (.writel (u32 (info.fix.smem_start + start_boff))
        (.VIDW_ADD0 win.index)) m
      let m := emit (.decon_reg_shadow_protect_win win.index 0) m
      let m := emit (.decon_reg_activate_window win.index) m
      let m := decon_activate_window_dma m win.index
      let m :=
        if m.decon.pdata.trig_mode = .DECON_HW_TRIG then
          let m := emit (.decon_reg_set_trigger m.decon.pdata.dsi_mode
            m.decon.pdata.trig_mode .DECON_TRIG_ENABLE) m
          if b.CONFIG_DECON_MIPI_DSI_PKTGO then
            emit (.v4l2_subdev_call .DSIM_IOC_PKT_GO_ENABLE) m
          else m
        else m
      let m := emit (.decon_wait_for_vsync b.VSYNC_TIMEOUT_MSEC) m
      let ret := env.decon_wait_for_vsync
      if ret ≠ 0 then
        let m := emit (.decon_err "%s:vsync time over" []) m
        decon_pan_display_exit m ret
      else
        decon_pan_display_exit m ret

/-- The steps of `decon_pan_display` when `lpd_lock` is held by `h` at the call: those
of the source function, with the `decon_exit_lpd` inside `decon_lpd_block_exit` waiting
for the lock. -/
def decon_pan_display_waiting (b : Build) (env : Env) (h : lpd_holder)
    (var : fb_var_screeninfo) (info : fb_info) (m : Machine) : Machine × Int :=
  let ret : Int := 0
  if m.decon.state = .DECON_STATE_OFF then
    (m, ret)
  else
    let m := decon_lpd_block m
    let m := (decon_exit_lpd_waiting b env h m).1
    decon_pan_display_update b env var info m

/-! ## Sample parameters used to instantiate the theorems below -/

/-- A build with the LPD feature enabled and packet-go disabled, interrupt bits
FIFO = bit 0, FRAME = bit 1, I80 = bit 2, and underrun threshold 5. -/
def sample_build : Build where
  VIDINTCON1_INT_FRAME := 2
  VIDINTCON1_INT_FIFO := 1
  VIDINTCON1_INT_I80 := 4
  WINCON_ENWIN := 1
  FRAMEFIFO_FIFO0_VALID_SIZE_GET := fun v => v &&& 0xfff
  DECON_UNDERRUN_THRESHOLD := 5
  VSYNC_TIMEOUT_MSEC := 200
  CONFIG_DECON_LPD_DISPLAY := true
  CONFIG_DECON_MIPI_DSI_PKTGO := false

/-- An environment in which every register reads `sts`, the external sequences
return `rc` and no frame is pending. -/
def sample_env (sts : Nat) (rc : Int) : Env where
  ktime_get := 1000
  decon_read := fun _ => sts
  decon_enable := rc
  decon_disable := rc
  decon_wait_for_vsync := rc
  is_any_pending_frames := false
  v4l2_subdev_call := fun _ => rc

/-- A machine whose device is in state `s` with `blk` LPD blockers. -/
def sample_machine (s : decon_state) (blk : Nat) : Machine :=
  { decon := { state := s, lpd_block_cnt := blk }, underrun_filter_status := UNDERRUN_FILTER_IDLE }

/-- A machine in state `s` whose panel is driven by software trigger. -/
def sample_machine_sw_trig (s : decon_state) : Machine :=
  { decon := { state := s, pdata := { trig_mode := .DECON_SW_TRIG } },
    underrun_filter_status := UNDERRUN_FILTER_IDLE }

/-- A 32 bpp frame buffer at bus address `0x1000` with 64-byte lines, shown on
window 0. -/
def sample_fb_info : fb_info :=
  { var := { bits_per_pixel := 32, xres := 16, yres := 16 },
    fix := { smem_start := 0x1000, line_length := 64 }, par := { index := 0 } }

/-- A 3 bpp frame buffer: a depth `decon_pan_display` does not support. -/
def sample_fb_info_3bpp : fb_info :=
  { var := { bits_per_pixel := 3, xres := 16, yres := 16 },
    fix := { smem_start := 0x1000, line_length := 64 }, par := { index := 0 } }

/-- An environment whose clock reads `now`. -/
def sample_env_at (now : Int) : Env :=
  { sample_env 0 0 with ktime_get := now }

/-- A machine in state `ON` with `vsync_info.active` set and timestamp 0. -/
def sample_machine_vsync : Machine :=
  { decon := { state := .DECON_STATE_ON, vsync_info := { timestamp := 0, active := true } },
    underrun_filter_status := UNDERRUN_FILTER_IDLE }

/-- A machine in state `ON` with no blocker that has counted 5 idle TE interrupts. -/
def sample_machine_idle : Machine :=
  { sample_machine .DECON_STATE_ON 0 with
    decon := { state := .DECON_STATE_ON, lpd_trig_cnt := 5 } }

/-- An alignment rule: the left and the right edge of the window fall on a 32-bit
word. -/
def sample_x_alignment (_d : decon_device) (x w bits_per_pixel : Nat) : Bool :=
  (x * bits_per_pixel) % 32 == 0 && ((x + w) * bits_per_pixel) % 32 == 0

/-- A 16 x 16 mode of 24 bits per pixel. -/
def sample_var_24bpp : fb_var_screeninfo :=
  { xres := 16, yres := 16, bits_per_pixel := 24, pixclock := 1000 }

/-- A 16 x 16 mode of 16 bits per pixel. -/
def sample_var_16bpp : fb_var_screeninfo :=
  { xres := 16, yres := 16, bits_per_pixel := 16, pixclock := 1000 }
/-- A machine whose device is in the middle of an LPD entry: state `LPD_ENT_REQ`, the
blocker of the entering context held. -/
def sample_machine_entering : Machine := sample_machine .DECON_STATE_LPD_ENT_REQ 1
end Decon

/-!
# MX140 firmware and configuration file loader

A shallow embedding of `drivers/misc/samsung/scsc/mx140_file.c`.

* C strings are lists of characters; `scnprintf`, `snprintf` and `strlcpy` keep what fits
  the destination array.
* The file-scope statics (`fw_suffix_found`, `firmware_variant`, `firmware_hw_ver`,
  `base_dir`, ...) are the fields of `mx140_file`, which every function takes and
  returns; the calls made to the file system and the allocator are appended to its
  `log`.
* What the kernel answers (`vfs_stat`, `filp_open`, `vfs_read`, the allocators) is
  supplied by a `Vfs`.
* A read of `fw_suffixes[fw_suffix_found]` with the index outside the table has no
  defined value: the function then yields `Fault.out_of_bounds` instead of a result.
* Configuration symbols are collected in `Kconfig`.  Log output (`SCSC_TAG_*`) and the
  `get_fs`/`set_fs` pairs have no effect on the state and are left out.
-/

namespace Mx140

/-! ## Constants -/

def ENOENT : Int := 2
def EAGAIN : Int := 11
def ENOMEM : Int := 12
def EINVAL : Int := 22

def MX140_FW_DETECT : List Char := "mx".toList
def MX140_EXE_DIR_VENDOR : List Char := "/vendor/bin".toList
def MX140_EXE_DIR_SYSTEM : List Char := "/system/bin".toList
def MX140_FW_CONF_SUBDIR : List Char := "conf".toList
def MX140_FW_DEBUG_SUBDIR : List Char := "debug".toList
def MX140_FW_PATH_MAX_LENGTH : Nat := 512
def MX140_FW_VARIANT_DEFAULT : List Char := "mx140".toList

/-- An entry of the table of firmware-name suffixes (`struct fw_suffix`). -/
structure fw_suffix where
  suffix : List Char
  hw_ver : Nat
  deriving DecidableEq, Repr

/-- Table of known RF h/w revs (source lines 50-56). -/
def fw_suffixes : List fw_suffix :=
  [ { suffix := "_11".toList, hw_ver := 0x11 },
    { suffix := "_10".toList, hw_ver := 0x10 },
    { suffix := "_00".toList, hw_ver := 0x00 },
    { suffix := [], hw_ver := 0xff } ]

/-- The read `fw_suffixes[i]` for an `int` index: `none` when the index is outside
the table. -/
def fw_suffixes_at (i : Int) : Option fw_suffix :=
  if 0 ≤ i then fw_suffixes[i.toNat]? else none

/-- Ways in which a run of the model does not produce a result: the C code reads
outside the suffix table, or the model's iteration bound on the read loop is used
up. -/
inductive Fault
  | out_of_bounds
  | out_of_fuel
  deriving DecidableEq, Repr

/-- Configuration symbols the file depends on. -/
structure Kconfig where
  CONFIG_SCSC_CORE_FW_LOCATION : List Char
  CONFIG_SCSC_CORE_FW_LOCATION_AUTO : Bool
  CONFIG_SCSC_CORE_TOOL_LOCATION : List Char
  CONFIG_SCSC_WLBT_CONFIG_PLATFORM : Option (List Char)
  MX140_UNIFIED_HW_FW : Bool

/-- Macro `MX140_FW_BASE_DIR_SYSTEM_ETC_WIFI` (source lines 22-28). -/
def MX140_FW_BASE_DIR_SYSTEM_ETC_WIFI (k : Kconfig) : List Char :=
  if k.CONFIG_SCSC_CORE_FW_LOCATION_AUTO then "/system/etc/wifi".toList
  else k.CONFIG_SCSC_CORE_FW_LOCATION

/-- Macro `MX140_FW_BASE_DIR_VENDOR_ETC_WIFI` (source lines 22-28). -/
def MX140_FW_BASE_DIR_VENDOR_ETC_WIFI (k : Kconfig) : List Char :=
  if k.CONFIG_SCSC_CORE_FW_LOCATION_AUTO then "/vendor/etc/wifi".toList
  else k.CONFIG_SCSC_CORE_FW_LOCATION

/-- Size of the array `base_dir` (source lines 80-86). -/
def base_dir_size (k : Kconfig) : Nat :=
  if k.CONFIG_SCSC_CORE_FW_LOCATION_AUTO then MX140_FW_PATH_MAX_LENGTH
  else k.CONFIG_SCSC_CORE_FW_LOCATION.length + 1

/-- Size of the array `exe_dir` (source lines 80-86). -/
def exe_dir_size (k : Kconfig) : Nat :=
  if k.CONFIG_SCSC_CORE_FW_LOCATION_AUTO then MX140_FW_PATH_MAX_LENGTH
  else k.CONFIG_SCSC_CORE_TOOL_LOCATION.length + 1

/-- The string left in a buffer of `size` bytes by `scnprintf`/`snprintf` when the
formatted text is `s`. -/
def scnprintf (size : Nat) (s : List Char) : List Char := s.take (size - 1)

/-- The string left in a buffer of `size` bytes by `strlcpy` from `src`. -/
def strlcpy (src : List Char) (size : Nat) : List Char := src.take (size - 1)

/-! ## Environment and state -/

/-- Operations on the file system and the allocator, in program order. -/
inductive Op
  | mx140_request_file (path : List Char)
  | vfs_stat (path : List Char)
  | vzalloc (size : Int)
  | kzalloc
  | filp_open (path : List Char)
  | vfs_read (offset : Int) (count : Int)
  | filp_close
  | vfree
  | kfree
  | memcpy (n : Nat)
  deriving DecidableEq, Repr

/-- Answers of the kernel to the calls the file makes.  `vfs_stat` is the return
value and `stat_size` the `stat.size` it fills in; `filp_open` is 0 or the negative
error of the returned pointer; `vfs_read path pos count` is the return value of a
read of `count` bytes at file position `pos`, which delivers the bytes of
`file_data path` from `pos` on; `fuel` bounds the iterations of the read loop in the
model. -/
structure Vfs where
  vfs_stat : List Char → Int
  stat_size : List Char → Int
  filp_open : List Char → Int
  vfs_read : List Char → Int → Int → Int
  file_data : List Char → List Nat
  vzalloc : Int → Bool
  kzalloc : Bool
  fuel : Nat

/-- A loaded file (`struct firmware`): `size` bytes at `data`. -/
structure firmware where
  size : Nat
  data : List Nat
  deriving DecidableEq, Repr

/-- The statics of `mx140_file.c` and the log of operations. -/
structure mx140_file where
  fw_suffix_found : Int
  firmware_variant : List Char
  firmware_hw_ver : List Char
  fw_base_dir : List Char
  base_dir : List Char
  exe_dir : List Char
  cfg_platform : List Char
  log : List Op
  deriving DecidableEq, Repr

/-- The statics as initialised at load time (source lines 59-99). -/
def mx140_file_init (k : Kconfig) : mx140_file :=
  { fw_suffix_found := -1
    firmware_variant := MX140_FW_VARIANT_DEFAULT
    firmware_hw_ver := "auto".toList
    fw_base_dir := k.CONFIG_SCSC_CORE_FW_LOCATION
    base_dir := if k.CONFIG_SCSC_CORE_FW_LOCATION_AUTO then [] else k.CONFIG_SCSC_CORE_FW_LOCATION
    exe_dir := if k.CONFIG_SCSC_CORE_FW_LOCATION_AUTO then [] else k.CONFIG_SCSC_CORE_TOOL_LOCATION
    cfg_platform := "default".toList
    log := [] }

/-- Append an operation to the log. -/
def record (op : Op) (st : mx140_file) : mx140_file :=
  { st with log := st.log ++ [op] }

/-! ## Base directory detection -/

/-- Source lines 470-555.  The mount-point check is compiled out (`#if 0`). -/
def mx140_basedir_file (k : Kconfig) (fs : Vfs) (st : mx140_file) : mx140_file × Int :=
  if st.base_dir ≠ [] then
    (st, 0)
  else
    let st := { st with exe_dir := strlcpy MX140_EXE_DIR_SYSTEM (exe_dir_size k) }
    let vendor := MX140_FW_BASE_DIR_VENDOR_ETC_WIFI k ++ "/".toList ++ MX140_FW_DETECT
    let st := record (.vfs_stat vendor) st
    if fs.vfs_stat vendor ≠ 0 then
      let st := { st with base_dir := [] }
      let system := MX140_FW_BASE_DIR_SYSTEM_ETC_WIFI k ++ "/".toList ++ MX140_FW_DETECT
      let st := record (.vfs_stat system) st
      if fs.vfs_stat system ≠ 0 then
        ({ st with base_dir := [] }, -EAGAIN)
      else
        ({ st with
            base_dir := strlcpy (MX140_FW_BASE_DIR_SYSTEM_ETC_WIFI k) (base_dir_size k)
            fw_base_dir := MX140_FW_BASE_DIR_SYSTEM_ETC_WIFI k }, 0)
    else
      ({ st with
          base_dir := strlcpy (MX140_FW_BASE_DIR_VENDOR_ETC_WIFI k) (base_dir_size k)
          fw_base_dir := MX140_FW_BASE_DIR_VENDOR_ETC_WIFI k
          exe_dir := strlcpy MX140_EXE_DIR_VENDOR (exe_dir_size k) }, 0)

/-! ## Reading a file -/

/-- The local variables of the read loop of `mx140_request_file`; `p` is the offset
`p - buf` into the buffer. -/
structure read_state where
  whats_left : Int
  r : Int
  p : Int
  f_pos : Int
  buf : List Nat
  log : List Op
  deriving DecidableEq, Repr

/-- The buffer after `bytes` have been stored at offset `p`. -/
def store_at (buf : List Nat) (p : Nat) (bytes : List Nat) : List Nat :=
  buf.take p ++ bytes ++ buf.drop (p + bytes.length)

/-- One pass through the body of the read loop (source lines 403-412): the new
variables and whether the loop goes on. -/
def mx140_request_file_body (fs : Vfs) (path : List Char) (s : read_state) :
    read_state × Bool :=
  let max_read_size : Int := 4096
  let to_read := if s.whats_left < max_read_size then s.whats_left else max_read_size
  let r := Decon.s32 (fs.vfs_read path s.f_pos to_read)
  let s := { s with r := r, log := s.log ++ [Op.vfs_read s.p to_read] }
  if r < 0 then
    (s, false)
  else
    let bytes := ((fs.file_data path).drop s.f_pos.toNat).take r.toNat
    let s := { s with buf := store_at s.buf s.p.toNat bytes, f_pos := s.f_pos + r }
    if r = 0 ∨ r < to_read then
      (s, false)
    else
      ({ s with whats_left := Decon.s32 (s.whats_left - r), p := s.p + r }, true)

/-- The read loop (source lines 402-413), run for at most `fuel` passes: `none` when
the bound is used up before the loop ends. -/
def mx140_request_file_loop (fs : Vfs) (path : List Char) : Nat → read_state → Option read_state
  | 0, s => if s.whats_left = 0 then some s else none
  | fuel + 1, s =>
    if s.whats_left = 0 then some s
    else
      let (s, go_on) := mx140_request_file_body fs path s
      if go_on then mx140_request_file_loop fs path fuel s else some s

/-- Source lines 325-431.  The result is the new statics, the return value and the
value left in `*firmp`. -/
def mx140_request_file (k : Kconfig) (fs : Vfs) (path : List Char) (st : mx140_file) :
    Except Fault (mx140_file × Int × Option firmware) :=
  let st := record (.mx140_request_file path) st
  let (st, r) := mx140_basedir_file k fs st
  if r ≠ 0 then
    .ok (st, r, none)
  else
    let st := record (.vfs_stat st.base_dir) st
    if fs.vfs_stat st.base_dir ≠ 0 then
      .ok (st, -EAGAIN, none)
    else
      let st := record (.vfs_stat path) st
      if fs.vfs_stat path ≠ 0 then
        .ok (st, -ENOENT, none)
      else
        let stat_size := fs.stat_size path
        let size := Decon.s32 ((stat_size + 256) - (stat_size + 256) % 256)
        let st := record (.vzalloc size) st
        if fs.vzalloc size = false then
          .ok (st, -ENOMEM, none)
        else
          let buf := List.replicate size.toNat 0
          let st := record .kzalloc st
          if fs.kzalloc = false then
            .ok (record .vfree st, -ENOMEM, none)
          else
            let st := record (.filp_open path) st
            if fs.filp_open path ≠ 0 then
              .ok (record .kfree (record .vfree st), -ENOENT, none)
            else
              let s0 : read_state :=
                { whats_left := Decon.s32 stat_size, r := 0, p := 0, f_pos := 0, buf := buf,
                  log := st.log }
              match mx140_request_file_loop fs path fs.fuel s0 with
              | none => .error .out_of_fuel
              | some s =>
                let st := record .filp_close { st with log := s.log }
                if s.r ≥ 0 then
                  .ok (st, 0, some { size := s.p.toNat, data := s.buf })
                else
                  .ok (record .kfree (record .vfree st), s.r, none)

/-- Source lines 434-447. -/
def mx140_release_file (firmp : Option firmware) (st : mx140_file) : mx140_file × Int :=
  match firmp with
  | none => (st, -EINVAL)
  | some _ => (record .kfree (record .vfree st), 0)

/-! ## Configuration files -/

/-- The path built by `__mx140_file_request_conf` (source lines 116-138). -/
def __mx140_file_request_conf_path (st : mx140_file) (sfx : fw_suffix)
    (platform_dir config_rel_path filename : List Char) (flat : Bool) : List Char :=
  if flat then
    scnprintf MX140_FW_PATH_MAX_LENGTH
      (st.base_dir ++ "/".toList ++ st.firmware_variant ++ sfx.suffix ++ "_".toList ++ filename)
  else
    scnprintf MX140_FW_PATH_MAX_LENGTH
      (st.base_dir ++ "/".toList ++ st.firmware_variant ++ sfx.suffix ++ "/".toList ++
        MX140_FW_CONF_SUBDIR ++ "/".toList ++ platform_dir ++
        (if platform_dir ≠ [] then "/".toList else []) ++ config_rel_path ++ "/".toList ++
        filename)

/-- Source lines 101-148.  `conf` is the value of `*conf` on entry; the result
carries its value on return. -/
def __mx140_file_request_conf (k : Kconfig) (fs : Vfs) (conf : Option firmware)
    (platform_dir config_rel_path filename : List Char) (flat : Bool) (st : mx140_file) :
    Except Fault (mx140_file × Int × Option firmware) :=
  let (st, r) := mx140_basedir_file k fs st
  if r ≠ 0 then
    .ok (st, -ENOENT, conf)
  else
    match fw_suffixes_at st.fw_suffix_found with
    | none => .error .out_of_bounds
    | some sfx =>
      mx140_request_file k fs
        (__mx140_file_request_conf_path st sfx platform_dir config_rel_path filename flat) st

/-- The platform block of `mx140_file_request_conf` (source lines 170-181), entered
with the result `acc` of the generic request. -/
def mx140_file_request_conf_platform (k : Kconfig) (fs : Vfs)
    (config_rel_path filename : List Char) (acc : mx140_file × Int × Option firmware) :
    Except Fault (mx140_file × Int × Option firmware) :=
  match k.CONFIG_SCSC_WLBT_CONFIG_PLATFORM with
  | none => .ok acc
  | some plat =>
    if acc.2.1 ≠ 0 then
      if plat ≠ [] then
        __mx140_file_request_conf k fs acc.2.2 plat config_rel_path filename false acc.1
      else .ok acc
    else .ok acc

/-- Source lines 150-190. -/
def mx140_file_request_conf (k : Kconfig) (fs : Vfs) (conf : Option firmware)
    (config_rel_path filename : List Char) (st : mx140_file) :
    Except Fault (mx140_file × Int × Option firmware) :=
  if st.cfg_platform ≠ "default".toList then
    __mx140_file_request_conf k fs conf st.cfg_platform config_rel_path filename false st
  else
    match __mx140_file_request_conf k fs conf [] config_rel_path filename false st with
    | .error e => .error e
    | .ok acc =>
      match mx140_file_request_conf_platform k fs config_rel_path filename acc with
      | .error e => .error e
      | .ok acc =>
        if acc.2.1 ≠ 0 then
          __mx140_file_request_conf k fs acc.2.2 [] config_rel_path filename true acc.1
        else .ok acc

/-- The path built by `mx140_file_request_debug_conf` (source lines 204-209). -/
def mx140_file_request_debug_conf_path (st : mx140_file) (sfx : fw_suffix)
    (config_rel_path : List Char) : List Char :=
  scnprintf MX140_FW_PATH_MAX_LENGTH
    (st.base_dir ++ "/".toList ++ st.firmware_variant ++ sfx.suffix ++ "/".toList ++
      MX140_FW_DEBUG_SUBDIR ++ "/".toList ++ config_rel_path)

/-- Source lines 194-212. -/
def mx140_file_request_debug_conf (k : Kconfig) (fs : Vfs) (conf : Option firmware)
    (config_rel_path : List Char) (st : mx140_file) :
    Except Fault (mx140_file × Int × Option firmware) :=
  let (st, r) := mx140_basedir_file k fs st
  if r ≠ 0 then
    .ok (st, -ENOENT, conf)
  else
    match fw_suffixes_at st.fw_suffix_found with
    | none => .error .out_of_bounds
    | some sfx =>
      mx140_request_file k fs (mx140_file_request_debug_conf_path st sfx config_rel_path) st

/-- The path built by `mx140_file_request_device_conf` (source lines 225-229): the
format is `"%s/%s%s/%s"` with the arguments `base_dir`, the suffix,
`MX140_FW_CONF_SUBDIR` and `config_rel_path`. -/
def mx140_file_request_device_conf_path (st : mx140_file) (sfx : fw_suffix)
    (config_rel_path : List Char) : List Char :=
  scnprintf MX140_FW_PATH_MAX_LENGTH
    (st.base_dir ++ "/".toList ++ sfx.suffix ++ MX140_FW_CONF_SUBDIR ++ "/".toList ++
      config_rel_path)

/-- Source lines 215-232. -/
def mx140_file_request_device_conf (k : Kconfig) (fs : Vfs) (conf : Option firmware)
    (config_rel_path : List Char) (st : mx140_file) :
    Except Fault (mx140_file × Int × Option firmware) :=
  let (st, r) := mx140_basedir_file k fs st
  if r ≠ 0 then
    .ok (st, -ENOENT, conf)
  else
    match fw_suffixes_at st.fw_suffix_found with
    | none => .error .out_of_bounds
    | some sfx =>
      mx140_request_file k fs (mx140_file_request_device_conf_path st sfx config_rel_path) st

/-! ## Firmware download -/

/-- The caller's memory that a download writes: the destination buffer and
`*fw_image_size`. -/
structure fw_dest where
  dest : List Nat
  fw_image_size : Nat
  deriving DecidableEq, Repr

/-- The path built by `__mx140_file_download_fw` (source lines 258-261). -/
def __mx140_file_download_fw_path (st : mx140_file) (fw_suffix : List Char) : List Char :=
  scnprintf MX140_FW_PATH_MAX_LENGTH
    (st.base_dir ++ "/".toList ++ st.firmware_variant ++ fw_suffix ++ ".bin".toList)

/-- The buffer after `memcpy(dest, data, n)`. -/
def memcpy (dest data : List Nat) (n : Nat) : List Nat :=
  data.take n ++ dest.drop n

/-- Source lines 244-280.  `mx140_request_file` returns 0 only together with a loaded
file; the branch for 0 without a file leaves everything as it is. -/
def __mx140_file_download_fw (k : Kconfig) (fs : Vfs) (dest_size : Nat)
    (fw_suffix : List Char) (st : mx140_file) (d : fw_dest) :
    Except Fault (mx140_file × Int × fw_dest) :=
  let (st, r) := mx140_basedir_file k fs st
  if r ≠ 0 then
    .ok (st, r, d)
  else
    match mx140_request_file k fs (__mx140_file_download_fw_path st fw_suffix) st with
    | .error e => .error e
    | .ok (st, r, firm) =>
      if r ≠ 0 then
        .ok (st, r, d)
      else
        match firm with
        | none => .ok (st, r, d)
        | some f =>
          if f.size > dest_size then
            .ok ((mx140_release_file firm st).1, -EINVAL, d)
          else
            let st := record (.memcpy f.size) st
            let d := { d with dest := memcpy d.dest f.data f.size,
                              fw_image_size := Decon.u32 f.size }
            .ok ((mx140_release_file firm st).1, r, d)

/-- The `for` loop of `mx140_file_download_fw` (source lines 305-311) from index `i`
on, `rest` being the table entries from `i` on and `r` the value `r` holds so far.
The result carries the final `r` and the final `i`. -/
def mx140_file_download_fw_loop (k : Kconfig) (fs : Vfs) (dest_size : Nat) :
    Nat → List fw_suffix → Int → mx140_file → fw_dest →
      Except Fault (mx140_file × Int × fw_dest × Nat)
  | i, [], r, st, d => .ok (st, r, d, i)
  | i, sfx :: rest, _, st, d =>
    match __mx140_file_download_fw k fs dest_size sfx.suffix st d with
    | .error e => .error e
    | .ok (st, r, d) =>
      if r ≠ -ENOENT then .ok (st, r, d, i)
      else mx140_file_download_fw_loop k fs dest_size (i + 1) rest r st d

/-- The `done` label of `mx140_file_download_fw` (source lines 316-322). -/
def mx140_file_download_fw_done (manual : Bool) (r : Int) (st : mx140_file) (d : fw_dest) :
    Except Fault (mx140_file × Int × fw_dest) :=
  if st.fw_suffix_found ≠ -1 ∧ manual = false then
    match fw_suffixes_at st.fw_suffix_found with
    | none => .error .out_of_bounds
    | some sfx => .ok ({ st with firmware_hw_ver := sfx.suffix }, r, d)
  else .ok (st, r, d)

/-- Source lines 282-323.  The loop always runs at least once, so the value `r`
holds before it is never used; it is 0 here. -/
def mx140_file_download_fw (k : Kconfig) (fs : Vfs) (dest_size : Nat) (st : mx140_file)
    (d : fw_dest) : Except Fault (mx140_file × Int × fw_dest) :=
  let manual := decide (st.firmware_hw_ver = "manual".toList)
  let st := if manual then { st with fw_suffix_found := (fw_suffixes.length : Int) - 1 } else st
  if st.fw_suffix_found ≠ -1 then
    match fw_suffixes_at st.fw_suffix_found with
    | none => .error .out_of_bounds
    | some sfx =>
      match __mx140_file_download_fw k fs dest_size sfx.suffix st d with
      | .error e => .error e
      | .ok (st, r, d) => mx140_file_download_fw_done manual r st d
  else
    match mx140_file_download_fw_loop k fs dest_size 0 fw_suffixes 0 st d with
    | .error e => .error e
    | .ok (st, r, d, i) =>
      let st := if r = 0 then { st with fw_suffix_found := (i : Int) } else st
      mx140_file_download_fw_done manual r st d

/-! ## Hardware version selection -/

/-- The `for` loop of `mx140_file_select_fw` (source lines 566-573) from index `i`
on: the index of the first entry whose `hw_ver` is `hw_ver`, if any. -/
def mx140_file_select_fw_loop (hw_ver : Nat) : Nat → List fw_suffix → Option Nat
  | _, [] => none
  | i, sfx :: rest =>
    if sfx.hw_ver = hw_ver then some i else mx140_file_select_fw_loop hw_ver (i + 1) rest

/-- Source lines 557-585. -/
def mx140_file_select_fw (k : Kconfig) (hw_ver : Nat) (st : mx140_file) : mx140_file × Int :=
  let hw_ver := (hw_ver &&& 0xff00) >>> 8
  match mx140_file_select_fw_loop hw_ver 0 fw_suffixes with
  | some i => ({ st with fw_suffix_found := (i : Int) }, 0)
  | none =>
    if k.MX140_UNIFIED_HW_FW then
      ({ st with fw_suffix_found := (fw_suffixes.length : Int) - 1 }, -EINVAL)
    else
      ({ st with fw_suffix_found := -1 }, -EINVAL)

/-- Source lines 587-597. -/
def mx140_file_supported_hw (hw_ver : Nat) (st : mx140_file) : Except Fault Bool :=
  let hw_ver := (hw_ver &&& 0xff00) >>> 8
  match fw_suffixes_at st.fw_suffix_found with
  | none => .error .out_of_bounds
  | some sfx =>
    if sfx.hw_ver = 0xff then .ok true
    else .ok (decide (sfx.hw_ver = hw_ver))

/-! ## Search orders -/

/-- The firmware selection held in the statics: suffix index and hardware version
string. -/
def fw_sel (st : mx140_file) : Int × List Char := (st.fw_suffix_found, st.firmware_hw_ver)

/-- The attempts of `mx140_file_download_fw` for the table entries `l`, made in order
from the statics and destination `a`: the statics and destination after the last of
them when every one returned `-ENOENT`, `none` otherwise. -/
def attempts_enoent (k : Kconfig) (fs : Vfs) (dest_size : Nat) :
    List fw_suffix → mx140_file × fw_dest → Option (mx140_file × fw_dest)
  | [], a => some a
  | sfx :: rest, a =>
    match __mx140_file_download_fw k fs dest_size sfx.suffix a.1 a.2 with
    | .error _ => none
    | .ok res => if res.2.1 = -ENOENT then attempts_enoent k fs dest_size rest (res.1, res.2.2) else none

/-- The locations `mx140_file_request_conf` searches, in order, as pairs of platform
directory and `flat`: the `cfg_platform` sub-directory alone when `cfg_platform` is not
"default"; otherwise the generic location, the platform location when a non-empty
`CONFIG_SCSC_WLBT_CONFIG_PLATFORM` is configured, and the flat location. -/
def conf_search_order (k : Kconfig) (st : mx140_file) : List (List Char × Bool) :=
  if st.cfg_platform ≠ "default".toList then [(st.cfg_platform, false)]
  else
    [([], false)] ++
      (match k.CONFIG_SCSC_WLBT_CONFIG_PLATFORM with
       | some plat => if plat ≠ [] then [(plat, false)] else []
       | none => []) ++
      [([], true)]

/-- Request the locations of a list in order until one request returns 0: the result
is that of the last request made (`acc` when the list is empty). -/
def request_conf_first_success (k : Kconfig) (fs : Vfs) (config_rel_path filename : List Char) :
    List (List Char × Bool) → mx140_file × Int × Option firmware →
      Except Fault (mx140_file × Int × Option firmware)
  | [], acc => .ok acc
  | loc :: rest, acc =>
    match __mx140_file_request_conf k fs acc.2.2 loc.1 config_rel_path filename loc.2 acc.1 with
    | .error e => .error e
    | .ok res =>
      if res.2.1 = 0 then .ok res
      else request_conf_first_success k fs config_rel_path filename rest res

/-- The reads the loop of `mx140_request_file` is expected to make for `w` bytes still
to read into the buffer at offset `p`, when every read delivers what it asks for: one
read of at most 4096 bytes per pass, at most `fuel` passes. -/
def read_ops : Nat → Nat → Nat → List Op
  | 0, _, _ => []
  | fuel + 1, p, w =>
    if w = 0 then []
    else Op.vfs_read (p : Int) ((min w 4096 : Nat) : Int) :: read_ops fuel (p + min w 4096) (w - min w 4096)

/-- The reads of a list of operations as pairs of buffer offset and byte count. -/
def reads_of : List Op → List (Int × Int)
  | [] => []
  | Op.vfs_read p c :: ops => (p, c) :: reads_of ops
  | _ :: ops => reads_of ops

/-- The size of the buffer `mx140_request_file` allocates for a file of `s` bytes:
`(s + 256) & ~255`. -/
def request_buf_size (s : Nat) : Nat := (s + 256) - (s + 256) % 256

/-- The file a logged operation requests, if it is a call of `mx140_request_file`. -/
def Op.request : Op → Option (List Char)
  | .mx140_request_file path => some path
  | _ => none

/-- The files requested by a list of operations, in order. -/
def requests (l : List Op) : List (List Char) := l.filterMap Op.request

/-- The files at the locations of `conf_search_order`, in order, for the statics `st`
and the table entry `sfx`: each path as `__mx140_file_request_conf` formats it. -/
def conf_search_paths (k : Kconfig) (st : mx140_file) (sfx : fw_suffix)
    (config_rel_path filename : List Char) : List (List Char) :=
  (conf_search_order k st).map
    (fun loc => __mx140_file_request_conf_path st sfx loc.1 config_rel_path filename loc.2)

/-- Request the files of a list in order with `mx140_request_file` until one request
returns 0: the result is that of the last request made (`acc` when the list is
empty). -/
def request_files_first_success (k : Kconfig) (fs : Vfs) :
    List (List Char) → mx140_file × Int × Option firmware →
      Except Fault (mx140_file × Int × Option firmware)
  | [], acc => .ok acc
  | path :: rest, acc =>
    match mx140_request_file k fs path acc.1 with
    | .error e => .error e
    | .ok res =>
      if res.2.1 = 0 then .ok res
      else request_files_first_success k fs rest res

/-- The statics with the log left out. -/
def statics (st : mx140_file) : mx140_file := { st with log := [] }

/-! ## Sample file system used to instantiate the theorems below -/

def sample_kconfig : Kconfig :=
  { CONFIG_SCSC_CORE_FW_LOCATION := "/etc/wifi".toList
    CONFIG_SCSC_CORE_FW_LOCATION_AUTO := false
    CONFIG_SCSC_CORE_TOOL_LOCATION := "/system/bin".toList
    CONFIG_SCSC_WLBT_CONFIG_PLATFORM := some "smdk".toList
    MX140_UNIFIED_HW_FW := false }

/-- A file system holding the directory `/etc/wifi` and the listed files. -/
def sample_vfs (files : List (List Char × List Nat)) : Vfs :=
  { vfs_stat := fun p => if p = "/etc/wifi".toList ∨ (files.lookup p).isSome then 0 else -2
    stat_size := fun p => (((files.lookup p).getD []).length : Int)
    filp_open := fun p => if (files.lookup p).isSome then 0 else -2
    vfs_read := fun p pos count =>
      if count < 0 then -14 else min count ((((files.lookup p).getD []).length : Int) - pos)
    file_data := fun p => (files.lookup p).getD []
    vzalloc := fun _ => true
    kzalloc := true
    fuel := 8 }

def sample_files : List (List Char × List Nat) :=
  [("/etc/wifi/mx140_10.bin".toList, [7, 8, 9]),
   ("/etc/wifi/conf/wlan/mac.txt".toList, [1, 2])]

def sample_mx : mx140_file := mx140_file_init sample_kconfig

def sample_dest : fw_dest := { dest := [0, 0, 0, 0], fw_image_size := 0 }

/-- The log of a failed look-up of `path`. -/
def sample_miss (path : List Char) : List Op :=
  [.mx140_request_file path, .vfs_stat "/etc/wifi".toList, .vfs_stat path]

/-- The log of a successful load of a file of `n` bytes at `path`. -/
def sample_hit (path : List Char) (n : Int) : List Op :=
  [.mx140_request_file path, .vfs_stat "/etc/wifi".toList, .vfs_stat path, .vzalloc 256,
   .kzalloc, .filp_open path, .vfs_read 0 n, .filp_close]

/-- A file system on which every path is a file of `2^31 - 1` bytes, every read
delivers what it asks for, and an allocation succeeds when its size, taken as a
signed number, is not negative. -/
def sample_vfs_huge : Vfs :=
  { vfs_stat := fun _ => 0
    stat_size := fun _ => 2147483647
    filp_open := fun _ => 0
    vfs_read := fun _ _ count => count
    file_data := fun _ => []
    vzalloc := fun size => decide (0 ≤ size)
    kzalloc := true
    fuel := 524288 }

/-- Configuration files of the sample platform `smdk` for the firmware `mx140_10`: the
file exists at the platform location only. -/
def sample_conf_files : List (List Char × List Nat) :=
  [("/etc/wifi/mx140_10/conf/smdk/wlan/wlan.hcf".toList, [4, 5])]
end Mx140

/-!
# KTD2692 flash LED driver: the sysfs attribute

A shallow embedding of `ktd2692_store`, `ktd2692_show` and the one-wire write they use,
from `drivers/leds/leds-ktd2692.c`.

* `global_ktd2692data` is the `pdata` of a `Led`, which every function takes and
  returns together with the `log` of the operations issued on the GPIO, the lock and
  the pin controller.  The pointer is taken to be set, as it is after probe.
* The constants of `leds-ktd2692.h` (timings, register addresses, mode values) are the
  fields of `Header`.
* `kstrtouint`, `gpio_request` and `devm_pinctrl_get_select` are answered by an `Env`.
* `LED_INFO` output is left out.
-/

namespace Ktd2692

/-- Constants of `leds-ktd2692.h`, which is not among the sources. -/
structure Header where
  T_SOD : Nat
  T_L_LB : Nat
  T_H_LB : Nat
  T_L_HB : Nat
  T_H_HB : Nat
  T_EOD_L : Nat
  T_EOD_H : Nat
  KTD2692_ADDR_LVP_SETTING : Nat
  KTD2692_ADDR_MOVIE_CURRENT_SETTING : Nat
  KTD2692_ADDR_MOVIE_FLASHMODE_CONTROL : Nat
  KTD2692_DISABLES_MOVIE_FLASH_MODE : Nat
  KTD2692_ENABLE_MOVIE_MODE : Nat

/-- Operations the driver issues, in program order. -/
inductive Op
  | gpio_request (gpio : Nat)
  | gpio_free (gpio : Nat)
  | gpio_set_value (gpio : Nat) (value : Nat)
  | udelay (usecs : Nat)
  | spin_lock_irqsave
  | spin_unlock_irqrestore
  | devm_pinctrl_get_select (name : String)
  | devm_pinctrl_put
  | pr_err (fmt : String) (name : String)
  | LED_ERROR (msg : String)
  deriving DecidableEq, Repr

/-- The fields of `struct ktd2692_platform_data` used here; `sysfs_input_data` is an
`int`. -/
structure ktd2692_platform_data where
  sysfs_input_data : Int := 0
  flash_control : Nat := 0
  mode_status : Nat := 0
  LVP_Voltage : Nat := 0
  movie_current_value : Nat := 0
  deriving DecidableEq, Repr

/-- The platform data behind `global_ktd2692data` and the log of operations. -/
structure Led where
  pdata : ktd2692_platform_data := {}
  log : List Op := []
  deriving DecidableEq, Repr

/-- Answers of the kernel: `kstrtouint s` is the number stored through the result
pointer when `kstrtouint(s, 10, ..)` returns 0, and `none` when it returns an error;
`gpio_request` is its return value; `devm_pinctrl_get_select name` tells whether the
returned pointer is valid (not `IS_ERR`). -/
structure Env where
  kstrtouint : List Char → Option Nat
  gpio_request : Int
  devm_pinctrl_get_select : String → Bool

/-- Append an operation to the log. -/
def record (op : Op) (st : Led) : Led := { st with log := st.log ++ [op] }

/-- Source lines 42-49. -/
def ktd2692_setGpio (onoff : Int) (st : Led) : Led :=
  if onoff ≠ 0 then record (.gpio_set_value st.pdata.flash_control 1) st
  else record (.gpio_set_value st.pdata.flash_control 0) st

/-- Source lines 51-83 (`DEBUG_LED_TIME` is not defined). -/
def ktd2692_set_low_bit (h : Header) (st : Led) : Led :=
  let st := record (.gpio_set_value st.pdata.flash_control 0) st
  let st := record (.udelay h.T_L_LB) st
  let st := record (.gpio_set_value st.pdata.flash_control 1) st
  record (.udelay h.T_H_LB) st

/-- Source lines 85-118 (`DEBUG_LED_TIME` is not defined). -/
def ktd2692_set_high_bit (h : Header) (st : Led) : Led :=
  let st := record (.gpio_set_value st.pdata.flash_control 0) st
  let st := record (.udelay h.T_L_HB) st
  let st := record (.gpio_set_value st.pdata.flash_control 1) st
  record (.udelay h.T_H_HB) st

/-- Source lines 120-128; the return value is always 0. -/
def ktd2692_set_bit (h : Header) (bit : Nat) (st : Led) : Led :=
  if bit ≠ 0 then ktd2692_set_high_bit h st else ktd2692_set_low_bit h st

/-- Source lines 130-179; the return value is always 0. -/
def ktd2692_write_data (h : Header) (data : Nat) (st : Led) : Led :=
  let st := record (.gpio_set_value st.pdata.flash_control 1) st
  let st := record (.udelay h.T_SOD) st
  let st := ktd2692_set_bit h ((data >>> 7) &&& 0x01) st
  let st := ktd2692_set_bit h ((data >>> 6) &&& 0x01) st
  let st := ktd2692_set_bit h ((data >>> 5) &&& 0x01) st
  let st := ktd2692_set_bit h ((data >>> 4) &&& 0x01) st
  let st := ktd2692_set_bit h ((data >>> 3) &&& 0x01) st
  let st := ktd2692_set_bit h ((data >>> 2) &&& 0x01) st
  let st := ktd2692_set_bit h ((data >>> 1) &&& 0x01) st
  let st := ktd2692_set_bit h ((data >>> 0) &&& 0x01) st
  let st := record (.gpio_set_value st.pdata.flash_control 0) st
  let st := record (.udelay h.T_EOD_L) st
  let st := record (.gpio_set_value st.pdata.flash_control 1) st
  record (.udelay h.T_EOD_H) st

/-- The end of `ktd2692_store` (source lines 356-359): release of the pin control
handle if it is valid. -/
def ktd2692_store_put (valid : Bool) (st : Led) : Led :=
  if valid then record .devm_pinctrl_put st else st

/-- Value held by an `ssize_t` after computing `x`. -/
def s64 (x : Int) : Int := (x + 9223372036854775808) % 18446744073709551616 - 9223372036854775808

/-- Source lines 311-318: the torch-off command, sent while the GPIO is held. -/
def ktd2692_store_off (h : Header) (st : Led) : Led :=
  let st := { st with pdata := { st.pdata with
    mode_status := h.KTD2692_DISABLES_MOVIE_FLASH_MODE } }
  let st := record .spin_lock_irqsave st
  let st := ktd2692_write_data h
    (st.pdata.mode_status ||| h.KTD2692_ADDR_MOVIE_FLASHMODE_CONTROL) st
  let st := record .spin_unlock_irqrestore st
  let st := ktd2692_setGpio 0 st
  record (.gpio_free st.pdata.flash_control) st

/-- Source lines 337-351: the torch-on sequence, sent while the GPIO is held (the
flash timeout write is under `#if 0`). -/
def ktd2692_store_on (h : Header) (st : Led) : Led :=
  let st := { st with pdata := { st.pdata with
    mode_status := h.KTD2692_ENABLE_MOVIE_MODE } }
  let st := record .spin_lock_irqsave st
  let st := ktd2692_write_data h
    (st.pdata.LVP_Voltage ||| h.KTD2692_ADDR_LVP_SETTING) st
  let st := ktd2692_write_data h
    (st.pdata.movie_current_value ||| h.KTD2692_ADDR_MOVIE_CURRENT_SETTING) st
  let st := ktd2692_write_data h
    (st.pdata.mode_status ||| h.KTD2692_ADDR_MOVIE_FLASHMODE_CONTROL) st
  let st := record .spin_unlock_irqrestore st
  record (.gpio_free st.pdata.flash_control) st

/-- The pin state selection of `ktd2692_store` (source lines 322-324 and 327-329):
`devm_pinctrl_get_select` and the message when the result is an error pointer. -/
def ktd2692_store_select (env : Env) (name : String) (st : Led) : Led :=
  let st := record (.devm_pinctrl_get_select name) st
  if env.devm_pinctrl_get_select name = false then
    record (.pr_err "%s: flash %s pins are not configured" name) st
  else st

/-- Source lines 302-359: `ktd2692_store` once the input has been parsed into the
`int value`. -/
def ktd2692_store_value (h : Header) (env : Env) (value : Int) (count : Nat) (st : Led) :
    Led × Int :=
  let st := { st with pdata := { st.pdata with sysfs_input_data := value } }
  if value ≤ 0 then
    let st := record (.gpio_request st.pdata.flash_control) st
    let st :=
      if env.gpio_request ≠ 0 then
        record (.LED_ERROR "Failed to requeset ktd2692_led_control") st
      else ktd2692_store_off h st
    let st := ktd2692_store_select env "is" st
    (ktd2692_store_put (env.devm_pinctrl_get_select "is") st, s64 count)
  else
    let st := ktd2692_store_select env "host" st
    let st := record (.gpio_request st.pdata.flash_control) st
    let st :=
      if env.gpio_request ≠ 0 then
        record (.LED_ERROR "Failed to requeset ktd2692_led_control") st
      else ktd2692_store_on h st
    (ktd2692_store_put (env.devm_pinctrl_get_select "host") st, s64 count)

/-- Source lines 289-360.  `value` is an `int` that `kstrtouint` fills through an
`unsigned int` pointer. -/
def ktd2692_store (h : Header) (env : Env) (buf : Option (List Char)) (count : Nat)
    (st : Led) : Led × Int :=
  match buf with
  | none => (st, -1)
  | some b =>
    match env.kstrtouint b with
    | none => (st, -1)
    | some n => ktd2692_store_value h env (Decon.s32 (Decon.u32 n)) count st

/-- The text `sprintf` produces for `"%d"` and an `int`. -/
def sprintf_d (x : Int) : List Char := (toString x).toList

/-- Source lines 362-366: the text written to `buf` and the return value, its
length. -/
def ktd2692_show (st : Led) : List Char × Int :=
  let out := sprintf_d st.pdata.sysfs_input_data ++ "\n".toList
  (out, (out.length : Int))

/-- The waveform of one data bit on GPIO `fc`: low then high, with the timing of a
high bit or of a low bit. -/
def set_bit_ops (h : Header) (fc : Nat) (bit : Nat) : List Op :=
  if bit ≠ 0 then
    [.gpio_set_value fc 0, .udelay h.T_L_HB, .gpio_set_value fc 1, .udelay h.T_H_HB]
  else
    [.gpio_set_value fc 0, .udelay h.T_L_LB, .gpio_set_value fc 1, .udelay h.T_H_LB]

/-- The operations of one `ktd2692_write_data` on GPIO `fc`: start condition, bits 7
down to 0 of `data`, end condition. -/
def write_data_ops (h : Header) (fc : Nat) (data : Nat) : List Op :=
  [.gpio_set_value fc 1, .udelay h.T_SOD] ++
    set_bit_ops h fc ((data >>> 7) &&& 0x01) ++ set_bit_ops h fc ((data >>> 6) &&& 0x01) ++
    set_bit_ops h fc ((data >>> 5) &&& 0x01) ++ set_bit_ops h fc ((data >>> 4) &&& 0x01) ++
    set_bit_ops h fc ((data >>> 3) &&& 0x01) ++ set_bit_ops h fc ((data >>> 2) &&& 0x01) ++
    set_bit_ops h fc ((data >>> 1) &&& 0x01) ++ set_bit_ops h fc ((data >>> 0) &&& 0x01) ++
    [.gpio_set_value fc 0, .udelay h.T_EOD_L, .gpio_set_value fc 1, .udelay h.T_EOD_H]

/-- The operations of `ktd2692_store` between `spin_lock_irqsave` and `gpio_free` when
it switches the torch on. -/
def torch_on_ops (h : Header) (p : ktd2692_platform_data) : List Op :=
  [Op.spin_lock_irqsave] ++
    write_data_ops h p.flash_control (p.LVP_Voltage ||| h.KTD2692_ADDR_LVP_SETTING) ++
    write_data_ops h p.flash_control
      (p.movie_current_value ||| h.KTD2692_ADDR_MOVIE_CURRENT_SETTING) ++
    write_data_ops h p.flash_control
      (h.KTD2692_ENABLE_MOVIE_MODE ||| h.KTD2692_ADDR_MOVIE_FLASHMODE_CONTROL) ++
    [Op.spin_unlock_irqrestore, Op.gpio_free p.flash_control]

/-- The operations of `ktd2692_store` between `spin_lock_irqsave` and `gpio_free` when
it switches the torch off. -/
def torch_off_ops (h : Header) (p : ktd2692_platform_data) : List Op :=
  [Op.spin_lock_irqsave] ++
    write_data_ops h p.flash_control
      (h.KTD2692_DISABLES_MOVIE_FLASH_MODE ||| h.KTD2692_ADDR_MOVIE_FLASHMODE_CONTROL) ++
    [Op.spin_unlock_irqrestore, Op.gpio_set_value p.flash_control 0,
     Op.gpio_free p.flash_control]

/-- Whether an operation drives the control line. -/
def Op.is_gpio_set_value : Op → Bool
  | .gpio_set_value _ _ => true
  | _ => false

/-- The operations of the pin state selection of `ktd2692_store`. -/
def pin_select_ops (env : Env) (name : String) : List Op :=
  [Op.devm_pinctrl_get_select name] ++
    (if env.devm_pinctrl_get_select name = false then
      [Op.pr_err "%s: flash %s pins are not configured" name] else [])

/-- The release of the pin control handle at the end of `ktd2692_store`. -/
def pin_put_ops (env : Env) (name : String) : List Op :=
  if env.devm_pinctrl_get_select name then [Op.devm_pinctrl_put] else []

/-- Sample values for the constants of the header. -/
def sample_header : Header :=
  { T_SOD := 15, T_L_LB := 9, T_H_LB := 4, T_L_HB := 4, T_H_HB := 9, T_EOD_L := 4,
    T_EOD_H := 350
    KTD2692_ADDR_LVP_SETTING := 0x00
    KTD2692_ADDR_MOVIE_CURRENT_SETTING := 0x60
    KTD2692_ADDR_MOVIE_FLASHMODE_CONTROL := 0xA0
    KTD2692_DISABLES_MOVIE_FLASH_MODE := 0x00
    KTD2692_ENABLE_MOVIE_MODE := 0x01 }

/-- Decimal digits to number, for the sample environment. -/
def sample_parse (s : List Char) : Option Nat :=
  if s.isEmpty || !s.all Char.isDigit then none
  else
    let n := s.foldl (fun acc c => acc * 10 + (c.toNat - 48)) 0
    if n < 4294967296 then some n else none

/-- An environment whose `gpio_request` returns `rc` and whose pin states exist. -/
def sample_led_env (rc : Int) : Env :=
  { kstrtouint := sample_parse, gpio_request := rc, devm_pinctrl_get_select := fun _ => true }

/-- The LED after probe, with its control line on GPIO 42. -/
def sample_led : Led :=
  { pdata := { flash_control := 42, LVP_Voltage := 0x00, movie_current_value := 0x08 } }

end Ktd2692

namespace Decon

/-! ## Basic facts about the trace -/

theorem issued_append (m0 m : Machine) (l : List (decon_state × Event))
    (h : m.trace = m0.trace ++ l) : issued m0 m = l := by
  simp [issued, h]

theorem emit_decon (e : Event) (m : Machine) : (emit e m).decon = m.decon := rfl

theorem emit_trace (e : Event) (m : Machine) :
    (emit e m).trace = m.trace ++ [(m.decon.state, e)] := rfl

theorem decon_lpd_unblock_trace (m : Machine) :
    (decon_lpd_unblock m).trace = m.trace ++ [(m.decon.state, .decon_lpd_unblock)] := rfl

theorem decon_lpd_unblock_state (m : Machine) :
    (decon_lpd_unblock m).decon.state = m.decon.state := rfl

theorem decon_lpd_unblock_pdata (m : Machine) :
    (decon_lpd_unblock m).decon.pdata = m.decon.pdata := rfl

theorem only_adds_refl (p : decon_state × Event → Bool) (m : Machine) : only_adds p m m :=
  ⟨rfl, rfl, [], by simp, by simp⟩

theorem only_adds_trans {p : decon_state × Event → Bool} {m0 m1 m2 : Machine}
    (h1 : only_adds p m0 m1) (h2 : only_adds p m1 m2) : only_adds p m0 m2 := by
  obtain ⟨s1, p1, l1, t1, q1⟩ := h1
  obtain ⟨s2, p2, l2, t2, q2⟩ := h2
  refine ⟨s2.trans s1, p2.trans p1, l1 ++ l2, by rw [t2, t1, List.append_assoc], ?_⟩
  rw [List.all_append, q1, q2]
  rfl

theorem only_adds_emit {p : decon_state × Event → Bool} (e : Event) (m : Machine)
    (h : p (m.decon.state, e) = true) : only_adds p m (emit e m) :=
  ⟨rfl, rfl, [(m.decon.state, e)], rfl, by simp [h]⟩

theorem only_adds_emit_right {p : decon_state × Event → Bool} {m0 m : Machine} (e : Event)
    (h : only_adds p m0 m) (he : p (m.decon.state, e) = true) : only_adds p m0 (emit e m) :=
  only_adds_trans h (only_adds_emit e m he)

theorem only_adds_of_eq (p : decon_state × Event → Bool) (m0 : Machine) {m : Machine}
    (hs : m.decon.state = m0.decon.state) (hp : m.decon.pdata = m0.decon.pdata)
    (ht : m.trace = m0.trace) : only_adds p m0 m :=
  ⟨hs, hp, [], by simp [ht], by simp⟩

theorem only_adds_issued {p : decon_state × Event → Bool} {m0 m : Machine}
    (h : only_adds p m0 m) : ∀ e ∈ issued m0 m, p e = true := by
  obtain ⟨_, _, l, t, q⟩ := h
  rw [issued_append m0 m l t]
  exact List.all_eq_true.mp q

theorem of_all_true {α : Type} (p : α → Bool) {l : List α} {e : α} (he : e ∈ l)
    (h : l.all p = true) : p e = true := List.all_eq_true.mp h e he

/-! ## Interrupt dispatch in `OFF` and `LPD` -/

/-- C1: in state `DECON_STATE_OFF` or `DECON_STATE_LPD`, whatever the registers
hold, `decon_int_irq_handler` leaves every device field and the filter status as
they were, issues nothing but the lock and unlock of `slock` (so no register read
or write), and returns `IRQ_HANDLED`. -/
theorem decon_int_irq_handler_off_or_lpd (b : Build) (env : Env) (m : Machine)
    (h : m.decon.state = .DECON_STATE_OFF ∨ m.decon.state = .DECON_STATE_LPD) :
    (decon_int_irq_handler b env m).1.decon = m.decon ∧
    (decon_int_irq_handler b env m).1.underrun_filter_status = m.underrun_filter_status ∧
    issued m (decon_int_irq_handler b env m).1 =
      [(m.decon.state, .spin_lock_slock), (m.decon.state, .spin_unlock_slock)] ∧
    (∀ e ∈ issued m (decon_int_irq_handler b env m).1, e.2.is_reg_access = false) ∧
    (decon_int_irq_handler b env m).2 = .IRQ_HANDLED := by
  rcases h with h | h <;>
    simp [decon_int_irq_handler, decon_int_irq_handler_irq_end, emit, issued, h,
      Event.is_reg_access, Event.is_reg_read, Event.is_reg_write]

/-- C1, instantiated: state `LPD`, all three interrupt bits pending. -/
theorem decon_int_irq_handler_off_or_lpd_witness :
    ((sample_machine .DECON_STATE_LPD 0).decon.state = .DECON_STATE_OFF ∨
      (sample_machine .DECON_STATE_LPD 0).decon.state = .DECON_STATE_LPD) ∧
    (decon_int_irq_handler sample_build (sample_env 7 0)
      (sample_machine .DECON_STATE_LPD 0)).1.decon = (sample_machine .DECON_STATE_LPD 0).decon ∧
    (decon_int_irq_handler sample_build (sample_env 7 0)
      (sample_machine .DECON_STATE_LPD 0)).2 = .IRQ_HANDLED :=
  ⟨Or.inr rfl,
    (decon_int_irq_handler_off_or_lpd sample_build (sample_env 7 0)
      (sample_machine .DECON_STATE_LPD 0) (Or.inr rfl)).1,
    (decon_int_irq_handler_off_or_lpd sample_build (sample_env 7 0)
      (sample_machine .DECON_STATE_LPD 0) (Or.inr rfl)).2.2.2.2⟩

/-! ## LPD entry while blocked -/

/-- C2: if `lpd_block_cnt > 0` when `decon_enter_lpd` is called then, in every
display state, the device is left as it was (state, trigger count and block count
included) and `decon_disable` is not invoked. -/
theorem decon_enter_lpd_blocked (b : Build) (env : Env) (m : Machine)
    (h : 0 < m.decon.lpd_block_cnt) :
    (decon_enter_lpd b env m).1.decon = m.decon ∧
    (decon_enter_lpd b env m).1.decon.state = m.decon.state ∧
    (decon_enter_lpd b env m).1.decon.lpd_trig_cnt = m.decon.lpd_trig_cnt ∧
    (decon_enter_lpd b env m).1.decon.lpd_block_cnt = m.decon.lpd_block_cnt ∧
    (∀ e ∈ issued m (decon_enter_lpd b env m).1, e.2 ≠ .decon_disable) := by
  cases hb : b.CONFIG_DECON_LPD_DISPLAY <;>
    simp [decon_enter_lpd, decon_enter_lpd_err2, decon_is_lpd_blocked, emit, issued, hb, h]

/-- C2, instantiated: state `ON` with one blocker. -/
theorem decon_enter_lpd_blocked_witness :
    0 < (sample_machine .DECON_STATE_ON 1).decon.lpd_block_cnt ∧
    (decon_enter_lpd sample_build (sample_env 0 0)
      (sample_machine .DECON_STATE_ON 1)).1.decon.state = .DECON_STATE_ON :=
  ⟨by decide,
    (decon_enter_lpd_blocked sample_build (sample_env 0 0)
      (sample_machine .DECON_STATE_ON 1) (by decide)).2.1⟩

/-! ## LPD exit -/

/-- Flushing the LPD work queue while at least one blocker is held runs the queued
work, if any, to no effect: the entry condition fails. -/
theorem flush_workqueue_lpd_wq_blocked (b : Build) (env : Env) (m : Machine)
    (h : 0 < m.decon.lpd_block_cnt) :
    flush_workqueue_lpd_wq b env m =
      { m with
        decon := { m.decon with lpd_work_pending := false }
        trace := m.trace ++ [(m.decon.state, .flush_workqueue_lpd_wq)] } := by
  cases hp : m.decon.lpd_work_pending <;>
    simp [flush_workqueue_lpd_wq, decon_int_lpd_handler, decon_lpd_enter_cond,
      decon_is_lpd_blocked, emit, hp, h]
  · cases m with
    | mk d s l t =>
      cases d
      simp_all

/-- C3: for every starting state and every environment (in particular every
outcome of `decon_enable`), `lpd_block_cnt` has the same value after
`decon_exit_lpd` as before; when the LPD feature is compiled in, the call issues
exactly one `decon_lpd_block` and exactly one `decon_lpd_unblock`, whichever path
it takes. -/
theorem decon_exit_lpd_block_cnt_net_zero (b : Build) (env : Env) (m : Machine) :
    (decon_exit_lpd b env m).1.decon.lpd_block_cnt = m.decon.lpd_block_cnt ∧
    ((issued m (decon_exit_lpd b env m).1).map Prod.snd).count .decon_lpd_block =
      (if b.CONFIG_DECON_LPD_DISPLAY then 1 else 0) ∧
    ((issued m (decon_exit_lpd b env m).1).map Prod.snd).count .decon_lpd_unblock =
      (if b.CONFIG_DECON_LPD_DISPLAY then 1 else 0) := by
  cases hb : b.CONFIG_DECON_LPD_DISPLAY
  · simp [decon_exit_lpd, hb, issued]
  · by_cases hs : m.decon.state = .DECON_STATE_LPD <;>
      simp [decon_exit_lpd, decon_exit_lpd_err, hb, hs, issued, emit, decon_lpd_block,
        decon_lpd_unblock, decon_lpd_trig_reset, flush_workqueue_lpd_wq_blocked]

/-! ## Underrun filter -/

theorem s32_succ (x : Int) : s32 (s32 x + 1) = s32 (x + 1) := by
  unfold s32
  omega

theorem s32_of_range (x : Int) (h1 : -2147483648 ≤ x) (h2 : x ≤ 2147483647) : s32 x = x := by
  unfold s32
  omega

theorem decon_oneshot_underrun_log_status (b : Build) (m : Machine) :
    (decon_oneshot_underrun_log b m).underrun_filter_status =
      s32 (m.underrun_filter_status + 1) := by
  unfold decon_oneshot_underrun_log
  simp only [emit]
  split_ifs <;> rfl

/-- A call passes the filter exactly when the status it finds is not above
`UNDERRUN_FILTER_IDLE`. -/
theorem passes_filter_eq (b : Build) (m : Machine) :
    passes_filter b m = decide (m.underrun_filter_status ≤ UNDERRUN_FILTER_IDLE) := by
  unfold passes_filter decon_oneshot_underrun_log
  by_cases h : m.underrun_filter_status > UNDERRUN_FILTER_IDLE
  · simp [h, issued]
  · by_cases h2 : s32 (m.decon.underrun_stat.underrun_cnt + 1) > b.DECON_UNDERRUN_THRESHOLD
    · simp [h, h2, issued, emit]
      omega
    · simp [h, h2, issued, emit]
      omega

theorem underrun_burst_status (b : Build) (m : Machine)
    (h : m.underrun_filter_status = UNDERRUN_FILTER_IDLE) (n : Nat) :
    (underrun_burst b n m).underrun_filter_status = s32 (1 + n) := by
  induction n with
  | zero => simp [underrun_burst, h, UNDERRUN_FILTER_IDLE, s32]
  | succ k ih =>
    rw [underrun_burst, decon_oneshot_underrun_log_status, ih, s32_succ]
    congr 1

/-- C4, amended: starting with `underrun_filter_status = UNDERRUN_FILTER_IDLE` and
with no run of `underrun_filter_handler` in between, for every `N` with
`1 ≤ N ≤ 2^31 - 1`, of `N` consecutive calls of `decon_oneshot_underrun_log` the
first passes the filter and each of the remaining `N - 1` returns early. -/
theorem underrun_burst_passes_once (b : Build) (m : Machine) (N i : Nat)
    (h : m.underrun_filter_status = UNDERRUN_FILTER_IDLE)
    (hN : 1 ≤ N) (hmax : N ≤ 2147483647) (hi : i < N) :
    passes_filter b (underrun_burst b i m) = decide (i = 0) := by
  rw [passes_filter_eq, underrun_burst_status b m h i,
    s32_of_range (1 + (i : Int)) (by omega) (by omega)]
  simp only [UNDERRUN_FILTER_IDLE, decide_eq_decide]
  omega

/-- C4, amended, instantiated: of three calls the first passes and the third does
not. -/
theorem underrun_burst_passes_once_witness :
    (sample_machine .DECON_STATE_ON 0).underrun_filter_status = UNDERRUN_FILTER_IDLE ∧
    passes_filter sample_build
      (underrun_burst sample_build 0 (sample_machine .DECON_STATE_ON 0)) = true ∧
    passes_filter sample_build
      (underrun_burst sample_build 2 (sample_machine .DECON_STATE_ON 0)) = false :=
  ⟨rfl,
    underrun_burst_passes_once sample_build (sample_machine .DECON_STATE_ON 0) 3 0 rfl
      (by decide) (by decide) (by decide),
    underrun_burst_passes_once sample_build (sample_machine .DECON_STATE_ON 0) 3 2 rfl
      (by decide) (by decide) (by decide)⟩

/-- C4 as stated fails: with `N = 2^31` calls starting from
`UNDERRUN_FILTER_IDLE`, the last call (the `2^31`-th, not the first) passes the
filter again, because the `int` status has wrapped to a negative value. -/
theorem underrun_burst_passes_again_after_wrap :
    (sample_machine .DECON_STATE_ON 0).underrun_filter_status = UNDERRUN_FILTER_IDLE ∧
    (underrun_burst sample_build 2147483647
      (sample_machine .DECON_STATE_ON 0)).underrun_filter_status = -2147483648 ∧
    passes_filter sample_build
      (underrun_burst sample_build 2147483647 (sample_machine .DECON_STATE_ON 0)) = true ∧
    ¬ (∀ N i : Nat, 1 ≤ N → i < N →
      passes_filter sample_build
        (underrun_burst sample_build i (sample_machine .DECON_STATE_ON 0)) = decide (i = 0)) := by
  have hs : (underrun_burst sample_build 2147483647
      (sample_machine .DECON_STATE_ON 0)).underrun_filter_status = -2147483648 := by
    rw [underrun_burst_status sample_build _ rfl]
    unfold s32
    norm_num
  have hp : passes_filter sample_build
      (underrun_burst sample_build 2147483647 (sample_machine .DECON_STATE_ON 0)) = true := by
    rw [passes_filter_eq, hs]
    simp [UNDERRUN_FILTER_IDLE]
  refine ⟨rfl, hs, hp, ?_⟩
  intro hall
  have := hall 2147483648 2147483647 (by norm_num) (by norm_num)
  rw [hp] at this
  simp at this

/-- C5: once `underrun_filter_handler` has run, whatever the machine looked like
before (in particular however many underruns were suppressed), the next call of
`decon_oneshot_underrun_log` passes the filter, and `underrun_stat.underrun_cnt` is
0 when that call returns. -/
theorem decon_oneshot_underrun_log_after_filter_reset (b : Build) (m : Machine) :
    passes_filter b (underrun_filter_handler m) = true ∧
    (decon_oneshot_underrun_log b
      (underrun_filter_handler m)).decon.underrun_stat.underrun_cnt = 0 := by
  constructor
  · rw [passes_filter_eq]
    simp [underrun_filter_handler, emit]
  · unfold decon_oneshot_underrun_log
    simp only [underrun_filter_handler, emit, UNDERRUN_FILTER_IDLE]
    split_ifs <;> simp_all

/-! ## The LPD transitions -/

/-- C6: `decon_enter_lpd` changes the display state only when `lpd_block_cnt = 0`
and the state is `DECON_STATE_ON`.  In that case (LPD feature compiled in)
`decon_disable` is invoked exactly once, with the state already set to
`DECON_STATE_LPD_ENT_REQ`, everything after it happens in `DECON_STATE_LPD`, and
the call returns in state `DECON_STATE_LPD`.  From every other state the device is
left as it was (state and `lpd_block_cnt` included) and `decon_disable` is not
invoked.  The return value is always 0. -/
theorem decon_enter_lpd_transitions (b : Build) (env : Env) (m : Machine) :
    (b.CONFIG_DECON_LPD_DISPLAY = true → m.decon.lpd_block_cnt = 0 →
      m.decon.state = .DECON_STATE_ON →
        (decon_enter_lpd b env m).1.decon.state = .DECON_STATE_LPD ∧
        (decon_enter_lpd b env m).1.decon.lpd_block_cnt = m.decon.lpd_block_cnt ∧
        issued m (decon_enter_lpd b env m).1 =
          [(.DECON_STATE_ON, .mutex_lock_lpd_lock),
           (.DECON_STATE_ON, .decon_lpd_block),
           (.DECON_STATE_ON, .decon_lpd_trig_reset),
           (.DECON_STATE_LPD_ENT_REQ, .decon_disable),
           (.DECON_STATE_LPD, .decon_lpd_unblock),
           (.DECON_STATE_LPD, .mutex_unlock_lpd_lock)]) ∧
    (m.decon.state ≠ .DECON_STATE_ON →
      (decon_enter_lpd b env m).1.decon = m.decon ∧
      (∀ e ∈ issued m (decon_enter_lpd b env m).1, e.2 ≠ .decon_disable)) ∧
    ((decon_enter_lpd b env m).1.decon.state ≠ m.decon.state →
      m.decon.lpd_block_cnt = 0 ∧ m.decon.state = .DECON_STATE_ON) ∧
    (decon_enter_lpd b env m).2 = 0 := by
  cases hb : b.CONFIG_DECON_LPD_DISPLAY
  · simp [decon_enter_lpd, hb, issued]
  · by_cases hblk : m.decon.lpd_block_cnt = 0
    · by_cases hs : m.decon.state = .DECON_STATE_ON
      · simp [decon_enter_lpd, decon_enter_lpd_err, decon_enter_lpd_err2,
          decon_is_lpd_blocked, decon_lpd_block, decon_lpd_unblock, decon_lpd_trig_reset,
          emit, issued, hb, hblk, hs]
      · obtain ⟨⟨st, pd, bw, us, vs, fs, fd, fi, tc, bc, wp⟩, fl, en, tr⟩ := m
        simp only at hblk hs
        subst hblk
        simp [decon_enter_lpd, decon_enter_lpd_err, decon_enter_lpd_err2,
          decon_is_lpd_blocked, decon_lpd_block, decon_lpd_unblock, decon_lpd_trig_reset,
          emit, issued, hb, hs]
    · have hpos : 0 < m.decon.lpd_block_cnt := Nat.pos_of_ne_zero hblk
      simp [decon_enter_lpd, decon_enter_lpd_err2, decon_is_lpd_blocked, emit, issued, hb,
        hblk, hpos]

/-- C6, instantiated: from `ON` with no blocker the call ends in `LPD`; from
`LPD_EXIT_REQ` the device is untouched. -/
theorem decon_enter_lpd_transitions_witness :
    (sample_build.CONFIG_DECON_LPD_DISPLAY = true ∧
      (sample_machine .DECON_STATE_ON 0).decon.lpd_block_cnt = 0 ∧
      (sample_machine .DECON_STATE_ON 0).decon.state = .DECON_STATE_ON ∧
      (decon_enter_lpd sample_build (sample_env 0 0)
        (sample_machine .DECON_STATE_ON 0)).1.decon.state = .DECON_STATE_LPD) ∧
    ((sample_machine .DECON_STATE_LPD_EXIT_REQ 0).decon.state ≠ .DECON_STATE_ON ∧
      (decon_enter_lpd sample_build (sample_env 0 0)
        (sample_machine .DECON_STATE_LPD_EXIT_REQ 0)).1.decon =
        (sample_machine .DECON_STATE_LPD_EXIT_REQ 0).decon) :=
  ⟨⟨rfl, rfl, rfl,
    ((decon_enter_lpd_transitions sample_build (sample_env 0 0)
      (sample_machine .DECON_STATE_ON 0)).1 rfl rfl rfl).1⟩,
   ⟨by decide,
    ((decon_enter_lpd_transitions sample_build (sample_env 0 0)
      (sample_machine .DECON_STATE_LPD_EXIT_REQ 0)).2.1 (by decide)).1⟩⟩

/-- C7: called in `DECON_STATE_LPD` (LPD feature compiled in), `decon_exit_lpd` sets
the state to `DECON_STATE_LPD_EXIT_REQ`, then invokes `decon_enable`, then resets the
trigger count, then sets the state to `DECON_STATE_ON`, and returns 0 whatever
`decon_enable` returned.  Called in any other state it leaves the state and the
trigger count as they were, does not invoke `decon_enable`, and returns 0. -/
theorem decon_exit_lpd_transitions (b : Build) (env : Env) (m : Machine) :
    (b.CONFIG_DECON_LPD_DISPLAY = true → m.decon.state = .DECON_STATE_LPD →
        (decon_exit_lpd b env m).1.decon.state = .DECON_STATE_ON ∧
        (decon_exit_lpd b env m).1.decon.lpd_trig_cnt = 0 ∧
        issued m (decon_exit_lpd b env m).1 =
          [(.DECON_STATE_LPD, .decon_lpd_block),
           (.DECON_STATE_LPD, .flush_workqueue_lpd_wq),
           (.DECON_STATE_LPD, .mutex_lock_lpd_lock),
           (.DECON_STATE_LPD_EXIT_REQ, .decon_enable),
           (.DECON_STATE_LPD_EXIT_REQ, .decon_lpd_trig_reset),
           (.DECON_STATE_ON, .decon_lpd_unblock),
           (.DECON_STATE_ON, .mutex_unlock_lpd_lock)]) ∧
    (m.decon.state ≠ .DECON_STATE_LPD →
      (decon_exit_lpd b env m).1.decon.state = m.decon.state ∧
      (decon_exit_lpd b env m).1.decon.lpd_trig_cnt = m.decon.lpd_trig_cnt ∧
      (∀ e ∈ issued m (decon_exit_lpd b env m).1, e.2 ≠ .decon_enable)) ∧
    (decon_exit_lpd b env m).2 = 0 := by
  cases hb : b.CONFIG_DECON_LPD_DISPLAY
  · simp [decon_exit_lpd, hb, issued]
  · by_cases hs : m.decon.state = .DECON_STATE_LPD <;>
      simp [decon_exit_lpd, decon_exit_lpd_err, hb, hs, issued, emit, decon_lpd_block,
        decon_lpd_unblock, decon_lpd_trig_reset, flush_workqueue_lpd_wq_blocked]

/-- C7, instantiated: `decon_enable` fails with -5, yet the call returns 0 in state
`ON`; from `OFF` the state stays `OFF`. -/
theorem decon_exit_lpd_transitions_witness :
    (sample_env 0 (-5)).decon_enable ≠ 0 ∧
    (sample_build.CONFIG_DECON_LPD_DISPLAY = true ∧
      (sample_machine .DECON_STATE_LPD 0).decon.state = .DECON_STATE_LPD ∧
      (decon_exit_lpd sample_build (sample_env 0 (-5))
        (sample_machine .DECON_STATE_LPD 0)).1.decon.state = .DECON_STATE_ON ∧
      (decon_exit_lpd sample_build (sample_env 0 (-5))
        (sample_machine .DECON_STATE_LPD 0)).2 = 0) ∧
    ((sample_machine .DECON_STATE_OFF 0).decon.state ≠ .DECON_STATE_LPD ∧
      (decon_exit_lpd sample_build (sample_env 0 (-5))
        (sample_machine .DECON_STATE_OFF 0)).1.decon.state = .DECON_STATE_OFF) :=
  ⟨by decide,
   ⟨rfl, rfl,
    ((decon_exit_lpd_transitions sample_build (sample_env 0 (-5))
      (sample_machine .DECON_STATE_LPD 0)).1 rfl rfl).1,
    (decon_exit_lpd_transitions sample_build (sample_env 0 (-5))
      (sample_machine .DECON_STATE_LPD 0)).2.2⟩,
   ⟨by decide,
    ((decon_exit_lpd_transitions sample_build (sample_env 0 (-5))
      (sample_machine .DECON_STATE_OFF 0)).2.1 (by decide)).1⟩⟩

/-! ## Frame counters -/

theorem foldl_keeps {α : Type} (f : Machine → Nat → Machine) (g : Machine → α)
    (hf : ∀ m i, g (f m i) = g m) (l : List Nat) (m : Machine) :
    g (l.foldl f m) = g m := by
  induction l generalizing m with
  | nil => rfl
  | cons i l ih => rw [List.foldl_cons, ih, hf]

/-- What `decon_int_get_enabled_win` leaves alone: everything but
`underrun_stat.used_windows` and the trace. -/
theorem decon_int_get_enabled_win_keeps (b : Build) (env : Env) (m : Machine) :
    (decon_int_get_enabled_win b env m).decon.state = m.decon.state ∧
    (decon_int_get_enabled_win b env m).decon.frame_start_cnt_cur =
      m.decon.frame_start_cnt_cur ∧
    (decon_int_get_enabled_win b env m).decon.frame_done_cnt_cur =
      m.decon.frame_done_cnt_cur := by
  have hstep : ∀ (m : Machine) (i : Nat),
      (fun x : Machine => (x.decon.state, x.decon.frame_start_cnt_cur,
        x.decon.frame_done_cnt_cur)) (decon_int_get_enabled_win_step b env m i) =
      (fun x : Machine => (x.decon.state, x.decon.frame_start_cnt_cur,
        x.decon.frame_done_cnt_cur)) m := by
    intro m i
    simp only [decon_int_get_enabled_win_step, emit]
    split_ifs <;> rfl
  have h := foldl_keeps (decon_int_get_enabled_win_step b env)
    (fun x : Machine => (x.decon.state, x.decon.frame_start_cnt_cur,
      x.decon.frame_done_cnt_cur)) hstep
    (List.range m.decon.pdata.max_win)
    { m with decon := { m.decon with underrun_stat :=
      { m.decon.underrun_stat with used_windows := 0 } } }
  simp only [Prod.mk.injEq] at h
  exact h

/-- What `decon_oneshot_underrun_log` leaves alone. -/
theorem decon_oneshot_underrun_log_keeps (b : Build) (m : Machine) :
    (decon_oneshot_underrun_log b m).decon.state = m.decon.state ∧
    (decon_oneshot_underrun_log b m).decon.frame_start_cnt_cur =
      m.decon.frame_start_cnt_cur ∧
    (decon_oneshot_underrun_log b m).decon.frame_done_cnt_cur =
      m.decon.frame_done_cnt_cur := by
  simp only [decon_oneshot_underrun_log, emit]
  split_ifs <;> simp

theorem decon_int_irq_handler_state (b : Build) (env : Env) (m : Machine) :
    (decon_int_irq_handler b env m).1.decon.state = m.decon.state := by
  simp only [decon_int_irq_handler, decon_int_irq_handler_irq_end, emit]
  split_ifs <;>
    simp [(decon_oneshot_underrun_log_keeps b _).1, (decon_int_get_enabled_win_keeps b env _).1]

theorem decon_int_irq_handler_counters (b : Build) (env : Env) (m : Machine)
    (h1 : m.decon.state ≠ .DECON_STATE_OFF) (h2 : m.decon.state ≠ .DECON_STATE_LPD) :
    (decon_int_irq_handler b env m).1.decon.frame_start_cnt_cur =
      (if frame_pending b env then s32 (m.decon.frame_start_cnt_cur + 1)
        else m.decon.frame_start_cnt_cur) ∧
    (decon_int_irq_handler b env m).1.decon.frame_done_cnt_cur =
      (if i80_pending b env then s32 (m.decon.frame_done_cnt_cur + 1)
        else m.decon.frame_done_cnt_cur) := by
  simp only [decon_int_irq_handler, decon_int_irq_handler_irq_end, emit, frame_pending,
    i80_pending, h1, h2, or_self, if_false]
  split_ifs <;>
    simp_all [(decon_oneshot_underrun_log_keeps b _).2, (decon_int_get_enabled_win_keeps b env _).2]

theorem s32_is_s32 (x : Int) : is_s32 (s32 x) := by
  unfold is_s32 s32
  omega

theorem s32_add_s32 (x : Int) (n : Nat) : s32 (s32 (x + 1) + n) = s32 (x + (n + 1 : Nat)) := by
  unfold s32
  push_cast
  omega

theorem irq_run_counters (b : Build) (envs : List Env) (m : Machine)
    (h1 : m.decon.state ≠ .DECON_STATE_OFF) (h2 : m.decon.state ≠ .DECON_STATE_LPD)
    (hs : is_s32 m.decon.frame_start_cnt_cur) (hd : is_s32 m.decon.frame_done_cnt_cur) :
    (irq_run b envs m).decon.frame_start_cnt_cur =
      s32 (m.decon.frame_start_cnt_cur + envs.countP (frame_pending b)) ∧
    (irq_run b envs m).decon.frame_done_cnt_cur =
      s32 (m.decon.frame_done_cnt_cur + envs.countP (i80_pending b)) := by
  induction envs generalizing m with
  | nil =>
    simp only [irq_run, List.countP_nil, Nat.cast_zero, add_zero]
    exact ⟨(s32_of_range _ hs.1 hs.2).symm, (s32_of_range _ hd.1 hd.2).symm⟩
  | cons env envs ih =>
    have hst := decon_int_irq_handler_state b env m
    have hc := decon_int_irq_handler_counters b env m h1 h2
    have hs' : is_s32 (decon_int_irq_handler b env m).1.decon.frame_start_cnt_cur := by
      rw [hc.1]
      split_ifs
      · exact s32_is_s32 _
      · exact hs
    have hd' : is_s32 (decon_int_irq_handler b env m).1.decon.frame_done_cnt_cur := by
      rw [hc.2]
      split_ifs
      · exact s32_is_s32 _
      · exact hd
    have := ih (decon_int_irq_handler b env m).1 (by rw [hst]; exact h1)
      (by rw [hst]; exact h2) hs' hd'
    rw [irq_run, this.1, this.2, hc.1, hc.2]
    constructor
    · by_cases hf : frame_pending b env = true
      · simp only [hf, if_true, List.countP_cons_of_pos, s32_add_s32]
      · simp [hf, List.countP_cons_of_neg]
    · by_cases hf : i80_pending b env = true
      · simp only [hf, if_true, List.countP_cons_of_pos, s32_add_s32]
      · simp [hf, List.countP_cons_of_neg]

/-- C8: in a state other than `OFF`/`LPD`, one invocation of `decon_int_irq_handler`
adds exactly 1 (as a 32-bit `int`) to `frame_start_cnt_cur` if the `FRAME` bit of the
status word is set and leaves it unchanged otherwise, and likewise for
`frame_done_cnt_cur` and the `I80` bit.  Hence after any sequence of invocations
each counter equals, modulo the counter width, its initial value plus the number of
corresponding events handled, and as long as that sum fits the counter it is exactly
that sum, so the counter never decreases. -/
theorem frame_counters_count_events (b : Build) (envs : List Env) (m : Machine)
    (h1 : m.decon.state ≠ .DECON_STATE_OFF) (h2 : m.decon.state ≠ .DECON_STATE_LPD)
    (hs : is_s32 m.decon.frame_start_cnt_cur) (hd : is_s32 m.decon.frame_done_cnt_cur) :
    (∀ env : Env,
      (decon_int_irq_handler b env m).1.decon.frame_start_cnt_cur =
        (if frame_pending b env then s32 (m.decon.frame_start_cnt_cur + 1)
          else m.decon.frame_start_cnt_cur) ∧
      (decon_int_irq_handler b env m).1.decon.frame_done_cnt_cur =
        (if i80_pending b env then s32 (m.decon.frame_done_cnt_cur + 1)
          else m.decon.frame_done_cnt_cur)) ∧
    (irq_run b envs m).decon.frame_start_cnt_cur =
      s32 (m.decon.frame_start_cnt_cur + envs.countP (frame_pending b)) ∧
    (irq_run b envs m).decon.frame_done_cnt_cur =
      s32 (m.decon.frame_done_cnt_cur + envs.countP (i80_pending b)) ∧
    (m.decon.frame_start_cnt_cur + envs.countP (frame_pending b) ≤ 2147483647 →
      (irq_run b envs m).decon.frame_start_cnt_cur =
        m.decon.frame_start_cnt_cur + envs.countP (frame_pending b)) ∧
    (m.decon.frame_done_cnt_cur + envs.countP (i80_pending b) ≤ 2147483647 →
      (irq_run b envs m).decon.frame_done_cnt_cur =
        m.decon.frame_done_cnt_cur + envs.countP (i80_pending b)) := by
  have hrun := irq_run_counters b envs m h1 h2 hs hd
  refine ⟨fun env => decon_int_irq_handler_counters b env m h1 h2, hrun.1, hrun.2, ?_, ?_⟩
  · intro hle
    rw [hrun.1]
    exact s32_of_range _ (by have := hs.1; omega) hle
  · intro hle
    rw [hrun.2]
    exact s32_of_range _ (by have := hd.1; omega) hle

/-- C8, instantiated: in state `ON`, status words 2 (FRAME), 4 (I80), 6 (both) and 1
(FIFO only) bring both counters from 0 to 2. -/
theorem frame_counters_count_events_witness :
    (sample_machine .DECON_STATE_ON 0).decon.state ≠ .DECON_STATE_OFF ∧
    (sample_machine .DECON_STATE_ON 0).decon.state ≠ .DECON_STATE_LPD ∧
    is_s32 (sample_machine .DECON_STATE_ON 0).decon.frame_start_cnt_cur ∧
    is_s32 (sample_machine .DECON_STATE_ON 0).decon.frame_done_cnt_cur ∧
    (irq_run sample_build [sample_env 2 0, sample_env 4 0, sample_env 6 0, sample_env 1 0]
      (sample_machine .DECON_STATE_ON 0)).decon.frame_start_cnt_cur = s32 (0 + (2 : Nat)) ∧
    (irq_run sample_build [sample_env 2 0, sample_env 4 0, sample_env 6 0, sample_env 1 0]
      (sample_machine .DECON_STATE_ON 0)).decon.frame_done_cnt_cur = s32 (0 + (2 : Nat)) :=
  ⟨by decide, by decide, by unfold is_s32; decide, by unfold is_s32; decide,
    (frame_counters_count_events sample_build
      [sample_env 2 0, sample_env 4 0, sample_env 6 0, sample_env 1 0]
      (sample_machine .DECON_STATE_ON 0) (by decide) (by decide)
      (by unfold is_s32; decide) (by unfold is_s32; decide)).2.1,
    (frame_counters_count_events sample_build
      [sample_env 2 0, sample_env 4 0, sample_env 6 0, sample_env 1 0]
      (sample_machine .DECON_STATE_ON 0) (by decide) (by decide)
      (by unfold is_s32; decide) (by unfold is_s32; decide)).2.2.1⟩

/-! ## Register access and the display state -/

/-- With the LPD feature compiled in, `decon_lpd_block_exit` called in state `LPD`
ends in state `ON` holding one blocker more than before. -/
theorem decon_lpd_block_exit_from_lpd (b : Build) (env : Env) (m : Machine)
    (hb : b.CONFIG_DECON_LPD_DISPLAY = true) (hs : m.decon.state = .DECON_STATE_LPD) :
    (decon_lpd_block_exit b env m).1 =
      { m with
        decon := { m.decon with
          state := .DECON_STATE_ON
          lpd_trig_cnt := 0
          lpd_block_cnt := m.decon.lpd_block_cnt + 1
          lpd_work_pending := false }
        trace := m.trace ++
          [(.DECON_STATE_LPD, .decon_lpd_block),
           (.DECON_STATE_LPD, .decon_lpd_block),
           (.DECON_STATE_LPD, .flush_workqueue_lpd_wq),
           (.DECON_STATE_LPD, .mutex_lock_lpd_lock),
           (.DECON_STATE_LPD_EXIT_REQ, .decon_enable),
           (.DECON_STATE_LPD_EXIT_REQ, .decon_lpd_trig_reset),
           (.DECON_STATE_ON, .decon_lpd_unblock),
           (.DECON_STATE_ON, .mutex_unlock_lpd_lock)] } := by
  simp [decon_lpd_block_exit, decon_exit_lpd, decon_exit_lpd_err, hb, hs, emit,
    decon_lpd_block, decon_lpd_unblock, decon_lpd_trig_reset, flush_workqueue_lpd_wq_blocked]


/-- A list whose first nine entries are `pre` and whose later entries are all tagged
`ON` has every entry of kind `p` tagged `ON`, provided no entry of `pre` is of kind
`p`. -/
theorem tagged_on_of_shape (l pre : List (decon_state × Event)) (p : Event → Bool)
    (h1 : l.take 9 = pre) (h2 : ∀ e ∈ l.drop 9, e.1 = .DECON_STATE_ON)
    (h3 : pre.all (fun e => !p e.2) = true) :
    ∀ e ∈ l, p e.2 = true → e.1 = .DECON_STATE_ON := by
  intro e he hp
  rw [← List.take_append_drop 9 l] at he
  rcases List.mem_append.mp he with h | h
  · rw [h1] at h
    have := of_all_true _ h h3
    simp [hp] at this
  · exact h2 e h

/-- The shape of the trace of `decon_pan_display` called in state `LPD`. -/
theorem pan_display_lpd_trace_shape (b : Build) (env : Env) (var : fb_var_screeninfo)
    (info : fb_info) (m : Machine)
    (hb : b.CONFIG_DECON_LPD_DISPLAY = true) (hs : m.decon.state = .DECON_STATE_LPD) :
    (issued m (decon_pan_display b env var info m).1).take 9 =
      [(.DECON_STATE_LPD, .decon_lpd_block),
       (.DECON_STATE_LPD, .decon_lpd_block),
       (.DECON_STATE_LPD, .flush_workqueue_lpd_wq),
       (.DECON_STATE_LPD, .mutex_lock_lpd_lock),
       (.DECON_STATE_LPD_EXIT_REQ, .decon_enable),
       (.DECON_STATE_LPD_EXIT_REQ, .decon_lpd_trig_reset),
       (.DECON_STATE_ON, .decon_lpd_unblock),
       (.DECON_STATE_ON, .mutex_unlock_lpd_lock),
       (.DECON_STATE_ON, .mutex_lock_output_lock)] ∧
    (∀ e ∈ (issued m (decon_pan_display b env var info m).1).drop 9,
      e.1 = .DECON_STATE_ON) := by
  cases htm : m.decon.pdata.trig_mode <;>
  cases hp : b.CONFIG_DECON_MIPI_DSI_PKTGO <;>
  cases hsb : decon_pan_display_start_boff var info <;>
  by_cases hr : env.decon_wait_for_vsync = 0 <;>
    simp only [decon_pan_display, decon_pan_display_exit, decon_activate_window_dma,
      decon_lpd_block_exit_from_lpd b env m hb hs, hs, emit_decon, emit_trace,
      decon_lpd_unblock_trace, decon_lpd_unblock_state, decon_lpd_unblock_pdata, htm, hp, hsb,
      hr, issued, reduceCtorEq, if_false, if_true, List.append_assoc, List.drop_left, ne_eq,
      not_true_eq_false, not_false_eq_true, Bool.false_eq_true, List.singleton_append,
      List.cons_append, List.nil_append] <;>
    exact ⟨rfl, fun e he => of_decide_eq_true
      (of_all_true (fun e : decon_state × Event => decide (e.1 = .DECON_STATE_ON)) he (by rfl))⟩

/-- C10: with the LPD feature compiled in, when `decon_pan_display` is called in
state `DECON_STATE_LPD`, the first nine operations it issues are those of
`decon_lpd_block_exit` followed by taking `output_lock`: they contain no register
write, `decon_enable` is invoked in state `LPD_EXIT_REQ`, and the state is `ON` from
the release of the LPD blocker on.  Every operation after them, hence every
register write of the update (shadow protect, window register data, buffer
address, window activation, trigger), is issued while the state is `ON`. -/
theorem decon_pan_display_from_lpd (b : Build) (env : Env) (var : fb_var_screeninfo)
    (info : fb_info) (m : Machine)
    (hb : b.CONFIG_DECON_LPD_DISPLAY = true) (hs : m.decon.state = .DECON_STATE_LPD) :
    (decon_lpd_block_exit b env m).1.decon.state = .DECON_STATE_ON ∧
    (issued m (decon_pan_display b env var info m).1).take 9 =
      [(.DECON_STATE_LPD, .decon_lpd_block),
       (.DECON_STATE_LPD, .decon_lpd_block),
       (.DECON_STATE_LPD, .flush_workqueue_lpd_wq),
       (.DECON_STATE_LPD, .mutex_lock_lpd_lock),
       (.DECON_STATE_LPD_EXIT_REQ, .decon_enable),
       (.DECON_STATE_LPD_EXIT_REQ, .decon_lpd_trig_reset),
       (.DECON_STATE_ON, .decon_lpd_unblock),
       (.DECON_STATE_ON, .mutex_unlock_lpd_lock),
       (.DECON_STATE_ON, .mutex_lock_output_lock)] ∧
    (∀ e ∈ (issued m (decon_pan_display b env var info m).1).drop 9,
      e.1 = .DECON_STATE_ON) ∧
    (∀ e ∈ issued m (decon_pan_display b env var info m).1,
      e.2.is_reg_write = true → e.1 = .DECON_STATE_ON) := by
  have hshape := pan_display_lpd_trace_shape b env var info m hb hs
  exact ⟨by rw [decon_lpd_block_exit_from_lpd b env m hb hs], hshape.1, hshape.2,
    tagged_on_of_shape _ _ Event.is_reg_write hshape.1 hshape.2 (by rfl)⟩

/-- C10, instantiated: a 32 bpp update of window 0 requested in state `LPD`; the
four register writes between the two shadow-protect writes are tagged `ON`. -/
theorem decon_pan_display_from_lpd_witness :
    sample_build.CONFIG_DECON_LPD_DISPLAY = true ∧
    (sample_machine .DECON_STATE_LPD 0).decon.state = .DECON_STATE_LPD ∧
    ((issued (sample_machine .DECON_STATE_LPD 0)
      (decon_pan_display sample_build (sample_env 0 0) {} sample_fb_info
        (sample_machine .DECON_STATE_LPD 0)).1).drop 9).take 4 =
      [(.DECON_STATE_ON, .decon_reg_shadow_protect_win 0 1),
       (.DECON_STATE_ON, .decon_reg_set_regs_data 0),
       (.DECON_STATE_ON, .writel 0x1000 (.VIDW_ADD0 0)),
       (.DECON_STATE_ON, .decon_reg_shadow_protect_win 0 0)] ∧
    (∀ e ∈ issued (sample_machine .DECON_STATE_LPD 0)
      (decon_pan_display sample_build (sample_env 0 0) {} sample_fb_info
        (sample_machine .DECON_STATE_LPD 0)).1,
      e.2.is_reg_write = true → e.1 = .DECON_STATE_ON) :=
  ⟨rfl, rfl, by decide,
    (decon_pan_display_from_lpd sample_build (sample_env 0 0) {} sample_fb_info
      (sample_machine .DECON_STATE_LPD 0) rfl rfl).2.2.2⟩

/-! ## Which states gate register access -/

theorem decon_fb_isr_for_eint_sw_trig_skip (b : Build) (env : Env) (m : Machine)
    (h : m.decon.pdata.trig_mode ≠ .DECON_SW_TRIG) :
    decon_fb_isr_for_eint_sw_trig b env m = m := by
  simp [decon_fb_isr_for_eint_sw_trig, h]

theorem decon_fb_isr_for_eint_pktgo_quiet (b : Build) (env : Env) (m : Machine) :
    only_adds no_reg_access m (decon_fb_isr_for_eint_pktgo b env m) := by
  simp only [decon_fb_isr_for_eint_pktgo]
  split_ifs <;>
    first
    | exact only_adds_refl _ _
    | exact only_adds_of_eq _ _ rfl rfl rfl
    | exact only_adds_trans (only_adds_of_eq _ _ rfl rfl rfl) (only_adds_emit _ _ (by rfl))
    | exact only_adds_trans (only_adds_of_eq _ _ rfl rfl rfl)
        (only_adds_trans (only_adds_emit _ _ (by rfl)) (only_adds_emit _ _ (by rfl)))

theorem decon_fb_isr_for_eint_lpd_quiet (b : Build) (m : Machine) :
    only_adds no_reg_access m (decon_fb_isr_for_eint_lpd b m) := by
  simp only [decon_fb_isr_for_eint_lpd, decon_lpd_enter_cond, queue_work_lpd_work]
  split_ifs <;>
    first
    | exact only_adds_refl _ _
    | exact only_adds_of_eq _ _ rfl rfl rfl
    | exact ⟨rfl, rfl, [_], rfl, by rfl⟩

/-- Unless the panel is software-triggered, the TE interrupt touches no register. -/
theorem decon_fb_isr_for_eint_quiet (b : Build) (env : Env) (m : Machine)
    (h : m.decon.pdata.trig_mode ≠ .DECON_SW_TRIG) :
    only_adds no_reg_access m (decon_fb_isr_for_eint b env m).1 := by
  simp only [decon_fb_isr_for_eint]
  rw [decon_fb_isr_for_eint_sw_trig_skip b env _ (by simpa [emit_decon] using h)]
  refine only_adds_emit_right _ ?_ (by rfl)
  refine only_adds_trans ?_ (decon_fb_isr_for_eint_lpd_quiet b _)
  refine only_adds_emit_right _ ?_ (by rfl)
  refine only_adds_trans ?_
    (only_adds_of_eq _ (decon_fb_isr_for_eint_pktgo b env (emit .spin_lock_slock m)) rfl rfl rfl)
  refine only_adds_trans ?_ (decon_fb_isr_for_eint_pktgo_quiet b env _)
  exact only_adds_emit _ _ (by rfl)

/-- In `OFF` and `LPD` the interrupt handler only takes and releases `slock`. -/
theorem decon_int_irq_handler_gated (b : Build) (env : Env) (m : Machine)
    (h : m.decon.state = .DECON_STATE_OFF ∨ m.decon.state = .DECON_STATE_LPD) :
    issued m (decon_int_irq_handler b env m).1 =
      [(m.decon.state, .spin_lock_slock), (m.decon.state, .spin_unlock_slock)] := by
  rcases h with h | h <;>
    simp [decon_int_irq_handler, decon_int_irq_handler_irq_end, emit, issued, h]

/-- C9 as stated fails.  In the transitional state `LPD_ENT_REQ`, with the `FRAME`
bit pending, `decon_int_irq_handler` reads `VIDINTCON1` and writes the acknowledge;
in state `OFF`, on a software-triggered panel, `decon_fb_isr_for_eint` writes the
trigger register. -/
theorem register_access_outside_on_init :
    issued (sample_machine .DECON_STATE_LPD_ENT_REQ 1)
      (decon_int_irq_handler sample_build (sample_env 2 0)
        (sample_machine .DECON_STATE_LPD_ENT_REQ 1)).1 =
      [(.DECON_STATE_LPD_ENT_REQ, .spin_lock_slock),
       (.DECON_STATE_LPD_ENT_REQ, .decon_read .VIDINTCON1),
       (.DECON_STATE_LPD_ENT_REQ, .wake_up_interruptible_all .wait_vstatus),
       (.DECON_STATE_LPD_ENT_REQ, .decon_write_mask .VIDINTCON1 0xffffffff 2),
       (.DECON_STATE_LPD_ENT_REQ, .spin_unlock_slock)] ∧
    (∃ e ∈ issued (sample_machine .DECON_STATE_LPD_ENT_REQ 1)
      (decon_int_irq_handler sample_build (sample_env 2 0)
        (sample_machine .DECON_STATE_LPD_ENT_REQ 1)).1, e.2.is_reg_access = true) ∧
    issued (sample_machine_sw_trig .DECON_STATE_OFF)
      (decon_fb_isr_for_eint sample_build (sample_env 0 0)
        (sample_machine_sw_trig .DECON_STATE_OFF)).1 =
      [(.DECON_STATE_OFF, .spin_lock_slock),
       (.DECON_STATE_OFF, .decon_reg_set_trigger 0 .DECON_SW_TRIG .DECON_TRIG_ENABLE),
       (.DECON_STATE_OFF, .wake_up_interruptible_all .vsync_info_wait),
       (.DECON_STATE_OFF, .spin_unlock_slock)] := by
  refine ⟨by decide, ⟨(.DECON_STATE_LPD_ENT_REQ, .decon_read .VIDINTCON1), by decide, rfl⟩,
    by decide⟩

/-! ## A display update while an LPD transition is under way -/

/-- The operations of `decon_pan_display` from `mutex_lock(&decon->output_lock)` on are
all issued in the state found then. -/
theorem decon_pan_display_update_trace (b : Build) (env : Env) (var : fb_var_screeninfo)
    (info : fb_info) (M : Machine) :
    (decon_pan_display_update b env var info M).1.trace =
      M.trace ++
        (Event.mutex_lock_output_lock ::
          pan_display_locked_ops b env var info M.decon).map (fun e => (M.decon.state, e)) := by
  simp only [decon_pan_display_update]
  by_cases hoff : M.decon.state = .DECON_STATE_OFF <;>
  cases htm : M.decon.pdata.trig_mode <;>
  cases hp : b.CONFIG_DECON_MIPI_DSI_PKTGO <;>
  cases hsb : decon_pan_display_start_boff var info <;>
  by_cases hr : env.decon_wait_for_vsync = 0 <;>
    simp [decon_pan_display_exit, decon_activate_window_dma, pan_display_locked_ops,
      pan_display_exit_ops, pan_display_locked_ret,
      emit_decon, emit_trace, decon_lpd_unblock_trace, decon_lpd_unblock_state,
      decon_lpd_unblock_pdata, hoff, htm, hp, hsb, hr, decon_lpd_unblock, emit]

/-- `decon_pan_display` is the early return in `OFF`, or `decon_lpd_block_exit` followed
by `decon_pan_display_update`. -/
theorem decon_pan_display_eq_update (b : Build) (env : Env) (var : fb_var_screeninfo)
    (info : fb_info) (m : Machine) :
    decon_pan_display b env var info m =
      if m.decon.state = .DECON_STATE_OFF then (m, 0)
      else decon_pan_display_update b env var info (decon_lpd_block_exit b env m).1 := rfl

/-- `decon_enter_lpd_rest` is the tail of `decon_enter_lpd` after the assignment of
`LPD_ENT_REQ`. -/
theorem decon_enter_lpd_eq_rest (b : Build) (env : Env) (m : Machine)
    (hb : b.CONFIG_DECON_LPD_DISPLAY = true) (hc : m.decon.lpd_block_cnt = 0)
    (hs : m.decon.state = .DECON_STATE_ON) :
    decon_enter_lpd b env m =
      decon_enter_lpd_rest env
        { decon_lpd_trig_reset (decon_lpd_block (emit .mutex_lock_lpd_lock m)) with
          decon := { (decon_lpd_trig_reset
            (decon_lpd_block (emit .mutex_lock_lpd_lock m))).decon with
            state := .DECON_STATE_LPD_ENT_REQ } } := by
  simp [decon_enter_lpd, decon_enter_lpd_rest, decon_is_lpd_blocked, hb, hc, hs, emit,
    decon_lpd_block, decon_lpd_trig_reset]

/-- `decon_exit_lpd_rest` is the tail of `decon_exit_lpd` after the assignment of
`LPD_EXIT_REQ`. -/
theorem decon_exit_lpd_locked_eq_rest (env : Env) (m : Machine)
    (hs : m.decon.state = .DECON_STATE_LPD) :
    decon_exit_lpd_locked env m =
      decon_exit_lpd_rest env
        { m with decon := { m.decon with state := .DECON_STATE_LPD_EXIT_REQ } } := by
  simp [decon_exit_lpd_locked, decon_exit_lpd_rest, hs]

/-- `decon_lpd_block_exit` called while a context holds `lpd_lock` in a transitional
state returns in state `ON`, having issued no register access. -/
theorem decon_exit_lpd_waiting_effect (b : Build) (env : Env) (h : lpd_holder) (m : Machine)
    (hs : m.decon.state = h.state) :
    (decon_exit_lpd_waiting b env h (decon_lpd_block m)).1.decon.state = .DECON_STATE_ON ∧
    ∃ l, (decon_exit_lpd_waiting b env h (decon_lpd_block m)).1.trace = m.trace ++ l ∧
      l.all (fun e => !e.2.is_reg_access) = true := by
  cases h with
  | entering envh =>
    simp only [lpd_holder.state] at hs
    refine ⟨?_, [(.DECON_STATE_LPD_ENT_REQ, .decon_lpd_block),
      (.DECON_STATE_LPD_ENT_REQ, .decon_lpd_block),
      (.DECON_STATE_LPD_ENT_REQ, .flush_workqueue_lpd_wq),
      (.DECON_STATE_LPD_ENT_REQ, .decon_disable),
      (.DECON_STATE_LPD, .decon_lpd_unblock),
      (.DECON_STATE_LPD, .mutex_unlock_lpd_lock),
      (.DECON_STATE_LPD, .mutex_lock_lpd_lock),
      (.DECON_STATE_LPD_EXIT_REQ, .decon_enable),
      (.DECON_STATE_LPD_EXIT_REQ, .decon_lpd_trig_reset),
      (.DECON_STATE_ON, .decon_lpd_unblock),
      (.DECON_STATE_ON, .mutex_unlock_lpd_lock)], ?_, by rfl⟩ <;>
    simp [decon_exit_lpd_waiting, flush_workqueue_lpd_wq_blocked, lpd_holder.finish, decon_enter_lpd_rest,
      decon_enter_lpd_err, decon_enter_lpd_err2, decon_exit_lpd_locked, decon_exit_lpd_err,
      decon_lpd_block, decon_lpd_unblock, decon_lpd_trig_reset, emit, hs]
  | exiting envh =>
    simp only [lpd_holder.state] at hs
    refine ⟨?_, [(.DECON_STATE_LPD_EXIT_REQ, .decon_lpd_block),
      (.DECON_STATE_LPD_EXIT_REQ, .decon_lpd_block),
      (.DECON_STATE_LPD_EXIT_REQ, .flush_workqueue_lpd_wq),
      (.DECON_STATE_LPD_EXIT_REQ, .decon_enable),
      (.DECON_STATE_LPD_EXIT_REQ, .decon_lpd_trig_reset),
      (.DECON_STATE_ON, .decon_lpd_unblock),
      (.DECON_STATE_ON, .mutex_unlock_lpd_lock),
      (.DECON_STATE_ON, .mutex_lock_lpd_lock),
      (.DECON_STATE_ON, .decon_lpd_unblock),
      (.DECON_STATE_ON, .mutex_unlock_lpd_lock)], ?_, by rfl⟩ <;>
    simp [decon_exit_lpd_waiting, flush_workqueue_lpd_wq_blocked, lpd_holder.finish, decon_exit_lpd_rest,
      decon_exit_lpd_locked, decon_exit_lpd_err,
      decon_lpd_block, decon_lpd_unblock, decon_lpd_trig_reset, emit, hs]

/-- Called while a context holds `lpd_lock` in a transitional state, `decon_pan_display`
performs its register accesses in state `ON`. -/
theorem decon_pan_display_waiting_on (b : Build) (env : Env) (h : lpd_holder)
    (var : fb_var_screeninfo) (info : fb_info) (m : Machine) (hs : m.decon.state = h.state) :
    ∀ e ∈ issued m (decon_pan_display_waiting b env h var info m).1,
      e.2.is_reg_access = true → e.1 = .DECON_STATE_ON := by
  have hoff : m.decon.state ≠ .DECON_STATE_OFF := by
    rw [hs]; cases h <;> simp [lpd_holder.state]
  obtain ⟨hon, l, hl, hq⟩ := decon_exit_lpd_waiting_effect b env h m hs
  have htr := decon_pan_display_update_trace b env var info
    (decon_exit_lpd_waiting b env h (decon_lpd_block m)).1
  intro e he hacc
  have hiss : issued m (decon_pan_display_waiting b env h var info m).1 =
      l ++ (Event.mutex_lock_output_lock ::
        pan_display_locked_ops b env var info
          (decon_exit_lpd_waiting b env h (decon_lpd_block m)).1.decon).map
        (fun e => (decon_state.DECON_STATE_ON, e)) := by
    apply issued_append
    simp only [decon_pan_display_waiting, hoff, if_false]
    rw [htr, hl, hon, List.append_assoc]
  rw [hiss] at he
  rcases List.mem_append.mp he with h1 | h2
  · have := of_all_true _ h1 hq
    simp [hacc] at this
  · obtain ⟨x, _, rfl⟩ := List.mem_map.mp h2
    rfl

/-- C9, amended: `decon_int_irq_handler` performs no register access in the states
`OFF` and `LPD`; `decon_fb_isr_for_eint` performs none in any state when the panel
is not software-triggered; `decon_pan_display` issues nothing at all when called in
state `OFF`; when called in state `LPD` (LPD feature compiled in), and when called in
state `LPD_ENT_REQ` or `LPD_EXIT_REQ`, which is shown only while another context holds
`lpd_lock` and for which `decon_lpd_block_exit` then waits, every register access it
performs happens after the state has become `ON`. -/
theorem register_access_gating (b : Build) (env : Env) (var : fb_var_screeninfo)
    (info : fb_info) (h : lpd_holder) (m : Machine) :
    (m.decon.state = .DECON_STATE_OFF ∨ m.decon.state = .DECON_STATE_LPD →
      ∀ e ∈ issued m (decon_int_irq_handler b env m).1, e.2.is_reg_access = false) ∧
    (m.decon.pdata.trig_mode ≠ .DECON_SW_TRIG →
      ∀ e ∈ issued m (decon_fb_isr_for_eint b env m).1, e.2.is_reg_access = false) ∧
    (m.decon.state = .DECON_STATE_OFF →
      issued m (decon_pan_display b env var info m).1 = []) ∧
    (b.CONFIG_DECON_LPD_DISPLAY = true → m.decon.state = .DECON_STATE_LPD →
      ∀ e ∈ issued m (decon_pan_display b env var info m).1,
        e.2.is_reg_access = true → e.1 = .DECON_STATE_ON) ∧
    (m.decon.state = h.state →
      ∀ e ∈ issued m (decon_pan_display_waiting b env h var info m).1,
        e.2.is_reg_access = true → e.1 = .DECON_STATE_ON) := by
  refine ⟨?_, ?_, ?_, ?_, decon_pan_display_waiting_on b env h var info m⟩
  · intro h e he
    rw [decon_int_irq_handler_gated b env m h] at he
    simp only [List.mem_cons, List.mem_singleton, List.not_mem_nil, or_false] at he
    rcases he with rfl | rfl <;> rfl
  · intro h e he
    have := only_adds_issued (decon_fb_isr_for_eint_quiet b env m h) e he
    simpa [no_reg_access] using this
  · intro h
    simp [decon_pan_display, h, issued]
  · intro hb hs
    have hshape := pan_display_lpd_trace_shape b env var info m hb hs
    exact tagged_on_of_shape _ _ Event.is_reg_access hshape.1 hshape.2 (by rfl)

/-- C9, amended, instantiated: interrupt in `LPD`, TE interrupt in `LPD_EXIT_REQ` on
a hardware-triggered panel, display update in `OFF`, display update requested while
an LPD entry is under way. -/
theorem register_access_gating_witness :
    ((sample_machine .DECON_STATE_LPD 0).decon.state = .DECON_STATE_OFF ∨
      (sample_machine .DECON_STATE_LPD 0).decon.state = .DECON_STATE_LPD) ∧
    (∀ e ∈ issued (sample_machine .DECON_STATE_LPD 0)
      (decon_int_irq_handler sample_build (sample_env 7 0)
        (sample_machine .DECON_STATE_LPD 0)).1, e.2.is_reg_access = false) ∧
    (sample_machine .DECON_STATE_LPD_EXIT_REQ 1).decon.pdata.trig_mode ≠ .DECON_SW_TRIG ∧
    (∀ e ∈ issued (sample_machine .DECON_STATE_LPD_EXIT_REQ 1)
      (decon_fb_isr_for_eint sample_build (sample_env 7 0)
        (sample_machine .DECON_STATE_LPD_EXIT_REQ 1)).1, e.2.is_reg_access = false) ∧
    (sample_machine .DECON_STATE_OFF 0).decon.state = .DECON_STATE_OFF ∧
    issued (sample_machine .DECON_STATE_OFF 0)
      (decon_pan_display sample_build (sample_env 0 0) {} sample_fb_info
        (sample_machine .DECON_STATE_OFF 0)).1 = [] ∧
    sample_machine_entering.decon.state = (lpd_holder.entering (sample_env 0 0)).state ∧
    (∀ e ∈ issued sample_machine_entering
      (decon_pan_display_waiting sample_build (sample_env 0 0)
        (.entering (sample_env 0 0)) {} sample_fb_info sample_machine_entering).1,
      e.2.is_reg_access = true → e.1 = .DECON_STATE_ON) :=
  ⟨Or.inr rfl,
    (register_access_gating sample_build (sample_env 7 0) {} sample_fb_info
      (.entering (sample_env 0 0)) (sample_machine .DECON_STATE_LPD 0)).1 (Or.inr rfl),
    by decide,
    (register_access_gating sample_build (sample_env 7 0) {} sample_fb_info
      (.entering (sample_env 0 0)) (sample_machine .DECON_STATE_LPD_EXIT_REQ 1)).2.1
      (by decide),
    rfl,
    (register_access_gating sample_build (sample_env 0 0) {} sample_fb_info
      (.entering (sample_env 0 0)) (sample_machine .DECON_STATE_OFF 0)).2.2.1 rfl,
    rfl,
    (register_access_gating sample_build (sample_env 0 0) {} sample_fb_info
      (.entering (sample_env 0 0)) sample_machine_entering).2.2.2.2 rfl⟩

/-- The display update of the instantiation above: the holder of `lpd_lock` completes
the entry, `decon_pan_display` exits LPD again, and the window registers are written in
state `ON`. -/
theorem decon_pan_display_waiting_sample :
    (issued sample_machine_entering
      (decon_pan_display_waiting sample_build (sample_env 0 0)
        (.entering (sample_env 0 0)) {} sample_fb_info sample_machine_entering).1).take 16 =
      [(.DECON_STATE_LPD_ENT_REQ, .decon_lpd_block),
       (.DECON_STATE_LPD_ENT_REQ, .decon_lpd_block),
       (.DECON_STATE_LPD_ENT_REQ, .flush_workqueue_lpd_wq),
       (.DECON_STATE_LPD_ENT_REQ, .decon_disable),
       (.DECON_STATE_LPD, .decon_lpd_unblock),
       (.DECON_STATE_LPD, .mutex_unlock_lpd_lock),
       (.DECON_STATE_LPD, .mutex_lock_lpd_lock),
       (.DECON_STATE_LPD_EXIT_REQ, .decon_enable),
       (.DECON_STATE_LPD_EXIT_REQ, .decon_lpd_trig_reset),
       (.DECON_STATE_ON, .decon_lpd_unblock),
       (.DECON_STATE_ON, .mutex_unlock_lpd_lock),
       (.DECON_STATE_ON, .mutex_lock_output_lock),
       (.DECON_STATE_ON, .decon_reg_shadow_protect_win 0 1),
       (.DECON_STATE_ON, .decon_reg_set_regs_data 0),
       (.DECON_STATE_ON, .writel 0x1000 (.VIDW_ADD0 0)),
       (.DECON_STATE_ON, .decon_reg_shadow_protect_win 0 0)] := by
  decide

theorem decon_pan_display_unfold (b : Build) (env : Env) (var : fb_var_screeninfo)
    (info : fb_info) (m : Machine) (h : m.decon.state ≠ .DECON_STATE_OFF) :
    (decon_pan_display b env var info m).1.trace =
      (decon_lpd_block_exit b env m).1.trace ++
        (Event.mutex_lock_output_lock ::
          pan_display_locked_ops b env var info (decon_lpd_block_exit b env m).1.decon).map
          (fun e => ((decon_lpd_block_exit b env m).1.decon.state, e)) ∧
    (decon_pan_display b env var info m).1.decon =
      { (decon_lpd_block_exit b env m).1.decon with
        lpd_block_cnt := (decon_lpd_block_exit b env m).1.decon.lpd_block_cnt - 1 } ∧
    (decon_pan_display b env var info m).2 =
      pan_display_locked_ret env var info (decon_lpd_block_exit b env m).1.decon := by
  simp only [decon_pan_display, h, if_false]
  generalize (decon_lpd_block_exit b env m).1 = M
  by_cases hoff : M.decon.state = .DECON_STATE_OFF <;>
  cases htm : M.decon.pdata.trig_mode <;>
  cases hp : b.CONFIG_DECON_MIPI_DSI_PKTGO <;>
  cases hsb : decon_pan_display_start_boff var info <;>
  by_cases hr : env.decon_wait_for_vsync = 0 <;>
    simp [decon_pan_display_exit, decon_activate_window_dma, pan_display_locked_ops,
      pan_display_exit_ops, pan_display_locked_ret,
      emit_decon, emit_trace, decon_lpd_unblock_trace, decon_lpd_unblock_state,
      decon_lpd_unblock_pdata, hoff, htm, hp, hsb, hr, decon_lpd_unblock, emit]

/-- What `decon_lpd_block_exit` does in general: it issues only operations of the LPD
gate and of LPD exit, takes one blocker, keeps the platform data, and leaves the state
alone unless it was `LPD`, which becomes `ON`. -/
theorem decon_lpd_block_exit_effect (b : Build) (env : Env) (m : Machine) :
    ∃ l, (decon_lpd_block_exit b env m).1.trace = m.trace ++ l ∧
      l.all (fun e => e.2.is_lpd_op) = true ∧
      (decon_lpd_block_exit b env m).1.decon.lpd_block_cnt = m.decon.lpd_block_cnt + 1 ∧
      (decon_lpd_block_exit b env m).1.decon.pdata = m.decon.pdata ∧
      ((decon_lpd_block_exit b env m).1.decon.state = m.decon.state ∨
        (decon_lpd_block_exit b env m).1.decon.state = .DECON_STATE_ON) := by
  cases hb : b.CONFIG_DECON_LPD_DISPLAY
  · exact ⟨[(m.decon.state, .decon_lpd_block)],
      by simp [decon_lpd_block_exit, decon_exit_lpd, hb, decon_lpd_block, emit],
      by rfl, by simp [decon_lpd_block_exit, decon_exit_lpd, hb, decon_lpd_block, emit],
      by simp [decon_lpd_block_exit, decon_exit_lpd, hb, decon_lpd_block, emit],
      Or.inl (by simp [decon_lpd_block_exit, decon_exit_lpd, hb, decon_lpd_block, emit])⟩
  · by_cases hs : m.decon.state = .DECON_STATE_LPD
    · rw [decon_lpd_block_exit_from_lpd b env m hb hs]
      exact ⟨_, rfl, by rfl, rfl, rfl, Or.inr rfl⟩
    · refine ⟨[(m.decon.state, .decon_lpd_block), (m.decon.state, .decon_lpd_block),
        (m.decon.state, .flush_workqueue_lpd_wq), (m.decon.state, .mutex_lock_lpd_lock),
        (m.decon.state, .decon_lpd_unblock), (m.decon.state, .mutex_unlock_lpd_lock)],
        ?_, by rfl, ?_, ?_, Or.inl ?_⟩ <;>
      simp [decon_lpd_block_exit, decon_exit_lpd, decon_exit_lpd_err, hb, hs, emit,
        decon_lpd_block, decon_lpd_unblock, flush_workqueue_lpd_wq_blocked]

theorem is_lpd_op_no_reg_access (e : Event) (h : e.is_lpd_op = true) :
    e.is_reg_access = false := by
  cases e <;> first | rfl | (simp [Event.is_lpd_op] at h)

theorem shadow_scan_skip (w : Nat) (inside : Bool) (l1 l2 : List Event)
    (h : l1.all (fun e => e.is_lpd_op || e == .mutex_lock_output_lock) = true) :
    shadow_scan w inside (l1 ++ l2) = shadow_scan w inside l2 := by
  induction l1 with
  | nil => rfl
  | cons e es ih =>
    simp only [List.all_cons, Bool.and_eq_true] at h
    cases e <;>
      first
      | (simp only [List.cons_append, shadow_scan]; exact ih h.2)
      | (simp [Event.is_lpd_op] at h)

theorem count_skip (p : Event → Bool) (x : Event) (hx : p x = false) (l1 l2 : List Event)
    (h : l1.all p = true) : (l1 ++ l2).count x = l2.count x := by
  induction l1 with
  | nil => rfl
  | cons e es ih =>
    simp only [List.all_cons, Bool.and_eq_true] at h
    have hne : e ≠ x := by
      intro he
      rw [he, hx] at h
      simp at h
    rw [List.cons_append, List.count_cons_of_ne (Ne.symm hne), ih h.2]

theorem all_map_snd (p : Event → Bool) (l : List (decon_state × Event))
    (h : l.all (fun e => p e.2) = true) : (l.map Prod.snd).all p = true := by
  rw [List.all_eq_true] at h ⊢
  intro e he
  obtain ⟨x, hx, rfl⟩ := List.mem_map.mp he
  exact h x hx

theorem pan_display_locked_ops_balanced (b : Build) (env : Env) (var : fb_var_screeninfo)
    (info : fb_info) (d : decon_device) (w : Nat) :
    (pan_display_locked_ops b env var info d).count (.decon_reg_shadow_protect_win w 1) =
      (pan_display_locked_ops b env var info d).count (.decon_reg_shadow_protect_win w 0) ∧
    shadow_scan w false (pan_display_locked_ops b env var info d) = some false := by
  have hw' : info.par.index = w ∨ (info.par.index ≠ w ∧ w ≠ info.par.index) := by
    by_cases hw : info.par.index = w
    · exact Or.inl hw
    · exact Or.inr ⟨hw, fun h => hw h.symm⟩
  rcases hw' with hw | ⟨hw1, hw2⟩ <;>
  by_cases hoff : d.state = .DECON_STATE_OFF <;>
  cases htm : d.pdata.trig_mode <;>
  cases hp : b.CONFIG_DECON_MIPI_DSI_PKTGO <;>
  cases hsb : decon_pan_display_start_boff var info <;>
  by_cases hr : env.decon_wait_for_vsync = 0 <;>
    simp_all [pan_display_locked_ops, pan_display_exit_ops, shadow_scan, List.count_cons]

theorem issued_decon_pan_display (b : Build) (env : Env) (var : fb_var_screeninfo)
    (info : fb_info) (m : Machine) (h : m.decon.state ≠ .DECON_STATE_OFF) :
    ∃ l, l.all (fun e => e.2.is_lpd_op) = true ∧
      issued m (decon_pan_display b env var info m).1 =
        l ++ (Event.mutex_lock_output_lock ::
          pan_display_locked_ops b env var info (decon_lpd_block_exit b env m).1.decon).map
          (fun e => ((decon_lpd_block_exit b env m).1.decon.state, e)) := by
  obtain ⟨l, hl, hq, _⟩ := decon_lpd_block_exit_effect b env m
  refine ⟨l, hq, issued_append _ _ _ ?_⟩
  rw [(decon_pan_display_unfold b env var info m h).1, hl, List.append_assoc]

/-- The operations of `decon_pan_display`, past its first state check, without
their state tags: LPD-gate operations, then `output_lock`, then the locked part. -/
theorem issued_decon_pan_display_ops (b : Build) (env : Env) (var : fb_var_screeninfo)
    (info : fb_info) (m : Machine) (h : m.decon.state ≠ .DECON_STATE_OFF) :
    ∃ l : List Event, l.all (fun e => e.is_lpd_op || e == .mutex_lock_output_lock) = true ∧
      l.count .mutex_lock_output_lock = 1 ∧
      (issued m (decon_pan_display b env var info m).1).map Prod.snd =
        l ++ pan_display_locked_ops b env var info (decon_lpd_block_exit b env m).1.decon := by
  obtain ⟨l, hq, hi⟩ := issued_decon_pan_display b env var info m h
  have hq2 := all_map_snd Event.is_lpd_op l hq
  refine ⟨l.map Prod.snd ++ [Event.mutex_lock_output_lock], ?_, ?_, ?_⟩
  · rw [List.all_append, Bool.and_eq_true]
    refine ⟨?_, by rfl⟩
    rw [List.all_eq_true] at hq2 ⊢
    intro e he
    rw [hq2 e he]
    rfl
  · rw [List.count_append]
    have := count_skip Event.is_lpd_op .mutex_lock_output_lock (by rfl) _ [] hq2
    rw [List.append_nil] at this
    rw [this]
    rfl
  · rw [hi]
    simp [Function.comp_def]

/-- C11: on every path through `decon_pan_display`, for every window `w`, the number
of `decon_reg_shadow_protect_win(w, 1)` calls equals the number of
`decon_reg_shadow_protect_win(w, 0)` calls, and the window register data and the
buffer address `VIDW_ADD0(w)` are written only inside a protect-enable /
protect-disable section, which is closed when the call returns. -/
theorem decon_pan_display_shadow_protect_balanced (b : Build) (env : Env)
    (var : fb_var_screeninfo) (info : fb_info) (m : Machine) (w : Nat) :
    ((issued m (decon_pan_display b env var info m).1).map Prod.snd).count
        (.decon_reg_shadow_protect_win w 1) =
      ((issued m (decon_pan_display b env var info m).1).map Prod.snd).count
        (.decon_reg_shadow_protect_win w 0) ∧
    shadow_scan w false ((issued m (decon_pan_display b env var info m).1).map Prod.snd) =
      some false := by
  by_cases h : m.decon.state = .DECON_STATE_OFF
  · simp [decon_pan_display, h, issued, shadow_scan]
  · obtain ⟨l, hq, _, hmap⟩ := issued_decon_pan_display_ops b env var info m h
    have hbal := pan_display_locked_ops_balanced b env var info
      (decon_lpd_block_exit b env m).1.decon w
    rw [hmap, count_skip _ _ (by rfl) _ _ hq, count_skip _ _ (by rfl) _ _ hq,
      shadow_scan_skip _ _ _ _ hq]
    exact hbal

theorem decon_lpd_block_exit_not_off (b : Build) (env : Env) (m : Machine)
    (h : m.decon.state ≠ .DECON_STATE_OFF) :
    (decon_lpd_block_exit b env m).1.decon.state ≠ .DECON_STATE_OFF := by
  obtain ⟨l, _, _, _, _, hs | hs⟩ := decon_lpd_block_exit_effect b env m
  · rw [hs]; exact h
  · rw [hs]; decide

theorem pan_display_locked_ops_end (b : Build) (env : Env) (var : fb_var_screeninfo)
    (info : fb_info) (d : decon_device) :
    pan_display_exit_ops d <:+ pan_display_locked_ops b env var info d ∧
    (pan_display_locked_ops b env var info d).count .mutex_lock_output_lock = 0 ∧
    (pan_display_locked_ops b env var info d).count .mutex_unlock_output_lock = 1 := by
  refine ⟨?_, ?_, ?_⟩
  · unfold pan_display_locked_ops
    by_cases hoff : d.state = .DECON_STATE_OFF
    · rw [if_pos hoff]
    · rw [if_neg hoff]
      cases decon_pan_display_start_boff var info
      · exact List.suffix_cons _ _
      · exact List.suffix_append _ _
  all_goals
    by_cases hoff : d.state = .DECON_STATE_OFF <;>
    cases htm : d.pdata.trig_mode <;>
    cases hp : b.CONFIG_DECON_MIPI_DSI_PKTGO <;>
    cases hsb : decon_pan_display_start_boff var info <;>
    by_cases hr : env.decon_wait_for_vsync = 0 <;>
      simp [pan_display_locked_ops, pan_display_exit_ops, List.count_cons, hoff, htm, hp, hsb, hr]

theorem suffix_map_tag (s : decon_state) (l1 : List (decon_state × Event)) (x y : List Event)
    (h : x <:+ y) :
    x.map (fun e => (s, e)) <:+ l1 ++ y.map (fun e => (s, e)) := by
  obtain ⟨t, rfl⟩ := h
  exact ⟨l1 ++ t.map (fun e => (s, e)), by simp⟩

/-- C12: past the first state check of `decon_pan_display`, on every path:
`lpd_block_cnt` is the same after the call as before; the call ends by releasing the
LPD blocker and then `output_lock`, preceded in `DECON_HW_TRIG` mode by the trigger
disable; `output_lock` is taken once and released once.  When the update reaches the
vsync wait, the value returned is the one `decon_wait_for_vsync` returned, so a
nonzero value (a failed wait) is handed to the caller. -/
theorem decon_pan_display_cleanup (b : Build) (env : Env) (var : fb_var_screeninfo)
    (info : fb_info) (m : Machine) (h : m.decon.state ≠ .DECON_STATE_OFF) :
    (decon_pan_display b env var info m).1.decon.lpd_block_cnt = m.decon.lpd_block_cnt ∧
    ((decon_pan_display_start_boff var info).isSome = true →
      (decon_pan_display b env var info m).2 = env.decon_wait_for_vsync) ∧
    (m.decon.pdata.trig_mode = .DECON_HW_TRIG →
      [((decon_lpd_block_exit b env m).1.decon.state,
          Event.decon_reg_set_trigger m.decon.pdata.dsi_mode .DECON_HW_TRIG .DECON_TRIG_DISABLE),
       ((decon_lpd_block_exit b env m).1.decon.state, .decon_lpd_unblock),
       ((decon_lpd_block_exit b env m).1.decon.state, .mutex_unlock_output_lock)] <:+
        issued m (decon_pan_display b env var info m).1) ∧
    [((decon_lpd_block_exit b env m).1.decon.state, Event.decon_lpd_unblock),
     ((decon_lpd_block_exit b env m).1.decon.state, .mutex_unlock_output_lock)] <:+
      issued m (decon_pan_display b env var info m).1 ∧
    ((issued m (decon_pan_display b env var info m).1).map Prod.snd).count
      .mutex_lock_output_lock = 1 ∧
    ((issued m (decon_pan_display b env var info m).1).map Prod.snd).count
      .mutex_unlock_output_lock = 1 := by
  obtain ⟨l0, hl0, hq0, hcnt, hpd, _⟩ := decon_lpd_block_exit_effect b env m
  have hun := decon_pan_display_unfold b env var info m h
  have hnoff := decon_lpd_block_exit_not_off b env m h
  obtain ⟨l, hq, hi⟩ := issued_decon_pan_display b env var info m h
  obtain ⟨l', hq', hc', hmap⟩ := issued_decon_pan_display_ops b env var info m h
  have hend := pan_display_locked_ops_end b env var info (decon_lpd_block_exit b env m).1.decon
  have hsuf := suffix_map_tag (decon_lpd_block_exit b env m).1.decon.state l _ _
    ((hend.1).trans (List.suffix_cons Event.mutex_lock_output_lock _))
  rw [← hi] at hsuf
  refine ⟨?_, ?_, ?_, ?_, ?_, ?_⟩
  · rw [hun.2.1]
    simp [hcnt]
  · intro hsome
    rw [hun.2.2]
    obtain ⟨sb, hsb⟩ := Option.isSome_iff_exists.mp hsome
    simp [pan_display_locked_ret, hnoff, hsb]
  · intro htm
    simpa [pan_display_exit_ops, hpd, htm] using hsuf
  · refine List.IsSuffix.trans ?_ hsuf
    simp only [pan_display_exit_ops, List.map_append, List.map_cons, List.map_nil]
    exact List.suffix_append _ _
  · rw [hmap, List.count_append, hc', hend.2.1]
  · rw [hmap, count_skip _ _ (by rfl) _ _ hq', hend.2.2]

/-- C12, instantiated: the vsync wait times out with -110 in state `ON`. -/
theorem decon_pan_display_cleanup_witness :
    (sample_machine .DECON_STATE_ON 0).decon.state ≠ .DECON_STATE_OFF ∧
    (sample_env 0 (-110)).decon_wait_for_vsync ≠ 0 ∧
    (decon_pan_display_start_boff {} sample_fb_info).isSome = true ∧
    (decon_pan_display sample_build (sample_env 0 (-110)) {} sample_fb_info
      (sample_machine .DECON_STATE_ON 0)).2 = -110 ∧
    (decon_pan_display sample_build (sample_env 0 (-110)) {} sample_fb_info
      (sample_machine .DECON_STATE_ON 0)).1.decon.lpd_block_cnt = 0 :=
  ⟨by decide, by decide, by decide,
    (decon_pan_display_cleanup sample_build (sample_env 0 (-110)) {} sample_fb_info
      (sample_machine .DECON_STATE_ON 0) (by decide)).2.1 (by decide),
    (decon_pan_display_cleanup sample_build (sample_env 0 (-110)) {} sample_fb_info
      (sample_machine .DECON_STATE_ON 0) (by decide)).1⟩

theorem decon_pan_display_start_boff_invalid (var : fb_var_screeninfo) (info : fb_info)
    (h8 : info.var.bits_per_pixel < 8) (h4 : info.var.bits_per_pixel ≠ 4)
    (h2 : info.var.bits_per_pixel ≠ 2) (h1 : info.var.bits_per_pixel ≠ 1) :
    decon_pan_display_start_boff var info = none := by
  unfold decon_pan_display_start_boff
  simp only [ge_iff_le, Nat.not_le.mpr h8, if_false]

/-- C13 as stated fails: a 3 bpp update requested in state `ON` on a
hardware-triggered panel returns `-EINVAL`, but on its way out it writes the trigger
register (trigger disable). -/
theorem decon_pan_display_invalid_bpp_writes_trigger :
    (sample_machine .DECON_STATE_ON 0).decon.state ≠ .DECON_STATE_OFF ∧
    sample_fb_info_3bpp.var.bits_per_pixel = 3 ∧
    (decon_pan_display sample_build (sample_env 0 0) {} sample_fb_info_3bpp
      (sample_machine .DECON_STATE_ON 0)).2 = -EINVAL ∧
    issued (sample_machine .DECON_STATE_ON 0)
      (decon_pan_display sample_build (sample_env 0 0) {} sample_fb_info_3bpp
        (sample_machine .DECON_STATE_ON 0)).1 =
      [(.DECON_STATE_ON, .decon_lpd_block),
       (.DECON_STATE_ON, .decon_lpd_block),
       (.DECON_STATE_ON, .flush_workqueue_lpd_wq),
       (.DECON_STATE_ON, .mutex_lock_lpd_lock),
       (.DECON_STATE_ON, .decon_lpd_unblock),
       (.DECON_STATE_ON, .mutex_unlock_lpd_lock),
       (.DECON_STATE_ON, .mutex_lock_output_lock),
       (.DECON_STATE_ON, .dev_err "invalid bpp" []),
       (.DECON_STATE_ON, .decon_reg_set_trigger 0 .DECON_HW_TRIG .DECON_TRIG_DISABLE),
       (.DECON_STATE_ON, .decon_lpd_unblock),
       (.DECON_STATE_ON, .mutex_unlock_output_lock)] ∧
    (Event.decon_reg_set_trigger 0 .DECON_HW_TRIG .DECON_TRIG_DISABLE).is_reg_write = true :=
  ⟨by decide, rfl, by rfl, by rfl, rfl⟩

/-- C13, amended: `decon_pan_display` called in a non-`OFF` state with
`bits_per_pixel < 8` and not in {1, 2, 4} returns `-EINVAL`, and the only register
write it performs is the trigger disable on its way out, in `DECON_HW_TRIG` mode; no
shadow-protect, window-data, buffer-address, activation or update register is
written, and a panel that is not hardware-triggered sees no register write at all. -/
theorem decon_pan_display_invalid_bpp (b : Build) (env : Env) (var : fb_var_screeninfo)
    (info : fb_info) (m : Machine) (h : m.decon.state ≠ .DECON_STATE_OFF)
    (h8 : info.var.bits_per_pixel < 8) (h4 : info.var.bits_per_pixel ≠ 4)
    (h2 : info.var.bits_per_pixel ≠ 2) (h1 : info.var.bits_per_pixel ≠ 1) :
    (decon_pan_display b env var info m).2 = -EINVAL ∧
    (∀ e ∈ issued m (decon_pan_display b env var info m).1, e.2.is_reg_write = true →
      m.decon.pdata.trig_mode = .DECON_HW_TRIG ∧
      e.2 = .decon_reg_set_trigger m.decon.pdata.dsi_mode .DECON_HW_TRIG .DECON_TRIG_DISABLE) ∧
    (m.decon.pdata.trig_mode ≠ .DECON_HW_TRIG →
      ∀ e ∈ issued m (decon_pan_display b env var info m).1, e.2.is_reg_write = false) := by
  have hsb := decon_pan_display_start_boff_invalid var info h8 h4 h2 h1
  obtain ⟨l0, hl0, hq0, hcnt, hpd, _⟩ := decon_lpd_block_exit_effect b env m
  have hun := decon_pan_display_unfold b env var info m h
  have hnoff := decon_lpd_block_exit_not_off b env m h
  obtain ⟨l, hq, hi⟩ := issued_decon_pan_display b env var info m h
  have key : ∀ e ∈ issued m (decon_pan_display b env var info m).1, e.2.is_reg_write = true →
      m.decon.pdata.trig_mode = .DECON_HW_TRIG ∧
      e.2 = .decon_reg_set_trigger m.decon.pdata.dsi_mode .DECON_HW_TRIG
        .DECON_TRIG_DISABLE := by
    intro e he hw
    rw [hi] at he
    rcases List.mem_append.mp he with hl | hr
    · have h1 := of_all_true _ hl hq
      have h2 := is_lpd_op_no_reg_access e.2 h1
      simp [Event.is_reg_access, hw] at h2
    · cases htm : m.decon.pdata.trig_mode <;>
        simp [pan_display_locked_ops, pan_display_exit_ops, hnoff, hsb, hpd, htm] at hr <;>
        rcases hr with rfl | rfl | rfl | rfl | rfl <;>
        simp_all [Event.is_reg_write]
  refine ⟨?_, key, ?_⟩
  · rw [hun.2.2]
    simp [pan_display_locked_ret, hnoff, hsb]
  · intro hne e he
    cases hw : e.2.is_reg_write
    · rfl
    · exact absurd (key e he hw).1 hne

/-- C13, amended, instantiated: a 3 bpp update in state `ON`. -/
theorem decon_pan_display_invalid_bpp_witness :
    (sample_machine .DECON_STATE_ON 0).decon.state ≠ .DECON_STATE_OFF ∧
    sample_fb_info_3bpp.var.bits_per_pixel < 8 ∧
    sample_fb_info_3bpp.var.bits_per_pixel ≠ 4 ∧
    sample_fb_info_3bpp.var.bits_per_pixel ≠ 2 ∧
    sample_fb_info_3bpp.var.bits_per_pixel ≠ 1 ∧
    (decon_pan_display sample_build (sample_env 0 0) {} sample_fb_info_3bpp
      (sample_machine .DECON_STATE_ON 0)).2 = -EINVAL :=
  ⟨by decide, by decide, by decide, by decide, by decide,
    (decon_pan_display_invalid_bpp sample_build (sample_env 0 0) {} sample_fb_info_3bpp
      (sample_machine .DECON_STATE_ON 0) (by decide) (by decide) (by decide) (by decide)
      (by decide)).1⟩

theorem decon_fb_isr_for_eint_sw_trig_vsync (b : Build) (env : Env) (m : Machine) :
    (decon_fb_isr_for_eint_sw_trig b env m).decon.vsync_info = m.decon.vsync_info := by
  simp only [decon_fb_isr_for_eint_sw_trig]
  split_ifs <;> rfl

theorem decon_fb_isr_for_eint_pktgo_vsync (b : Build) (env : Env) (m : Machine) :
    (decon_fb_isr_for_eint_pktgo b env m).decon.vsync_info = m.decon.vsync_info := by
  simp only [decon_fb_isr_for_eint_pktgo]
  split_ifs <;> rfl

theorem decon_fb_isr_for_eint_lpd_vsync (b : Build) (m : Machine) :
    (decon_fb_isr_for_eint_lpd b m).decon.vsync_info = m.decon.vsync_info := by
  simp only [decon_fb_isr_for_eint_lpd, decon_lpd_enter_cond, queue_work_lpd_work]
  split_ifs <;> rfl

theorem decon_fb_isr_for_eint_active (b : Build) (env : Env) (m : Machine) :
    (decon_fb_isr_for_eint b env m).1.decon.vsync_info.active = m.decon.vsync_info.active := by
  simp only [decon_fb_isr_for_eint, emit_decon, decon_fb_isr_for_eint_lpd_vsync]
  rw [decon_fb_isr_for_eint_pktgo_vsync, decon_fb_isr_for_eint_sw_trig_vsync]
  rfl

theorem decon_int_get_enabled_win_vsync (b : Build) (env : Env) (m : Machine) :
    (decon_int_get_enabled_win b env m).decon.vsync_info = m.decon.vsync_info := by
  have hstep : ∀ (m : Machine) (i : Nat),
      (decon_int_get_enabled_win_step b env m i).decon.vsync_info = m.decon.vsync_info := by
    intro m i
    simp only [decon_int_get_enabled_win_step, emit]
    split_ifs <;> rfl
  exact foldl_keeps (decon_int_get_enabled_win_step b env)
    (fun x : Machine => x.decon.vsync_info) hstep _ _

theorem decon_oneshot_underrun_log_vsync (b : Build) (m : Machine) :
    (decon_oneshot_underrun_log b m).decon.vsync_info = m.decon.vsync_info := by
  simp only [decon_oneshot_underrun_log, emit]
  split_ifs <;> rfl

theorem decon_int_irq_handler_active (b : Build) (env : Env) (m : Machine) :
    (decon_int_irq_handler b env m).1.decon.vsync_info.active = m.decon.vsync_info.active := by
  simp only [decon_int_irq_handler, decon_int_irq_handler_irq_end, emit]
  split_ifs <;>
    simp [decon_oneshot_underrun_log_vsync, decon_int_get_enabled_win_vsync]

theorem vsync_irq_step_active (b : Build) (i : vsync_irq) (m : Machine) :
    (vsync_irq_step b i m).decon.vsync_info.active = m.decon.vsync_info.active := by
  cases i
  · exact decon_fb_isr_for_eint_active b _ m
  · exact decon_int_irq_handler_active b _ m

/-! ## The vsync notification thread -/

/-- The notifications counted after one step of the thread. -/
theorem decon_wait_for_vsync_thread_step_notified (d : decon_device) (u : vsync_thread) :
    (decon_wait_for_vsync_thread_step d u).notified =
      u.notified + (if u.waiting = true ∧ u.timestamp ≠ d.vsync_info.timestamp ∧
        d.vsync_info.active = true then 1 else 0) := by
  cases hw : u.waiting <;>
  by_cases h1 : u.timestamp = d.vsync_info.timestamp <;>
  cases h2 : d.vsync_info.active <;>
    simp [decon_wait_for_vsync_thread_step, vsync_wait_condition, hw, h1, h2]

theorem vsync_schedule_bound (b : Build) (xs : List vsync_step) :
    ∀ (m : Machine) (t : vsync_thread),
      (vsync_schedule b xs (m, t)).2.notified ≤
        t.notified +
          (if t.waiting = true ∧ t.timestamp ≠ m.decon.vsync_info.timestamp then 1 else 0) +
          count_changes m.decon.vsync_info.timestamp
            (recorded_timestamps b (vsync_irqs xs) m) := by
  induction xs with
  | nil => intro m t; simp only [vsync_schedule]; omega
  | cons x xs ih =>
    intro m t
    cases x with
    | irq i =>
      have h := ih (vsync_irq_step b i m) t
      simp only [vsync_schedule, vsync_step_run, vsync_irqs, recorded_timestamps, count_changes]
      by_cases hch : (vsync_irq_step b i m).decon.vsync_info.timestamp =
          m.decon.vsync_info.timestamp
      · rw [hch] at h ⊢
        simp only [ne_eq, not_true_eq_false, if_false] at h ⊢
        omega
      · simp only [ne_eq, hch, not_false_eq_true, if_true]
        split_ifs at h ⊢ <;> omega
    | thread =>
      have h := ih m (decon_wait_for_vsync_thread_step m.decon t)
      simp only [vsync_schedule, vsync_step_run, vsync_irqs]
      refine le_trans h ?_
      cases hw : t.waiting
      · simp [decon_wait_for_vsync_thread_step, hw]
      · by_cases h1 : t.timestamp = m.decon.vsync_info.timestamp
        · simp [decon_wait_for_vsync_thread_step, vsync_wait_condition, hw, h1]
        · cases h2 : m.decon.vsync_info.active <;>
            simp [decon_wait_for_vsync_thread_step, vsync_wait_condition, hw, h1, h2]

theorem vsync_schedule_threads_in_sync (b : Build) (n : Nat) (m : Machine) (t : vsync_thread)
    (hw : t.waiting = true) (hs : t.timestamp = m.decon.vsync_info.timestamp) :
    vsync_schedule b (List.replicate n .thread) (m, t) = (m, t) := by
  induction n with
  | zero => rfl
  | succ n ih =>
    have hstep : decon_wait_for_vsync_thread_step m.decon t = t := by
      simp [decon_wait_for_vsync_thread_step, vsync_wait_condition, hw, hs]
    simp only [List.replicate_succ, vsync_schedule, vsync_step_run, hstep]
    exact ih

theorem vsync_schedule_inactive (b : Build) (xs : List vsync_step) :
    ∀ (m : Machine) (t : vsync_thread), m.decon.vsync_info.active = false →
      (vsync_schedule b xs (m, t)).2.notified = t.notified := by
  induction xs with
  | nil => intro m t _; rfl
  | cons x xs ih =>
    intro m t ha
    cases x with
    | irq i =>
      simp only [vsync_schedule, vsync_step_run]
      exact ih _ t (by rw [vsync_irq_step_active, ha])
    | thread =>
      simp only [vsync_schedule, vsync_step_run]
      rw [ih m _ ha, decon_wait_for_vsync_thread_step_notified]
      simp [ha]

theorem vsync_schedule_after_each (b : Build) (is : List vsync_irq) :
    ∀ (m : Machine) (t : vsync_thread), m.decon.vsync_info.active = true →
      t.waiting = true → t.timestamp = m.decon.vsync_info.timestamp →
      (vsync_schedule b (vsync_thread_after_each is) (m, t)).2.notified =
        t.notified + count_changes m.decon.vsync_info.timestamp (recorded_timestamps b is m) ∧
      (vsync_schedule b (vsync_thread_after_each is) (m, t)).2.waiting = true := by
  induction is with
  | nil => intro m t _ hw _; exact ⟨by simp [vsync_schedule, vsync_thread_after_each,
      recorded_timestamps, count_changes], hw⟩
  | cons i is ih =>
    intro m t ha hw hs
    have hact := vsync_irq_step_active b i m
    simp only [vsync_thread_after_each, vsync_schedule, vsync_step_run, recorded_timestamps,
      count_changes]
    by_cases hch : (vsync_irq_step b i m).decon.vsync_info.timestamp =
        m.decon.vsync_info.timestamp
    · have hstep : decon_wait_for_vsync_thread_step (vsync_irq_step b i m).decon t = t := by
        simp [decon_wait_for_vsync_thread_step, vsync_wait_condition, hw, hs, hch]
      rw [hstep, hstep]
      obtain ⟨h1, h2⟩ := ih (vsync_irq_step b i m) t (by rw [hact, ha]) hw (by rw [hs, hch])
      refine ⟨?_, h2⟩
      rw [h1]
      simp [hch]
    · have hne : ¬ t.timestamp = (vsync_irq_step b i m).decon.vsync_info.timestamp := by
        rw [hs]; exact fun h => hch h.symm
      have hstep1 : decon_wait_for_vsync_thread_step (vsync_irq_step b i m).decon t =
          { t with waiting := false, notified := t.notified + 1 } := by
        simp [decon_wait_for_vsync_thread_step, vsync_wait_condition, hw, hne, hact, ha]
      have hstep2 : decon_wait_for_vsync_thread_step (vsync_irq_step b i m).decon
          { t with waiting := false, notified := t.notified + 1 } =
          { waiting := true, timestamp := (vsync_irq_step b i m).decon.vsync_info.timestamp,
            notified := t.notified + 1 } := by
        simp [decon_wait_for_vsync_thread_step]
      rw [hstep1, hstep2]
      obtain ⟨h1, h2⟩ := ih (vsync_irq_step b i m)
        { waiting := true, timestamp := (vsync_irq_step b i m).decon.vsync_info.timestamp,
          notified := t.notified + 1 } (by rw [hact, ha]) rfl rfl
      refine ⟨?_, h2⟩
      rw [h1]
      simp [hch]
      omega

/-- C14 (as amended): a step of the thread releases it (one `sysfs_notify`) exactly
when it is in its wait, `vsync_info.timestamp` differs from the value it sampled and
`vsync_info.active` is set; the value it waits on is the one it sampled immediately
before waiting.  Consequently, for a thread waiting on the currently recorded
timestamp: (1) over any interleaving of interrupts and steps of the thread, the number
of releases is at most the number of interrupts that recorded a timestamp different
from the previously recorded one; (2) after an interrupt that recorded the same value
the thread is not released, however often it runs; (3) when the thread gets to run
after every interrupt and `active` is set, the number of releases equals the number of
interrupts that recorded a different value, one release for each; (4) while `active`
is clear the thread is never released. -/
theorem vsync_thread_released_on_change (b : Build) (xs : List vsync_step)
    (is : List vsync_irq) (i : vsync_irq) (n : Nat) (m : Machine) (t : vsync_thread)
    (hw : t.waiting = true) (hs : t.timestamp = m.decon.vsync_info.timestamp) :
    (∀ (d : decon_device) (u : vsync_thread),
      (decon_wait_for_vsync_thread_step d u).notified =
        u.notified + (if u.waiting = true ∧ u.timestamp ≠ d.vsync_info.timestamp ∧
          d.vsync_info.active = true then 1 else 0)) ∧
    (∀ (d : decon_device) (u : vsync_thread), u.waiting = false →
      decon_wait_for_vsync_thread_step d u =
        { u with waiting := true, timestamp := d.vsync_info.timestamp }) ∧
    (vsync_schedule b xs (m, t)).2.notified ≤
      t.notified +
        count_changes m.decon.vsync_info.timestamp (recorded_timestamps b (vsync_irqs xs) m) ∧
    ((vsync_irq_step b i m).decon.vsync_info.timestamp = m.decon.vsync_info.timestamp →
      (vsync_schedule b (.irq i :: List.replicate n .thread) (m, t)).2 = t) ∧
    (m.decon.vsync_info.active = true →
      (vsync_schedule b (vsync_thread_after_each is) (m, t)).2.notified =
        t.notified +
          count_changes m.decon.vsync_info.timestamp (recorded_timestamps b is m)) ∧
    (m.decon.vsync_info.active = false →
      (vsync_schedule b xs (m, t)).2.notified = t.notified) := by
  refine ⟨decon_wait_for_vsync_thread_step_notified, ?_, ?_, ?_, ?_, ?_⟩
  · intro d u hu
    simp [decon_wait_for_vsync_thread_step, hu]
  · have h := vsync_schedule_bound b xs m t
    rw [if_neg (fun hc => hc.2 hs)] at h
    exact h
  · intro hch
    simp only [vsync_schedule, vsync_step_run]
    rw [vsync_schedule_threads_in_sync b n _ t hw (by rw [hs, hch])]
  · intro ha
    exact (vsync_schedule_after_each b is m t ha hw hs).1
  · intro ha
    exact vsync_schedule_inactive b xs m t ha

/-- C14 (as amended), instantiated: TE interrupts at clock values 1000, 1000 and 2000
after a recorded timestamp of 0, the thread running after each, release it twice; in
any other interleaving, here the thread running once at the end, at most twice. -/
theorem vsync_thread_released_on_change_witness :
    ({ waiting := true, timestamp := 0 } : vsync_thread).timestamp =
      sample_machine_vsync.decon.vsync_info.timestamp ∧
    sample_machine_vsync.decon.vsync_info.active = true ∧
    recorded_timestamps sample_build
      [.te (sample_env_at 1000), .te (sample_env_at 1000), .te (sample_env_at 2000)]
      sample_machine_vsync = [1000, 1000, 2000] ∧
    (vsync_schedule sample_build
      (vsync_thread_after_each
        [.te (sample_env_at 1000), .te (sample_env_at 1000), .te (sample_env_at 2000)])
      (sample_machine_vsync, { waiting := true, timestamp := 0 })).2.notified = 0 + 2 ∧
    (vsync_schedule sample_build
      [.irq (.te (sample_env_at 1000)), .irq (.te (sample_env_at 1000)),
       .irq (.te (sample_env_at 2000)), .thread]
      (sample_machine_vsync, { waiting := true, timestamp := 0 })).2.notified ≤ 0 + 2 :=
  ⟨rfl, rfl, by decide,
    (vsync_thread_released_on_change sample_build []
      [.te (sample_env_at 1000), .te (sample_env_at 1000), .te (sample_env_at 2000)]
      (.te (sample_env_at 1000)) 0
      sample_machine_vsync { waiting := true, timestamp := 0 } rfl rfl).2.2.2.2.1 rfl,
    (vsync_thread_released_on_change sample_build
      [.irq (.te (sample_env_at 1000)), .irq (.te (sample_env_at 1000)),
       .irq (.te (sample_env_at 2000)), .thread] []
      (.te (sample_env_at 1000)) 0
      sample_machine_vsync { waiting := true, timestamp := 0 } rfl rfl).2.2.1⟩

/-- C14 (the claim as stated fails): with `active` set and the thread waiting on the
recorded timestamp 0, two TE interrupts record 1000 and then 2000, each a value
different from the one recorded before, and the thread, which gets to run only after
the second, is released once, not twice; when the interrupts record 1000 and then 0
again, it is not released at all. -/
theorem vsync_writes_coalesce :
    recorded_timestamps sample_build [.te (sample_env_at 1000), .te (sample_env_at 2000)]
      sample_machine_vsync = [1000, 2000] ∧
    count_changes sample_machine_vsync.decon.vsync_info.timestamp [1000, 2000] = 2 ∧
    (vsync_schedule sample_build
      [.irq (.te (sample_env_at 1000)), .irq (.te (sample_env_at 2000)), .thread, .thread,
       .thread]
      (sample_machine_vsync, { waiting := true, timestamp := 0 })).2 =
      { waiting := true, timestamp := 2000, notified := 1 } ∧
    recorded_timestamps sample_build [.te (sample_env_at 1000), .te (sample_env_at 0)]
      sample_machine_vsync = [1000, 0] ∧
    count_changes sample_machine_vsync.decon.vsync_info.timestamp [1000, 0] = 2 ∧
    (vsync_schedule sample_build
      [.irq (.te (sample_env_at 1000)), .irq (.te (sample_env_at 0)), .thread, .thread,
       .thread]
      (sample_machine_vsync, { waiting := true, timestamp := 0 })).2 =
      { waiting := true, timestamp := 0, notified := 0 } := by
  decide

theorem decon_fb_isr_for_eint_sw_trig_lpd_view (b : Build) (env : Env) (m : Machine) :
    lpd_view (decon_fb_isr_for_eint_sw_trig b env m) = lpd_view m := by
  simp only [decon_fb_isr_for_eint_sw_trig]
  split_ifs <;> rfl

theorem decon_fb_isr_for_eint_pktgo_lpd_view (b : Build) (env : Env) (m : Machine) :
    lpd_view (decon_fb_isr_for_eint_pktgo b env m) = lpd_view m := by
  simp only [decon_fb_isr_for_eint_pktgo]
  split_ifs <;> rfl

theorem decon_fb_isr_for_eint_lpd_step (b : Build) (m : Machine)
    (hb : b.CONFIG_DECON_LPD_DISPLAY = true) (hs : m.decon.state = .DECON_STATE_ON)
    (hc : m.decon.lpd_block_cnt = 0) :
    lpd_view (decon_fb_isr_for_eint_lpd b m) =
      (.DECON_STATE_ON, 0, m.decon.lpd_trig_cnt + 1,
        m.decon.lpd_work_pending || (decide (2 ≤ m.decon.lpd_trig_cnt + 1) && m.lpd_enable),
        m.lpd_enable) := by
  by_cases h2 : 1 ≤ m.decon.lpd_trig_cnt <;> cases h3 : m.lpd_enable <;>
    simp [decon_fb_isr_for_eint_lpd, decon_lpd_enter_cond, decon_is_lpd_blocked,
      queue_work_lpd_work, lpd_view, emit, hb, hs, hc, h2, h3]

/-- One TE interrupt in state `ON` with no blocker (LPD feature compiled in) counts
one trigger, and queues the LPD work if this is at least the second trigger and LPD
is enabled. -/
theorem decon_fb_isr_for_eint_lpd_view (b : Build) (env : Env) (m : Machine)
    (hb : b.CONFIG_DECON_LPD_DISPLAY = true) (hs : m.decon.state = .DECON_STATE_ON)
    (hc : m.decon.lpd_block_cnt = 0) :
    lpd_view (decon_fb_isr_for_eint b env m).1 =
      (.DECON_STATE_ON, 0, m.decon.lpd_trig_cnt + 1,
        m.decon.lpd_work_pending || (decide (2 ≤ m.decon.lpd_trig_cnt + 1) && m.lpd_enable),
        m.lpd_enable) := by
  have h1 := decon_fb_isr_for_eint_sw_trig_lpd_view b env (emit .spin_lock_slock m)
  have h2 := decon_fb_isr_for_eint_pktgo_lpd_view b env
    (decon_fb_isr_for_eint_sw_trig b env (emit .spin_lock_slock m))
  rw [h1] at h2
  simp only [decon_fb_isr_for_eint]
  generalize decon_fb_isr_for_eint_pktgo b env
    (decon_fb_isr_for_eint_sw_trig b env (emit .spin_lock_slock m)) = M at h2
  have hv : lpd_view M = lpd_view m := h2
  simp only [lpd_view, Prod.mk.injEq] at hv
  obtain ⟨e1, e2, e3, e4, e5⟩ := hv
  have hstep := decon_fb_isr_for_eint_lpd_step b
    (emit (.wake_up_interruptible_all .vsync_info_wait)
      { M with decon := { M.decon with
        vsync_info := { M.decon.vsync_info with timestamp := env.ktime_get } } })
    hb (by simpa [emit] using e1.trans hs) (by simpa [emit] using e2.trans hc)
  have hout : ∀ x : Machine, lpd_view (emit .spin_unlock_slock x) = lpd_view x := fun _ => rfl
  rw [hout, hstep]
  simp [emit, e3, e4, e5]

/-- The LPD work, run in state `ON` with no blocker and at least one trigger
counted, enters LPD. -/
theorem decon_int_lpd_handler_enters (b : Build) (env : Env) (m : Machine)
    (hb : b.CONFIG_DECON_LPD_DISPLAY = true) (hs : m.decon.state = .DECON_STATE_ON)
    (hc : m.decon.lpd_block_cnt = 0) (ht : 1 ≤ m.decon.lpd_trig_cnt) :
    (decon_int_lpd_handler b env m).decon.state = .DECON_STATE_LPD := by
  have h2 : 2 ≤ m.decon.lpd_trig_cnt + 1 := by omega
  simp [decon_int_lpd_handler, decon_lpd_enter_cond, decon_is_lpd_blocked, decon_enter_lpd,
    decon_enter_lpd_err, decon_enter_lpd_err2, decon_lpd_block, decon_lpd_unblock,
    decon_lpd_trig_reset, emit, hb, hs, hc, h2]

/-- C15: with the LPD feature compiled in and enabled, state `ON`, no blocker, no
trigger counted yet and the LPD work not queued: the first TE interrupt does not
queue the LPD work, the second one queues it, and when `decon_int_lpd_handler` then
runs the state becomes `DECON_STATE_LPD`.  This holds whatever the environments of
the three steps report (in particular when no frame is pending). -/
theorem lpd_entry_after_two_te_interrupts (b : Build) (env1 env2 env3 : Env) (m : Machine)
    (hb : b.CONFIG_DECON_LPD_DISPLAY = true) (hen : m.lpd_enable = true)
    (hs : m.decon.state = .DECON_STATE_ON) (hc : m.decon.lpd_block_cnt = 0)
    (ht : m.decon.lpd_trig_cnt = 0) (hp : m.decon.lpd_work_pending = false) :
    (decon_fb_isr_for_eint b env1 m).1.decon.lpd_work_pending = false ∧
    (decon_fb_isr_for_eint b env2
      (decon_fb_isr_for_eint b env1 m).1).1.decon.lpd_work_pending = true ∧
    (decon_int_lpd_handler b env3
      (decon_fb_isr_for_eint b env2
        (decon_fb_isr_for_eint b env1 m).1).1).decon.state = .DECON_STATE_LPD := by
  have v1 := decon_fb_isr_for_eint_lpd_view b env1 m hb hs hc
  simp only [lpd_view, Prod.mk.injEq, ht, hp, hen] at v1
  obtain ⟨s1, c1, t1, p1, n1⟩ := v1
  have v2 := decon_fb_isr_for_eint_lpd_view b env2 (decon_fb_isr_for_eint b env1 m).1 hb s1 c1
  simp only [lpd_view, Prod.mk.injEq, t1, p1, n1] at v2
  obtain ⟨s2, c2, t2, p2, n2⟩ := v2
  refine ⟨?_, ?_, ?_⟩
  · simpa using p1
  · simpa using p2
  · exact decon_int_lpd_handler_enters b env3 _ hb s2 c2 (by rw [t2]; omega)

/-- C15, instantiated on the sample machine with LPD enabled. -/
theorem lpd_entry_after_two_te_interrupts_witness :
    sample_build.CONFIG_DECON_LPD_DISPLAY = true ∧
    ({ sample_machine .DECON_STATE_ON 0 with lpd_enable := true } : Machine).lpd_enable = true ∧
    (decon_int_lpd_handler sample_build (sample_env 0 0)
      (decon_fb_isr_for_eint sample_build (sample_env 0 0)
        (decon_fb_isr_for_eint sample_build (sample_env 0 0)
          { sample_machine .DECON_STATE_ON 0 with lpd_enable := true }).1).1).decon.state =
      .DECON_STATE_LPD :=
  ⟨rfl, rfl,
    (lpd_entry_after_two_te_interrupts sample_build (sample_env 0 0) (sample_env 0 0)
      (sample_env 0 0) { sample_machine .DECON_STATE_ON 0 with lpd_enable := true }
      rfl rfl rfl rfl rfl rfl).2.2⟩

theorem decon_int_irq_handler_blocks (b : Build) (env : Env) (m : Machine) :
    decon_int_irq_handler b env m =
      if (emit .spin_lock_slock m).decon.state = .DECON_STATE_OFF ∨
          (emit .spin_lock_slock m).decon.state = .DECON_STATE_LPD then
        decon_int_irq_handler_irq_end (emit .spin_lock_slock m)
      else
        decon_int_irq_handler_irq_end
          (decon_int_irq_handler_i80 b (env.decon_read .VIDINTCON1)
            (decon_int_irq_handler_fifo b env (env.decon_read .VIDINTCON1)
              (decon_int_irq_handler_frame b env (env.decon_read .VIDINTCON1)
                (emit (.decon_read .VIDINTCON1) (emit .spin_lock_slock m))))) := by
  rfl

theorem adds_refl {α : Type} (f : Event → Option α) (m : Machine) : adds f [] m m :=
  ⟨[], by simp, rfl⟩

theorem adds_trans {α : Type} {f : Event → Option α} {X Y : List α} {m0 m1 m2 : Machine}
    (h1 : adds f X m0 m1) (h2 : adds f Y m1 m2) : adds f (X ++ Y) m0 m2 := by
  obtain ⟨l1, e1, a1⟩ := h1
  obtain ⟨l2, e2, a2⟩ := h2
  refine ⟨l1 ++ l2, by rw [e2, e1, List.append_assoc], ?_⟩
  rw [picks, List.filterMap_append]
  exact congrArg₂ _ a1 a2

theorem adds_emit {α : Type} (f : Event → Option α) (e : Event) (m : Machine) :
    adds f (f e).toList m (emit e m) := by
  refine ⟨[(m.decon.state, e)], rfl, ?_⟩
  simp only [picks, List.filterMap_cons, List.filterMap_nil]
  cases f e <;> rfl

theorem adds_set_decon {α : Type} (f : Event → Option α) (d : decon_device) (m : Machine) :
    adds f [] m { m with decon := d } := ⟨[], by simp, rfl⟩

theorem adds_set_status {α : Type} (f : Event → Option α) (x : Int) (m : Machine) :
    adds f [] m { m with underrun_filter_status := x } := ⟨[], by simp, rfl⟩

theorem adds_issued {α : Type} {f : Event → Option α} {X : List α} {m0 m : Machine}
    (h : adds f X m0 m) : picks f (issued m0 m) = X := by
  obtain ⟨l, hl, ha⟩ := h
  rw [issued_append m0 m l hl, ha]

theorem decon_int_get_enabled_win_step_adds_acks (b : Build) (env : Env) (m : Machine) (i : Nat) :
    adds Event.ack [] m (decon_int_get_enabled_win_step b env m i) := by
  unfold decon_int_get_enabled_win_step
  simp only []
  split_ifs
  · exact adds_trans (adds_emit _ (.decon_read (.SHADOW (.WINCON i))) m)
      (adds_set_decon _ _ _)
  · exact adds_emit _ (.decon_read (.SHADOW (.WINCON i))) m

theorem foldl_adds_acks (f : Machine → Nat → Machine) (hf : ∀ m i, adds Event.ack [] m (f m i))
    (l : List Nat) : ∀ m0 m, adds Event.ack [] m0 m → adds Event.ack [] m0 (l.foldl f m) := by
  induction l with
  | nil => intro m0 m h; exact h
  | cons i l ih =>
    intro m0 m h
    exact ih m0 (f m i) (adds_trans h (hf m i))

theorem decon_int_get_enabled_win_adds_acks (b : Build) (env : Env) (m : Machine) :
    adds Event.ack [] m (decon_int_get_enabled_win b env m) := by
  unfold decon_int_get_enabled_win
  exact foldl_adds_acks _ (decon_int_get_enabled_win_step_adds_acks b env) _ m _
    (adds_set_decon _ _ _)

theorem decon_oneshot_underrun_log_adds_acks (b : Build) (m : Machine) :
    adds Event.ack [] m (decon_oneshot_underrun_log b m) := by
  unfold decon_oneshot_underrun_log
  simp only []
  split_ifs
  · exact adds_trans (adds_set_decon _ _ _)
      (adds_set_status _ _ _)
  · exact adds_trans (adds_trans (adds_trans (adds_trans (adds_set_decon _ _ _)
      (adds_set_status _ _ _))
      (adds_emit _ _ _))
      (adds_set_decon _ _ _))
      (adds_emit _ _ _)
  · exact adds_trans (adds_trans (adds_trans (adds_set_decon _ _ _)
      (adds_set_status _ _ _))
      (adds_set_decon _ _ _))
      (adds_emit _ _ _)

theorem decon_int_irq_handler_frame_adds_acks (b : Build) (env : Env) (sts : Nat) (m : Machine) :
    adds Event.ack (if sts &&& b.VIDINTCON1_INT_FRAME ≠ 0
        then [(0xffffffff, b.VIDINTCON1_INT_FRAME)] else []) m
      (decon_int_irq_handler_frame b env sts m) := by
  unfold decon_int_irq_handler_frame
  simp only []
  split_ifs
  · exact adds_trans (adds_trans (adds_trans (adds_trans
      (adds_set_decon _ _ _) (adds_emit _ _ _)) (adds_emit _ _ _)) (adds_set_decon _ _ _))
      (adds_emit _ _ _)
  · exact adds_trans (adds_trans (adds_set_decon _ _ _) (adds_emit _ _ _))
      (adds_emit _ _ _)
  · exact adds_refl _ m

theorem decon_int_irq_handler_fifo_adds_acks (b : Build) (env : Env) (sts : Nat) (m : Machine) :
    adds Event.ack (if sts &&& b.VIDINTCON1_INT_FIFO ≠ 0
        then [(0xffffffff, b.VIDINTCON1_INT_FIFO)] else []) m
      (decon_int_irq_handler_fifo b env sts m) := by
  unfold decon_int_irq_handler_fifo
  simp only []
  split_ifs
  · exact adds_trans (adds_trans (adds_trans (adds_trans (adds_trans (adds_trans (adds_trans (adds_emit _ (.decon_read .FRAMEFIFO_REG7) m)
      (adds_set_decon _ _ _))
      (adds_set_decon _ _ _))
      (adds_emit _ _ _))
      (adds_set_decon _ _ _))
      (decon_int_get_enabled_win_adds_acks b env _))
      (decon_oneshot_underrun_log_adds_acks b _))
      (adds_emit _ _ _)
  · exact adds_refl _ m

theorem decon_int_irq_handler_i80_adds_acks (b : Build) (sts : Nat) (m : Machine) :
    adds Event.ack (if sts &&& b.VIDINTCON1_INT_I80 ≠ 0
        then [(0xffffffff, b.VIDINTCON1_INT_I80)] else []) m
      (decon_int_irq_handler_i80 b sts m) := by
  unfold decon_int_irq_handler_i80
  simp only []
  split_ifs
  · exact adds_trans (adds_trans (adds_emit _ _ m) (adds_set_decon _ _ _))
      (adds_emit _ _ _)
  · exact adds_refl _ m

/-- C21: handled in a state other than `OFF` and `LPD`, `decon_int_irq_handler`
acknowledges exactly the bits among `VIDINTCON1_INT_FRAME`, `VIDINTCON1_INT_FIFO` and
`VIDINTCON1_INT_I80` that are set in the status word it read: the masked writes to
`VIDINTCON1` it issues are, in this order, one with mask `VIDINTCON1_INT_FRAME` if that
bit is set, one with mask `VIDINTCON1_INT_FIFO` if that bit is set and one with mask
`VIDINTCON1_INT_I80` if that bit is set, each with value `~0`, and no other. -/
theorem decon_int_irq_handler_acknowledges (b : Build) (env : Env) (m : Machine)
    (h1 : m.decon.state ≠ .DECON_STATE_OFF) (h2 : m.decon.state ≠ .DECON_STATE_LPD) :
    acks (issued m (decon_int_irq_handler b env m).1) =
      (if env.decon_read .VIDINTCON1 &&& b.VIDINTCON1_INT_FRAME ≠ 0
        then [(0xffffffff, b.VIDINTCON1_INT_FRAME)] else []) ++
      (if env.decon_read .VIDINTCON1 &&& b.VIDINTCON1_INT_FIFO ≠ 0
        then [(0xffffffff, b.VIDINTCON1_INT_FIFO)] else []) ++
      (if env.decon_read .VIDINTCON1 &&& b.VIDINTCON1_INT_I80 ≠ 0
        then [(0xffffffff, b.VIDINTCON1_INT_I80)] else []) := by
  apply adds_issued
  rw [decon_int_irq_handler_blocks]
  have hs : ¬ ((emit .spin_lock_slock m).decon.state = .DECON_STATE_OFF ∨
      (emit .spin_lock_slock m).decon.state = .DECON_STATE_LPD) := by
    rw [emit_decon]; exact not_or.mpr ⟨h1, h2⟩
  rw [if_neg hs]
  have hf := decon_int_irq_handler_frame_adds_acks b env (env.decon_read .VIDINTCON1)
    (emit (.decon_read .VIDINTCON1) (emit .spin_lock_slock m))
  have hu := decon_int_irq_handler_fifo_adds_acks b env (env.decon_read .VIDINTCON1)
    (decon_int_irq_handler_frame b env (env.decon_read .VIDINTCON1)
      (emit (.decon_read .VIDINTCON1) (emit .spin_lock_slock m)))
  have hi := decon_int_irq_handler_i80_adds_acks b (env.decon_read .VIDINTCON1)
    (decon_int_irq_handler_fifo b env (env.decon_read .VIDINTCON1)
      (decon_int_irq_handler_frame b env (env.decon_read .VIDINTCON1)
        (emit (.decon_read .VIDINTCON1) (emit .spin_lock_slock m))))
  have h0 : adds Event.ack [] m (emit (.decon_read .VIDINTCON1) (emit .spin_lock_slock m)) :=
    adds_trans (adds_emit _ .spin_lock_slock m) (adds_emit _ _ _)
  have hall := adds_trans (adds_trans (adds_trans (adds_trans h0 hf) hu) hi)
    (adds_emit _ .spin_unlock_slock _)
  simpa [decon_int_irq_handler_irq_end, Event.ack] using hall

theorem decon_int_irq_handler_acknowledges_witness :
    (sample_machine .DECON_STATE_ON 0).decon.state ≠ .DECON_STATE_OFF ∧
    (sample_machine .DECON_STATE_ON 0).decon.state ≠ .DECON_STATE_LPD ∧
    acks (issued (sample_machine .DECON_STATE_ON 0)
      (decon_int_irq_handler sample_build (sample_env 6 0)
        (sample_machine .DECON_STATE_ON 0)).1) = [(0xffffffff, 2), (0xffffffff, 4)] :=
  ⟨by decide, by decide,
   decon_int_irq_handler_acknowledges sample_build (sample_env 6 0)
     (sample_machine .DECON_STATE_ON 0) (by decide) (by decide)⟩

theorem decon_oneshot_underrun_log_suppressed (b : Build) (m : Machine)
    (h : m.underrun_filter_status > UNDERRUN_FILTER_IDLE) :
    decon_oneshot_underrun_log b m =
      with_underrun m (s32 (m.decon.underrun_stat.underrun_cnt + 1))
        (s32 (m.underrun_filter_status + 1)) := by
  unfold decon_oneshot_underrun_log with_underrun
  simp only [h, if_true]

theorem decon_oneshot_underrun_log_passed (b : Build) (m : Machine)
    (h : m.underrun_filter_status ≤ UNDERRUN_FILTER_IDLE) :
    decon_oneshot_underrun_log b m =
      { with_underrun m 0 (s32 (m.underrun_filter_status + 1)) with
        trace := m.trace ++
          ((if s32 (m.decon.underrun_stat.underrun_cnt + 1) > b.DECON_UNDERRUN_THRESHOLD
              then [(m.decon.state, underrun_log_line m.decon.underrun_stat)] else []) ++
            [(m.decon.state, .queue_delayed_work_underrun_filter_work)]) } := by
  unfold decon_oneshot_underrun_log with_underrun underrun_log_line
  simp only [gt_iff_lt, Int.not_lt.mpr h, if_false]
  split_ifs <;> simp [emit]

theorem underrun_burst_suppressed (b : Build) (m : Machine) (c s : Int) (hs : 1 < s) (hc : 0 ≤ c) :
    ∀ n : Nat, s + n ≤ 2147483647 → c + n ≤ 2147483647 →
      underrun_burst b n (with_underrun m c s) = with_underrun m (c + n) (s + n) := by
  intro n
  induction n with
  | zero => intro _ _; simp [underrun_burst]
  | succ n ih =>
    intro h1 h2
    have h1' : s + (n : Int) ≤ 2147483647 := by push_cast at h1; omega
    have h2' : c + (n : Int) ≤ 2147483647 := by push_cast at h2; omega
    rw [underrun_burst, ih h1' h2', decon_oneshot_underrun_log_suppressed]
    · simp only [with_underrun]
      rw [s32_of_range, s32_of_range]
      · push_cast; simp only [Int.add_assoc]
      · omega
      · push_cast at h1; omega
      · omega
      · push_cast at h2; omega
    · simp only [with_underrun, UNDERRUN_FILTER_IDLE]; omega

theorem underrun_burst_comm (b : Build) (n : Nat) (m : Machine) :
    underrun_burst b (n + 1) m = underrun_burst b n (decon_oneshot_underrun_log b m) := by
  induction n with
  | zero => rfl
  | succ n ih => rw [underrun_burst, ih]; rfl

theorem underrun_burst_from_idle (b : Build) (m : Machine) (n : Nat)
    (hs : m.underrun_filter_status = UNDERRUN_FILTER_IDLE) (hmax : n ≤ 2147483645) :
    underrun_burst b (n + 1) m =
      with_underrun
        { m with trace := m.trace ++
            ((if s32 (m.decon.underrun_stat.underrun_cnt + 1) > b.DECON_UNDERRUN_THRESHOLD
                then [(m.decon.state, underrun_log_line m.decon.underrun_stat)] else []) ++
              [(m.decon.state, .queue_delayed_work_underrun_filter_work)]) }
        n (2 + n) := by
  rw [underrun_burst_comm, decon_oneshot_underrun_log_passed b m (le_of_eq hs)]
  have h2 : s32 (m.underrun_filter_status + 1) = 2 := by rw [hs]; rfl
  rw [h2]
  have := underrun_burst_suppressed b
    { m with trace := m.trace ++
        ((if s32 (m.decon.underrun_stat.underrun_cnt + 1) > b.DECON_UNDERRUN_THRESHOLD
            then [(m.decon.state, underrun_log_line m.decon.underrun_stat)] else []) ++
          [(m.decon.state, .queue_delayed_work_underrun_filter_work)]) }
    0 2 (by decide) (by decide) n (by omega) (by omega)
  simp only [Int.zero_add] at this
  exact this

/-- C23: provided the increment of `underrun_cnt` does not overflow, a call of
`decon_oneshot_underrun_log` that passes the filter emits the underrun error log
exactly when the incremented count is greater than `DECON_UNDERRUN_THRESHOLD`, and
leaves `underrun_cnt` at 0 in either case; a suppressed call leaves `underrun_cnt`
1 larger than before and issues no operation at all.  Hence a log line is emitted
exactly when the call passes the filter and the incremented count exceeds the
threshold. -/
theorem decon_oneshot_underrun_log_threshold (b : Build) (m : Machine)
    (hc : is_s32 (m.decon.underrun_stat.underrun_cnt + 1)) :
    (passes_filter b m = true →
      err_logs (issued m (decon_oneshot_underrun_log b m)) =
        (if m.decon.underrun_stat.underrun_cnt + 1 > b.DECON_UNDERRUN_THRESHOLD
          then [underrun_log_line m.decon.underrun_stat] else []) ∧
      (decon_oneshot_underrun_log b m).decon.underrun_stat.underrun_cnt = 0) ∧
    (passes_filter b m = false →
      (decon_oneshot_underrun_log b m).decon.underrun_stat.underrun_cnt =
        m.decon.underrun_stat.underrun_cnt + 1 ∧
      issued m (decon_oneshot_underrun_log b m) = []) ∧
    (err_logs (issued m (decon_oneshot_underrun_log b m)) ≠ [] ↔
      passes_filter b m = true ∧
        m.decon.underrun_stat.underrun_cnt + 1 > b.DECON_UNDERRUN_THRESHOLD) := by
  have hr : s32 (m.decon.underrun_stat.underrun_cnt + 1) =
      m.decon.underrun_stat.underrun_cnt + 1 := s32_of_range _ hc.1 hc.2
  have hpass : passes_filter b m = true →
      err_logs (issued m (decon_oneshot_underrun_log b m)) =
        (if m.decon.underrun_stat.underrun_cnt + 1 > b.DECON_UNDERRUN_THRESHOLD
          then [underrun_log_line m.decon.underrun_stat] else []) ∧
      (decon_oneshot_underrun_log b m).decon.underrun_stat.underrun_cnt = 0 := by
    intro hp
    rw [passes_filter_eq, decide_eq_true_eq] at hp
    rw [decon_oneshot_underrun_log_passed b m hp, hr]
    refine ⟨?_, rfl⟩
    rw [issued_append m _ _ rfl]
    split_ifs <;> rfl
  have hsup : passes_filter b m = false →
      (decon_oneshot_underrun_log b m).decon.underrun_stat.underrun_cnt =
        m.decon.underrun_stat.underrun_cnt + 1 ∧
      issued m (decon_oneshot_underrun_log b m) = [] := by
    intro hp
    rw [passes_filter_eq, decide_eq_false_iff_not, Int.not_le] at hp
    rw [decon_oneshot_underrun_log_suppressed b m hp, hr]
    exact ⟨rfl, issued_append m _ [] (by simp [with_underrun])⟩
  refine ⟨hpass, hsup, ?_⟩
  cases hp : passes_filter b m
  · rw [(hsup hp).2]
    simp [err_logs]
  · rw [(hpass hp).1]
    split_ifs with h <;> simp [h]

theorem decon_oneshot_underrun_log_threshold_witness :
    is_s32 ((with_underrun (sample_machine .DECON_STATE_ON 0) 5 1).decon.underrun_stat.underrun_cnt
      + 1) ∧
    err_logs (issued (with_underrun (sample_machine .DECON_STATE_ON 0) 5 1)
      (decon_oneshot_underrun_log sample_build
        (with_underrun (sample_machine .DECON_STATE_ON 0) 5 1))) =
      [underrun_log_line (sample_machine .DECON_STATE_ON 0).decon.underrun_stat] ∧
    (decon_oneshot_underrun_log sample_build
      (with_underrun (sample_machine .DECON_STATE_ON 0) 5 1)).decon.underrun_stat.underrun_cnt = 0 :=
  ⟨by decide,
   ((decon_oneshot_underrun_log_threshold sample_build
      (with_underrun (sample_machine .DECON_STATE_ON 0) 5 1) (by decide)).1 (by decide))⟩

/-- C22 (as amended): with `DECON_UNDERRUN_THRESHOLD = 5`, starting from filter status
`IDLE` and an underrun count of 0, `N` calls of `decon_oneshot_underrun_log` (`N` at
least 6, as the 150 of the scenario) with no filter reset in between emit no log line:
the only operation issued is the `queue_delayed_work` of the first call, and the count
ends at `N - 1`.  After `underrun_filter_handler` has run, the next call emits exactly
one log line, the underrun line with the fifo level, bandwidth, mif, channel map,
windows and aclk, and resets the count to 0. -/
theorem underrun_burst_then_one_log (b : Build) (m : Machine) (N : Nat)
    (hthr : b.DECON_UNDERRUN_THRESHOLD = 5)
    (hs : m.underrun_filter_status = UNDERRUN_FILTER_IDLE)
    (hc : m.decon.underrun_stat.underrun_cnt = 0)
    (hN : 6 ≤ N) (hmax : N ≤ 2147483646) :
    issued m (underrun_burst b N m) =
      [(m.decon.state, .queue_delayed_work_underrun_filter_work)] ∧
    err_logs (issued m (underrun_burst b N m)) = [] ∧
    (underrun_burst b N m).decon.underrun_stat.underrun_cnt = (N : Int) - 1 ∧
    issued (underrun_burst b N m)
        (decon_oneshot_underrun_log b (underrun_filter_handler (underrun_burst b N m))) =
      [(m.decon.state, .msleep UNDERRUN_FILTER_INTERVAL_MS),
       (m.decon.state, underrun_log_line m.decon.underrun_stat),
       (m.decon.state, .queue_delayed_work_underrun_filter_work)] ∧
    err_logs (issued (underrun_burst b N m)
        (decon_oneshot_underrun_log b (underrun_filter_handler (underrun_burst b N m)))) =
      [underrun_log_line m.decon.underrun_stat] ∧
    (decon_oneshot_underrun_log b
      (underrun_filter_handler (underrun_burst b N m))).decon.underrun_stat.underrun_cnt = 0 := by
  obtain ⟨n, rfl⟩ : ∃ n, N = n + 1 := ⟨N - 1, by omega⟩
  have hb := underrun_burst_from_idle b m n hs (by omega)
  have h1 : ¬ (s32 (m.decon.underrun_stat.underrun_cnt + 1) > b.DECON_UNDERRUN_THRESHOLD) := by
    rw [hc, hthr]; decide
  rw [if_neg h1, List.nil_append] at hb
  have hi : issued m (underrun_burst b (n + 1) m) =
      [(m.decon.state, .queue_delayed_work_underrun_filter_work)] := by
    rw [hb]; exact issued_append m _ _ rfl
  have hpass : (underrun_filter_handler (underrun_burst b (n + 1) m)).underrun_filter_status ≤
      UNDERRUN_FILTER_IDLE := le_refl _
  have hcnt : s32 ((underrun_filter_handler
      (underrun_burst b (n + 1) m)).decon.underrun_stat.underrun_cnt + 1) = (n : Int) + 1 := by
    rw [hb]
    exact s32_of_range _ (by simp [underrun_filter_handler, with_underrun, emit]; omega)
      (by simp [underrun_filter_handler, with_underrun, emit]; omega)
  have h2 : s32 ((underrun_filter_handler
      (underrun_burst b (n + 1) m)).decon.underrun_stat.underrun_cnt + 1) >
      b.DECON_UNDERRUN_THRESHOLD := by
    rw [hcnt, hthr]; omega
  have hl := decon_oneshot_underrun_log_passed b
    (underrun_filter_handler (underrun_burst b (n + 1) m)) hpass
  rw [if_pos h2] at hl
  have hi2 : issued (underrun_burst b (n + 1) m)
        (decon_oneshot_underrun_log b (underrun_filter_handler (underrun_burst b (n + 1) m))) =
      [(m.decon.state, .msleep UNDERRUN_FILTER_INTERVAL_MS),
       (m.decon.state, underrun_log_line m.decon.underrun_stat),
       (m.decon.state, .queue_delayed_work_underrun_filter_work)] := by
    rw [hl]
    apply issued_append
    rw [hb]
    simp [underrun_filter_handler, with_underrun, emit, underrun_log_line]
  refine ⟨hi, ?_, ?_, hi2, ?_, ?_⟩
  · rw [hi]; rfl
  · rw [hb]; simp [with_underrun]
  · rw [hi2]; rfl
  · rw [hl]; rfl

theorem underrun_burst_then_one_log_witness :
    sample_build.DECON_UNDERRUN_THRESHOLD = 5 ∧
    (sample_machine .DECON_STATE_ON 0).underrun_filter_status = UNDERRUN_FILTER_IDLE ∧
    (sample_machine .DECON_STATE_ON 0).decon.underrun_stat.underrun_cnt = 0 ∧
    issued (sample_machine .DECON_STATE_ON 0)
        (underrun_burst sample_build 150 (sample_machine .DECON_STATE_ON 0)) =
      [(.DECON_STATE_ON, .queue_delayed_work_underrun_filter_work)] ∧
    (underrun_burst sample_build 150
      (sample_machine .DECON_STATE_ON 0)).decon.underrun_stat.underrun_cnt = 149 :=
  ⟨by decide, by decide, by decide,
   (underrun_burst_then_one_log sample_build (sample_machine .DECON_STATE_ON 0) 150
      (by decide) (by decide) (by decide) (by decide) (by decide)).1,
   (underrun_burst_then_one_log sample_build (sample_machine .DECON_STATE_ON 0) 150
      (by decide) (by decide) (by decide) (by decide) (by decide)).2.2.1⟩

/-- C22 (the claim as stated fails): in the scenario with threshold 5, started from
filter status `IDLE` and count 0, the first call emits no log line and neither do the
other 149; the one line emitted by the call after the filter reset lists the fifo
level, bandwidth, mif, channel map, windows and aclk (all 0 here) and not the number
of suppressed underruns. -/
theorem underrun_burst_first_call_not_logged :
    err_logs (issued (sample_machine .DECON_STATE_ON 0)
      (underrun_burst sample_build 1 (sample_machine .DECON_STATE_ON 0))) = [] ∧
    err_logs (issued (sample_machine .DECON_STATE_ON 0)
      (underrun_burst sample_build 150 (sample_machine .DECON_STATE_ON 0))) = [] ∧
    err_logs (issued (underrun_burst sample_build 150 (sample_machine .DECON_STATE_ON 0))
      (decon_oneshot_underrun_log sample_build (underrun_filter_handler
        (underrun_burst sample_build 150 (sample_machine .DECON_STATE_ON 0))))) =
      [.decon_err "underrun (level %d), bw(%llu), mif(%ld), chmap(0x%x), win(0x%lx), aclk(%ld)"
        [0, 0, 0, 0, 0, 0]] := by
  have hb := underrun_burst_from_idle sample_build (sample_machine .DECON_STATE_ON 0) 149
    (by rfl) (by decide)
  refine ⟨by rfl, ?_, ?_⟩
  · rw [hb]; rfl
  · rw [hb]; rfl

theorem decon_fb_isr_for_eint_sw_trig_adds (b : Build) (env : Env) (m : Machine) :
    adds Event.lpd_queued [] m (decon_fb_isr_for_eint_sw_trig b env m) := by
  unfold decon_fb_isr_for_eint_sw_trig
  simp only []
  split_ifs
  · exact adds_trans (adds_trans (adds_emit _ _ m) (adds_emit _ _ _)) (adds_emit _ _ _)
  · exact adds_trans (adds_emit _ _ m) (adds_emit _ _ _)
  · exact adds_emit _ _ m
  · exact adds_refl _ m

theorem decon_fb_isr_for_eint_pktgo_adds (b : Build) (env : Env) (m : Machine) :
    adds Event.lpd_queued [] m (decon_fb_isr_for_eint_pktgo b env m) := by
  unfold decon_fb_isr_for_eint_pktgo
  simp only []
  split_ifs
  · exact adds_trans (adds_trans (adds_set_decon _ _ m) (adds_emit _ _ _)) (adds_emit _ _ _)
  · exact adds_trans (adds_set_decon _ _ m) (adds_emit _ _ _)
  · exact adds_trans (adds_trans (adds_trans (adds_set_decon _ _ m) (adds_set_decon _ _ _))
      (adds_emit _ _ _)) (adds_emit _ _ _)
  · exact adds_trans (adds_trans (adds_set_decon _ _ m) (adds_set_decon _ _ _)) (adds_emit _ _ _)
  · exact adds_set_decon _ _ m
  · exact adds_refl _ m
  · exact adds_refl _ m

theorem decon_lpd_enter_cond_adds (m : Machine) :
    adds Event.lpd_queued [] m (decon_lpd_enter_cond m).1 := by
  unfold decon_lpd_enter_cond
  split_ifs
  · exact adds_refl _ m
  · exact adds_set_decon _ _ m

theorem decon_lpd_enter_cond_lpd_enable (m : Machine) :
    (decon_lpd_enter_cond m).1.lpd_enable = m.lpd_enable ∧
    (decon_lpd_enter_cond m).1.decon.lpd_work_pending = m.decon.lpd_work_pending ∧
    (decon_lpd_enter_cond m).1.decon.state = m.decon.state := by
  unfold decon_lpd_enter_cond
  split_ifs <;> exact ⟨rfl, rfl, rfl⟩

theorem decon_fb_isr_for_eint_lpd_unfold (b : Build) (m : Machine) :
    decon_fb_isr_for_eint_lpd b m =
      if b.CONFIG_DECON_LPD_DISPLAY = true ∧ m.decon.state = .DECON_STATE_ON then
        if (decon_lpd_enter_cond m).2 = true ∧ m.lpd_enable = true then
          queue_work_lpd_work (decon_lpd_enter_cond m).1
        else (decon_lpd_enter_cond m).1
      else m := by
  unfold decon_fb_isr_for_eint_lpd
  have hen := (decon_lpd_enter_cond_lpd_enable m).1
  rcases hc : decon_lpd_enter_cond m with ⟨m1, c⟩
  rw [hc] at hen
  simp only [] at hen
  by_cases h1 : b.CONFIG_DECON_LPD_DISPLAY = true <;> by_cases h2 : m.decon.state = .DECON_STATE_ON <;>
    simp [h1, h2, hen]

theorem decon_fb_isr_for_eint_lpd_adds (b : Build) (m : Machine) :
    adds Event.lpd_queued
      (if b.CONFIG_DECON_LPD_DISPLAY = true ∧ m.decon.state = .DECON_STATE_ON ∧
          (decon_lpd_enter_cond m).2 = true ∧ m.lpd_enable = true then [()] else [])
      m (decon_fb_isr_for_eint_lpd b m) := by
  rw [decon_fb_isr_for_eint_lpd_unfold]
  by_cases h1 : b.CONFIG_DECON_LPD_DISPLAY = true ∧ m.decon.state = .DECON_STATE_ON
  · rw [if_pos h1]
    by_cases h2 : (decon_lpd_enter_cond m).2 = true ∧ m.lpd_enable = true
    · rw [if_pos h2, if_pos ⟨h1.1, h1.2, h2.1, h2.2⟩]
      exact adds_trans (adds_trans (decon_lpd_enter_cond_adds m) (adds_emit _ _ _))
        (adds_set_decon _ _ _)
    · rw [if_neg h2, if_neg (fun h => h2 ⟨h.2.2.1, h.2.2.2⟩)]
      exact decon_lpd_enter_cond_adds m
  · rw [if_neg h1, if_neg (fun h => h1 ⟨h.1, h.2.1⟩)]
    exact adds_refl _ m

theorem decon_lpd_enter_cond_of_lpd_view (m m' : Machine) (h : lpd_view m = lpd_view m') :
    (decon_lpd_enter_cond m).2 = (decon_lpd_enter_cond m').2 := by
  simp only [lpd_view, Prod.mk.injEq] at h
  obtain ⟨_, hb, ht, _, _⟩ := h
  unfold decon_lpd_enter_cond decon_is_lpd_blocked
  rw [hb, ht]
  split_ifs <;> rfl

theorem picks_eq_nil_iff {α : Type} (f : Event → Option α) (l : List (decon_state × Event)) :
    picks f l = [] ↔ ∀ e ∈ l, f e.2 = none := by
  simp [picks, List.filterMap_eq_nil_iff]

theorem decon_fb_isr_for_eint_adds (b : Build) (env : Env) (m : Machine) :
    lpd_view (decon_fb_isr_for_eint b env m).1 =
      lpd_view (decon_fb_isr_for_eint_lpd b m) ∧
    adds Event.lpd_queued
      (if b.CONFIG_DECON_LPD_DISPLAY = true ∧ m.decon.state = .DECON_STATE_ON ∧
          (decon_lpd_enter_cond m).2 = true ∧ m.lpd_enable = true then [()] else [])
      m (decon_fb_isr_for_eint b env m).1 := by
  have e1 : lpd_view (emit .spin_lock_slock m) = lpd_view m := rfl
  have e2 := decon_fb_isr_for_eint_sw_trig_lpd_view b env (emit .spin_lock_slock m)
  have e3 := decon_fb_isr_for_eint_pktgo_lpd_view b env
    (decon_fb_isr_for_eint_sw_trig b env (emit .spin_lock_slock m))
  generalize hM : decon_fb_isr_for_eint_pktgo b env
    (decon_fb_isr_for_eint_sw_trig b env (emit .spin_lock_slock m)) = M at e3
  have hv : lpd_view M = lpd_view m := by rw [e3, e2, e1]
  have a3 : adds Event.lpd_queued [] m M := by
    rw [← hM]
    exact adds_trans (adds_trans (adds_emit _ _ m) (decon_fb_isr_for_eint_sw_trig_adds b env _))
      (decon_fb_isr_for_eint_pktgo_adds b env _)
  have hunf : (decon_fb_isr_for_eint b env m).1 =
      emit .spin_unlock_slock (decon_fb_isr_for_eint_lpd b
        (emit (.wake_up_interruptible_all .vsync_info_wait)
          { M with decon := { M.decon with
            vsync_info := { M.decon.vsync_info with timestamp := env.ktime_get } } })) := by
    rw [← hM]; rfl
  generalize hW : (emit (.wake_up_interruptible_all .vsync_info_wait)
      { M with decon := { M.decon with
        vsync_info := { M.decon.vsync_info with timestamp := env.ktime_get } } }) = W at hunf
  have hvW : lpd_view W = lpd_view m := by rw [← hW, ← hv]; rfl
  have aW : adds Event.lpd_queued [] m W := by
    rw [← hW]
    exact adds_trans (adds_trans a3 (adds_set_decon _ _ _)) (adds_emit _ _ _)
  have hl := decon_fb_isr_for_eint_lpd_adds b W
  have hcond := decon_lpd_enter_cond_of_lpd_view W m hvW
  have hst : W.decon.state = m.decon.state := congrArg (fun v => v.1) hvW
  have hen : W.lpd_enable = m.lpd_enable := congrArg (fun v => v.2.2.2.2) hvW
  rw [hcond, hst, hen] at hl
  rw [hunf]
  refine ⟨?_, ?_⟩
  · have hu := decon_fb_isr_for_eint_lpd_unfold b W
    have hu' := decon_fb_isr_for_eint_lpd_unfold b m
    rw [hcond, hst, hen] at hu
    have hv1 : lpd_view (decon_lpd_enter_cond W).1 = lpd_view (decon_lpd_enter_cond m).1 := by
      simp only [lpd_view, Prod.mk.injEq] at hvW
      obtain ⟨h1, h2, h3, h4, h5⟩ := hvW
      unfold decon_lpd_enter_cond decon_is_lpd_blocked
      rw [h2]
      split_ifs <;> simp [lpd_view, h1, h2, h3, h4, h5]
    rw [show lpd_view (emit .spin_unlock_slock (decon_fb_isr_for_eint_lpd b W)) =
      lpd_view (decon_fb_isr_for_eint_lpd b W) from rfl, hu, hu']
    split_ifs
    · simp only [lpd_view, Prod.mk.injEq] at hv1 ⊢
      obtain ⟨h1, h2, h3, h4, h5⟩ := hv1
      exact ⟨h1, h2, h3, rfl, h5⟩
    · exact hv1
    · exact hvW
  · have := adds_trans (adds_trans aW hl) (adds_emit Event.lpd_queued .spin_unlock_slock _)
    simpa [Event.lpd_queued] using this

theorem decon_fb_isr_for_eint_lpd_enable (b : Build) (env : Env) (m : Machine) :
    (decon_fb_isr_for_eint b env m).1.lpd_enable = m.lpd_enable ∧
    (m.lpd_enable = false →
      (decon_fb_isr_for_eint b env m).1.decon.lpd_work_pending = m.decon.lpd_work_pending) := by
  have h := (decon_fb_isr_for_eint_adds b env m).1
  have hu := decon_fb_isr_for_eint_lpd_unfold b m
  have hc := decon_lpd_enter_cond_lpd_enable m
  have h1 : (decon_fb_isr_for_eint_lpd b m).lpd_enable = m.lpd_enable := by
    rw [hu]; split_ifs <;> first | exact hc.1 | rfl
  have h2 : m.lpd_enable = false →
      (decon_fb_isr_for_eint_lpd b m).decon.lpd_work_pending = m.decon.lpd_work_pending := by
    intro hf
    rw [hu]
    split_ifs with ha hb
    · rw [hf] at hb; exact absurd hb.2 (by simp)
    · exact hc.2.1
    · rfl
  simp only [lpd_view, Prod.mk.injEq] at h
  exact ⟨h.2.2.2.2.trans h1, fun hf => h.2.2.2.1.trans (h2 hf)⟩

theorem te_run_not_enabled (b : Build) (envs : List Env) :
    ∀ m : Machine, m.lpd_enable = false →
      adds Event.lpd_queued [] m (te_run b envs m) ∧
      (te_run b envs m).decon.lpd_work_pending = m.decon.lpd_work_pending ∧
      (te_run b envs m).lpd_enable = false := by
  induction envs with
  | nil => intro m h; exact ⟨adds_refl _ m, rfl, h⟩
  | cons env envs ih =>
    intro m h
    have h1 := (decon_fb_isr_for_eint_adds b env m).2
    have h2 := decon_fb_isr_for_eint_lpd_enable b env m
    have hne : ¬ (b.CONFIG_DECON_LPD_DISPLAY = true ∧ m.decon.state = .DECON_STATE_ON ∧
        (decon_lpd_enter_cond m).2 = true ∧ m.lpd_enable = true) := by
      rw [h]; simp
    rw [if_neg hne] at h1
    obtain ⟨i1, i2, i3⟩ := ih (decon_fb_isr_for_eint b env m).1 (h2.1.trans h)
    exact ⟨adds_trans h1 i1, i2.trans (h2.2 h), i3⟩

theorem te_run_enabled (b : Build) (envs : List Env) :
    ∀ m : Machine, m.lpd_enable = true → (te_run b envs m).lpd_enable = true := by
  induction envs with
  | nil => intro m h; exact h
  | cons env envs ih =>
    intro m h
    exact ih _ ((decon_fb_isr_for_eint_lpd_enable b env m).1.trans h)

/-- C25: with the LPD feature compiled in, (1) as long as `decon_lpd_enable` has not
been called (`lpd_enable` is 0), no TE interrupt of any sequence queues the LPD-entry
work, whatever the display state and the trigger count: no `queue_work` is issued, the
work stays as it was, and `lpd_enable` stays 0; (2) `decon_lpd_enable` sets
`lpd_enable`, and it stays set over every sequence of TE interrupts; (3) with
`lpd_enable` set, one TE interrupt queues the work exactly when the state is
`DECON_STATE_ON` and `decon_lpd_enter_cond` holds, and then exactly once. -/
theorem lpd_work_queued_only_when_enabled (b : Build) (env : Env) (envs : List Env)
    (m : Machine) (hb : b.CONFIG_DECON_LPD_DISPLAY = true) :
    (m.lpd_enable = false →
      (∀ e ∈ issued m (te_run b envs m), e.2 ≠ .queue_work_lpd_work) ∧
      (te_run b envs m).decon.lpd_work_pending = m.decon.lpd_work_pending ∧
      (te_run b envs m).lpd_enable = false) ∧
    ((decon_lpd_enable m).lpd_enable = true ∧
      (te_run b envs (decon_lpd_enable m)).lpd_enable = true) ∧
    (m.lpd_enable = true →
      ((∃ e ∈ issued m (decon_fb_isr_for_eint b env m).1, e.2 = .queue_work_lpd_work) ↔
        (m.decon.state = .DECON_STATE_ON ∧ (decon_lpd_enter_cond m).2 = true)) ∧
      picks Event.lpd_queued (issued m (decon_fb_isr_for_eint b env m).1) =
        (if m.decon.state = .DECON_STATE_ON ∧ (decon_lpd_enter_cond m).2 = true
          then [()] else [])) := by
  refine ⟨fun hf => ?_, ⟨rfl, te_run_enabled b envs _ rfl⟩, fun ht => ?_⟩
  · obtain ⟨h1, h2, h3⟩ := te_run_not_enabled b envs m hf
    refine ⟨fun e he hq => ?_, h2, h3⟩
    have := (picks_eq_nil_iff _ _).mp (adds_issued h1) e he
    rw [hq] at this
    exact absurd this (by simp [Event.lpd_queued])
  · have h := adds_issued (decon_fb_isr_for_eint_adds b env m).2
    have hp : picks Event.lpd_queued (issued m (decon_fb_isr_for_eint b env m).1) =
        (if m.decon.state = .DECON_STATE_ON ∧ (decon_lpd_enter_cond m).2 = true
          then [()] else []) := by
      rw [h]
      by_cases hc : m.decon.state = .DECON_STATE_ON ∧ (decon_lpd_enter_cond m).2 = true
      · rw [if_pos hc, if_pos ⟨hb, hc.1, hc.2, ht⟩]
      · rw [if_neg hc, if_neg (fun x => hc ⟨x.2.1, x.2.2.1⟩)]
    refine ⟨?_, hp⟩
    constructor
    · rintro ⟨e, he, hq⟩
      by_contra hc
      rw [if_neg hc] at hp
      have := (picks_eq_nil_iff _ _).mp hp e he
      rw [hq] at this
      exact absurd this (by simp [Event.lpd_queued])
    · intro hc
      rw [if_pos hc] at hp
      by_contra hne
      have hnil : picks Event.lpd_queued (issued m (decon_fb_isr_for_eint b env m).1) = [] := by
        rw [picks_eq_nil_iff]
        intro e he
        cases hq : e.2 <;> simp only [Event.lpd_queued]
        exact absurd ⟨e, he, hq⟩ hne
      rw [hnil] at hp
      exact absurd hp (by simp)

theorem lpd_work_queued_only_when_enabled_witness :
    sample_build.CONFIG_DECON_LPD_DISPLAY = true ∧
    (∀ e ∈ issued sample_machine_idle
        (te_run sample_build [sample_env 0 0, sample_env 0 0]
          sample_machine_idle),
      e.2 ≠ .queue_work_lpd_work) ∧
    picks Event.lpd_queued
      (issued (decon_lpd_enable sample_machine_idle)
        (decon_fb_isr_for_eint sample_build (sample_env 0 0)
          (decon_lpd_enable sample_machine_idle)).1) = [()] :=
  ⟨by decide,
   ((lpd_work_queued_only_when_enabled sample_build (sample_env 0 0)
      [sample_env 0 0, sample_env 0 0]
      sample_machine_idle (by decide)).1 (by decide)).1,
   ((lpd_work_queued_only_when_enabled sample_build (sample_env 0 0) []
      (decon_lpd_enable sample_machine_idle) (by decide)).2.2
      (by decide)).2⟩

theorem decon_check_var_layout_idem (var v : fb_var_screeninfo)
    (h : decon_check_var_layout var = some v)
    (hb : var.bits_per_pixel = 1 ∨ var.bits_per_pixel = 2 ∨ var.bits_per_pixel = 4 ∨
      var.bits_per_pixel = 8 ∨ var.bits_per_pixel = 16 ∨ var.bits_per_pixel = 32) :
    decon_check_var_layout v = some v ∧ v.bits_per_pixel = var.bits_per_pixel := by
  rcases hb with hb | hb | hb | hb | hb | hb <;>
  · simp only [decon_check_var_layout, hb] at h
    simp at h
    subst h
    simp [decon_check_var_layout, hb]

theorem decon_check_var_layout_keeps (var v : fb_var_screeninfo)
    (h : decon_check_var_layout var = some v) :
    v.xres = var.xres ∧ v.yres = var.yres ∧ v.xres_virtual = var.xres_virtual ∧
    v.yres_virtual = var.yres_virtual ∧
    (v.bits_per_pixel = var.bits_per_pixel ∨ v.bits_per_pixel = 32) := by
  unfold decon_check_var_layout at h
  simp only [] at h
  split_ifs at h <;>
  · simp only [Option.some.injEq] at h
    subst h
    simp

theorem decon_check_var_layout_range (var v : fb_var_screeninfo)
    (h : decon_check_var_layout var = some v) :
    v.bits_per_pixel = 1 ∨ v.bits_per_pixel = 2 ∨ v.bits_per_pixel = 4 ∨
      v.bits_per_pixel = 8 ∨ v.bits_per_pixel = 16 ∨ v.bits_per_pixel = 32 := by
  unfold decon_check_var_layout at h
  simp only [] at h
  split_ifs at h with h1 h2 h3 h4 <;>
  · simp only [Option.some.injEq] at h
    subst h
    dsimp only at *
    omega

theorem decon_check_var_accepts (validate : decon_device → Nat → Nat → Nat → Bool)
    (var : fb_var_screeninfo) (info : fb_info) (m : Machine)
    (h0 : (decon_check_var validate var info m).2.2.2 = 0) :
    validate m.decon 0 var.xres var.bits_per_pixel = true ∧
    ∃ v, decon_check_var_layout
        { var with xres_virtual := max var.xres_virtual var.xres
                   yres_virtual := max var.yres_virtual var.yres } = some v ∧
      decon_check_var validate var info m =
        (m, v, { info with par := { info.par with fps := decon_check_var_fps m.decon v } }, 0) := by
  unfold decon_check_var at h0 ⊢
  simp only [] at h0 ⊢
  cases hv : validate m.decon 0 var.xres var.bits_per_pixel
  · rw [hv] at h0
    simp [EINVAL] at h0
  · rw [hv] at h0
    simp only [Bool.true_eq_false, if_false] at h0 ⊢
    cases hl : decon_check_var_layout
        { var with xres_virtual := max var.xres_virtual var.xres
                   yres_virtual := max var.yres_virtual var.yres } with
    | none => rw [hl] at h0; simp [EINVAL] at h0
    | some v => exact ⟨trivial, v, rfl, rfl⟩

theorem decon_check_var_of_layout (validate : decon_device → Nat → Nat → Nat → Bool)
    (v : fb_var_screeninfo) (info : fb_info) (m : Machine)
    (hv : validate m.decon 0 v.xres v.bits_per_pixel = true)
    (hx : v.xres ≤ v.xres_virtual) (hy : v.yres ≤ v.yres_virtual)
    (hl : decon_check_var_layout v = some v) :
    (decon_check_var validate v info m).2.1 = v ∧ (decon_check_var validate v info m).2.2.2 = 0 := by
  have e : ({ v with xres_virtual := max v.xres_virtual v.xres
                     yres_virtual := max v.yres_virtual v.yres } : fb_var_screeninfo) = v := by
    rw [Nat.max_eq_left hx, Nat.max_eq_left hy]
  unfold decon_check_var
  simp only [hv, Bool.true_eq_false, if_false, e, hl]
  exact ⟨trivial, trivial⟩

/-- C26 (as amended): let `decon_check_var` return 0 on `var`, leaving `var'`.  If the
depth of `var` is 1, 2, 4, 8, 16 or 32 bits per pixel, a second application to `var'`
returns 0 and leaves `var'` as it is, in all its fields.  For every accepted `var`,
whatever its depth, a second application leaves `bits_per_pixel`, `xres_virtual` and
`yres_virtual` of `var'` unchanged. -/
theorem decon_check_var_idempotent (validate : decon_device → Nat → Nat → Nat → Bool)
    (var : fb_var_screeninfo) (info : fb_info) (m : Machine)
    (h0 : (decon_check_var validate var info m).2.2.2 = 0) :
    (var.bits_per_pixel = 1 ∨ var.bits_per_pixel = 2 ∨ var.bits_per_pixel = 4 ∨
      var.bits_per_pixel = 8 ∨ var.bits_per_pixel = 16 ∨ var.bits_per_pixel = 32 →
      (decon_check_var validate (decon_check_var validate var info m).2.1
        (decon_check_var validate var info m).2.2.1
        (decon_check_var validate var info m).1).2.2.2 = 0 ∧
      (decon_check_var validate (decon_check_var validate var info m).2.1
        (decon_check_var validate var info m).2.2.1
        (decon_check_var validate var info m).1).2.1 =
        (decon_check_var validate var info m).2.1) ∧
    ((decon_check_var validate (decon_check_var validate var info m).2.1
        (decon_check_var validate var info m).2.2.1
        (decon_check_var validate var info m).1).2.1.bits_per_pixel =
        (decon_check_var validate var info m).2.1.bits_per_pixel ∧
      (decon_check_var validate (decon_check_var validate var info m).2.1
        (decon_check_var validate var info m).2.2.1
        (decon_check_var validate var info m).1).2.1.xres_virtual =
        (decon_check_var validate var info m).2.1.xres_virtual ∧
      (decon_check_var validate (decon_check_var validate var info m).2.1
        (decon_check_var validate var info m).2.2.1
        (decon_check_var validate var info m).1).2.1.yres_virtual =
        (decon_check_var validate var info m).2.1.yres_virtual) := by
  obtain ⟨hv, v, hl, hr⟩ := decon_check_var_accepts validate var info m h0
  obtain ⟨k1, k2, k3, k4, k5⟩ := decon_check_var_layout_keeps _ v hl
  simp only [] at k1 k2 k3 k4 k5
  have hx : v.xres ≤ v.xres_virtual := by rw [k1, k3]; exact Nat.le_max_right _ _
  have hy : v.yres ≤ v.yres_virtual := by rw [k2, k4]; exact Nat.le_max_right _ _
  rw [hr]
  simp only []
  refine ⟨fun hb => ?_, ?_⟩
  · obtain ⟨i1, i2⟩ := decon_check_var_layout_idem _ v hl hb
    simp only [] at i2
    have := decon_check_var_of_layout validate v
      { info with par := { info.par with fps := decon_check_var_fps m.decon v } } m
      (by rw [k1, i2]; exact hv) hx hy i1
    exact ⟨this.2, this.1⟩
  · have e : ({ v with xres_virtual := max v.xres_virtual v.xres
                       yres_virtual := max v.yres_virtual v.yres } : fb_var_screeninfo) = v := by
      rw [Nat.max_eq_left hx, Nat.max_eq_left hy]
    have hbv := decon_check_var_layout_range _ v hl
    unfold decon_check_var
    simp only [e]
    split_ifs
    · exact ⟨rfl, rfl, rfl⟩
    · cases hl2 : decon_check_var_layout v with
      | none => exact ⟨rfl, max_eq_left hx, max_eq_left hy⟩
      | some w =>
        obtain ⟨_, _, j3, j4, _⟩ := decon_check_var_layout_keeps v w hl2
        exact ⟨(decon_check_var_layout_idem v w hl2 hbv).2, j3, j4⟩

theorem decon_check_var_idempotent_witness :
    (decon_check_var sample_x_alignment sample_var_16bpp sample_fb_info
      (sample_machine .DECON_STATE_ON 0)).2.2.2 = 0 ∧
    (decon_check_var sample_x_alignment
      (decon_check_var sample_x_alignment sample_var_16bpp sample_fb_info
        (sample_machine .DECON_STATE_ON 0)).2.1
      (decon_check_var sample_x_alignment sample_var_16bpp sample_fb_info
        (sample_machine .DECON_STATE_ON 0)).2.2.1
      (decon_check_var sample_x_alignment sample_var_16bpp sample_fb_info
        (sample_machine .DECON_STATE_ON 0)).1).2.1 =
      (decon_check_var sample_x_alignment sample_var_16bpp sample_fb_info
        (sample_machine .DECON_STATE_ON 0)).2.1 :=
  ⟨by decide,
   ((decon_check_var_idempotent sample_x_alignment sample_var_16bpp sample_fb_info
      (sample_machine .DECON_STATE_ON 0) (by decide)).1 (by decide)).2⟩

/-- C26 (the claim as stated fails): `decon_check_var` accepts the 24 bits-per-pixel
mode `sample_var_24bpp`, turning it into a 32 bits-per-pixel mode without a
transparency field; applied again to the result it returns 0 as well, but now sets
the transparency field to offset 24 and length 8. -/
theorem decon_check_var_24bpp_not_idempotent :
    (decon_check_var sample_x_alignment sample_var_24bpp sample_fb_info
      (sample_machine .DECON_STATE_ON 0)).2.2.2 = 0 ∧
    (decon_check_var sample_x_alignment sample_var_24bpp sample_fb_info
      (sample_machine .DECON_STATE_ON 0)).2.1.bits_per_pixel = 32 ∧
    (decon_check_var sample_x_alignment sample_var_24bpp sample_fb_info
      (sample_machine .DECON_STATE_ON 0)).2.1.transp = { offset := 0, length := 0 } ∧
    (decon_check_var sample_x_alignment
      (decon_check_var sample_x_alignment sample_var_24bpp sample_fb_info
        (sample_machine .DECON_STATE_ON 0)).2.1
      (decon_check_var sample_x_alignment sample_var_24bpp sample_fb_info
        (sample_machine .DECON_STATE_ON 0)).2.2.1
      (decon_check_var sample_x_alignment sample_var_24bpp sample_fb_info
        (sample_machine .DECON_STATE_ON 0)).1).2.2.2 = 0 ∧
    (decon_check_var sample_x_alignment
      (decon_check_var sample_x_alignment sample_var_24bpp sample_fb_info
        (sample_machine .DECON_STATE_ON 0)).2.1
      (decon_check_var sample_x_alignment sample_var_24bpp sample_fb_info
        (sample_machine .DECON_STATE_ON 0)).2.2.1
      (decon_check_var sample_x_alignment sample_var_24bpp sample_fb_info
        (sample_machine .DECON_STATE_ON 0)).1).2.1.transp = { offset := 24, length := 8 } := by
  decide

/-- Whatever `decon_validate_x_alignment` is, a mode of 24 bits per pixel that is
accepted comes back as a 32 bits-per-pixel mode with an empty transparency field, and
a second application that accepts this mode gives it a transparency field of length
8. -/
theorem decon_check_var_24bpp_second_pass (validate : decon_device → Nat → Nat → Nat → Bool)
    (var : fb_var_screeninfo) (info : fb_info) (m : Machine)
    (hb : var.bits_per_pixel = 24)
    (h1 : validate m.decon 0 var.xres 24 = true) (h2 : validate m.decon 0 var.xres 32 = true) :
    (decon_check_var validate var info m).2.2.2 = 0 ∧
    (decon_check_var validate var info m).2.1.transp.length = 0 ∧
    (decon_check_var validate (decon_check_var validate var info m).2.1
      (decon_check_var validate var info m).2.2.1
      (decon_check_var validate var info m).1).2.1.transp.length = 8 := by
  simp [decon_check_var, decon_check_var_layout, hb, h1, h2]
end Decon

namespace Mx140

/-! ## The firmware selection is kept by file requests -/

theorem record_fw_sel (op : Op) (st : mx140_file) : fw_sel (record op st) = fw_sel st := rfl

theorem mx140_basedir_file_fw_sel (k : Kconfig) (fs : Vfs) (st : mx140_file) :
    fw_sel (mx140_basedir_file k fs st).1 = fw_sel st := by
  unfold mx140_basedir_file
  simp only []
  split_ifs <;> rfl

theorem mx140_request_file_fw_sel (k : Kconfig) (fs : Vfs) (path : List Char)
    (st st' : mx140_file) (r : Int) (f : Option firmware)
    (h : mx140_request_file k fs path st = .ok (st', r, f)) : fw_sel st' = fw_sel st := by
  have hb := mx140_basedir_file_fw_sel k fs (record (.mx140_request_file path) st)
  rw [record_fw_sel] at hb
  rcases hbd : mx140_basedir_file k fs (record (.mx140_request_file path) st) with ⟨sb, rb⟩
  rw [hbd] at hb
  unfold mx140_request_file at h
  simp only [hbd] at h
  simp only [fw_sel] at hb
  split_ifs at h
  all_goals first
    | (simp only [Except.ok.injEq, Prod.mk.injEq] at h
       rw [← h.1]
       simp only [fw_sel, record]
       exact hb)
    | (split at h
       · exact absurd h (by simp)
       · split_ifs at h <;>
         (simp only [Except.ok.injEq, Prod.mk.injEq] at h
          rw [← h.1]
          simp only [fw_sel, record]
          exact hb))

/-! ## Firmware download -/

theorem __mx140_file_download_fw_unfold (k : Kconfig) (fs : Vfs) (dest_size : Nat)
    (fw_suffix : List Char) (st : mx140_file) (d : fw_dest) :
    __mx140_file_download_fw k fs dest_size fw_suffix st d =
      if (mx140_basedir_file k fs st).2 ≠ 0 then
        .ok ((mx140_basedir_file k fs st).1, (mx140_basedir_file k fs st).2, d)
      else
        match mx140_request_file k fs
            (__mx140_file_download_fw_path (mx140_basedir_file k fs st).1 fw_suffix)
            (mx140_basedir_file k fs st).1 with
        | .error e => .error e
        | .ok res =>
          if res.2.1 ≠ 0 then .ok (res.1, res.2.1, d)
          else
            match res.2.2 with
            | none => .ok (res.1, res.2.1, d)
            | some f =>
              if f.size > dest_size then
                .ok ({ res.1 with log := res.1.log ++ [.vfree, .kfree] }, -EINVAL, d)
              else
                .ok ({ res.1 with log := res.1.log ++ [.memcpy f.size, .vfree, .kfree] },
                  res.2.1,
                  { dest := memcpy d.dest f.data f.size, fw_image_size := Decon.u32 f.size }) := by
  unfold __mx140_file_download_fw
  rcases mx140_basedir_file k fs st with ⟨sb, rb⟩
  simp only []
  split_ifs with h1
  · rfl
  · rcases mx140_request_file k fs (__mx140_file_download_fw_path sb fw_suffix) sb with e | ⟨s1, r1, f1⟩
    · rfl
    · simp only []
      split_ifs with h2
      · rfl
      · rcases f1 with _ | f
        · rfl
        · simp only [mx140_release_file, record, List.append_assoc, List.singleton_append]
          split_ifs <;> rfl

theorem __mx140_file_download_fw_fw_sel (k : Kconfig) (fs : Vfs) (dest_size : Nat)
    (fw_suffix : List Char) (st st' : mx140_file) (d d' : fw_dest) (r : Int)
    (h : __mx140_file_download_fw k fs dest_size fw_suffix st d = .ok (st', r, d')) :
    fw_sel st' = fw_sel st := by
  have hb := mx140_basedir_file_fw_sel k fs st
  rw [__mx140_file_download_fw_unfold] at h
  split_ifs at h with h1
  · simp only [Except.ok.injEq, Prod.mk.injEq] at h
    rw [← h.1]; exact hb
  · split at h
    · exact absurd h (by simp)
    · rename_i res hres
      have hq := mx140_request_file_fw_sel k fs _ _ res.1 res.2.1 res.2.2 hres
      split_ifs at h with h2
      · simp only [Except.ok.injEq, Prod.mk.injEq] at h
        rw [← h.1, hq]; exact hb
      · split at h
        · simp only [Except.ok.injEq, Prod.mk.injEq] at h
          rw [← h.1, hq]; exact hb
        · split_ifs at h <;>
          · simp only [Except.ok.injEq, Prod.mk.injEq] at h
            rw [← h.1, ← hb, ← hq]; rfl

theorem attempts_enoent_fw_sel (k : Kconfig) (fs : Vfs) (dest_size : Nat) (l : List fw_suffix) :
    ∀ a b, attempts_enoent k fs dest_size l a = some b → fw_sel b.1 = fw_sel a.1 := by
  induction l with
  | nil =>
    intro a b h
    simp only [attempts_enoent, Option.some.injEq] at h
    rw [h]
  | cons sfx rest ih =>
    intro a b h
    simp only [attempts_enoent] at h
    split at h
    · exact absurd h (by simp)
    · rename_i res hres
      split_ifs at h with hr
      have h1 := ih _ _ h
      have h2 := __mx140_file_download_fw_fw_sel k fs dest_size sfx.suffix a.1 res.1 a.2 res.2.2
        res.2.1 hres
      rw [h1, ← h2]

theorem mx140_file_download_fw_loop_cons (k : Kconfig) (fs : Vfs) (dest_size : Nat) (i : Nat)
    (sfx : fw_suffix) (rest : List fw_suffix) (r : Int) (st : mx140_file) (d : fw_dest) :
    mx140_file_download_fw_loop k fs dest_size i (sfx :: rest) r st d =
      match __mx140_file_download_fw k fs dest_size sfx.suffix st d with
      | .error e => .error e
      | .ok res =>
        if res.2.1 ≠ -ENOENT then .ok (res.1, res.2.1, res.2.2, i)
        else mx140_file_download_fw_loop k fs dest_size (i + 1) rest res.2.1 res.1 res.2.2 := by
  rw [mx140_file_download_fw_loop]
  rcases __mx140_file_download_fw k fs dest_size sfx.suffix st d with e | ⟨s1, r1, d1⟩ <;> rfl

theorem mx140_file_download_fw_loop_skip (k : Kconfig) (fs : Vfs) (dest_size : Nat)
    (pre : List fw_suffix) (sfx : fw_suffix) (post : List fw_suffix) :
    ∀ (i : Nat) (a mid : mx140_file × fw_dest) (r0 r1 : Int),
      attempts_enoent k fs dest_size pre a = some mid →
      mx140_file_download_fw_loop k fs dest_size i (pre ++ sfx :: post) r0 a.1 a.2 =
        mx140_file_download_fw_loop k fs dest_size (i + pre.length) (sfx :: post) r1 mid.1 mid.2 := by
  induction pre with
  | nil =>
    intro i a mid r0 r1 h
    simp only [attempts_enoent, Option.some.injEq] at h
    rw [h]
    rfl
  | cons p pre ih =>
    intro i a mid r0 r1 h
    simp only [attempts_enoent] at h
    split at h
    · exact absurd h (by simp)
    · rename_i res hres
      split_ifs at h with hr
      have h1 := ih (i + 1) _ mid (-ENOENT) r1 h
      dsimp only at h1
      rw [List.cons_append, mx140_file_download_fw_loop_cons, hres]
      simp only [hr, ne_eq, not_true_eq_false, if_false]
      rw [h1, List.length_cons, Nat.add_right_comm, Nat.add_assoc]

theorem mx140_file_download_fw_loop_all (k : Kconfig) (fs : Vfs) (dest_size : Nat)
    (l : List fw_suffix) :
    ∀ (i : Nat) (a fin : mx140_file × fw_dest) (r0 : Int),
      attempts_enoent k fs dest_size l a = some fin →
      mx140_file_download_fw_loop k fs dest_size i l r0 a.1 a.2 =
        .ok (fin.1, (if l = [] then r0 else -ENOENT), fin.2, i + l.length) := by
  induction l with
  | nil =>
    intro i a fin r0 h
    simp only [attempts_enoent, Option.some.injEq] at h
    rw [h]
    rfl
  | cons p l ih =>
    intro i a fin r0 h
    simp only [attempts_enoent] at h
    split at h
    · exact absurd h (by simp)
    · rename_i res hres
      split_ifs at h with hr
      have h1 := ih (i + 1) _ fin (-ENOENT) h
      dsimp only at h1
      rw [mx140_file_download_fw_loop_cons, hres]
      simp only [hr, ne_eq, not_true_eq_false, if_false]
      rw [h1, List.length_cons, Nat.add_right_comm, Nat.add_assoc]
      simp

theorem fw_suffixes_at_split (pre : List fw_suffix) (sfx : fw_suffix) (post : List fw_suffix)
    (h : fw_suffixes = pre ++ sfx :: post) : fw_suffixes_at (pre.length : Int) = some sfx := by
  unfold fw_suffixes_at
  rw [if_pos (Int.natCast_nonneg _), Int.toNat_natCast, h,
    List.getElem?_append_right (le_refl _), Nat.sub_self]
  simp

theorem fw_suffixes_not_manual (i : Nat) (sfx : fw_suffix) (h : fw_suffixes[i]? = some sfx) :
    sfx.suffix ≠ "manual".toList := by
  have hm : sfx ∈ fw_suffixes := List.getElem?_mem h
  simp only [fw_suffixes, List.mem_cons, List.mem_singleton, List.not_mem_nil, or_false] at hm
  rcases hm with rfl | rfl | rfl | rfl <;> decide

/-! ## Hardware version selection -/

theorem mx140_file_select_fw_loop_table (b : Nat) :
    mx140_file_select_fw_loop b 0 fw_suffixes =
      if b = 0x11 then some 0 else if b = 0x10 then some 1 else if b = 0x00 then some 2
      else if b = 0xff then some 3 else none := by
  simp only [mx140_file_select_fw_loop, fw_suffixes]
  split_ifs <;> first | rfl | (exfalso; omega)

/-- C18: `mx140_file_select_fw` returns 0 exactly when the byte
`(hw_ver & 0xff00) >> 8` is 0x11, 0x10, 0x00 or 0xff; it then sets `fw_suffix_found`
to the index of the table entry with that `hw_ver`, and `mx140_file_supported_hw` is
true for the same `hw_ver` afterwards.  For every other byte it returns `-EINVAL` and,
without `MX140_UNIFIED_HW_FW`, sets `fw_suffix_found` to -1. -/
theorem mx140_file_select_fw_known_byte (k : Kconfig) (hw_ver : Nat) (st : mx140_file) :
    ((mx140_file_select_fw k hw_ver st).2 = 0 ↔
        (hw_ver &&& 0xff00) >>> 8 ∈ [0x11, 0x10, 0x00, 0xff]) ∧
      ((hw_ver &&& 0xff00) >>> 8 ∈ [0x11, 0x10, 0x00, 0xff] →
        ∃ (i : Nat) (sfx : fw_suffix),
          fw_suffixes[i]? = some sfx ∧ sfx.hw_ver = (hw_ver &&& 0xff00) >>> 8 ∧
          mx140_file_select_fw k hw_ver st = ({ st with fw_suffix_found := (i : Int) }, 0) ∧
          mx140_file_supported_hw hw_ver (mx140_file_select_fw k hw_ver st).1 = .ok true) ∧
      ((hw_ver &&& 0xff00) >>> 8 ∉ [0x11, 0x10, 0x00, 0xff] →
        (mx140_file_select_fw k hw_ver st).2 = -EINVAL ∧
        (k.MX140_UNIFIED_HW_FW = false →
          mx140_file_select_fw k hw_ver st = ({ st with fw_suffix_found := -1 }, -EINVAL))) := by
  unfold mx140_file_select_fw mx140_file_supported_hw
  simp only [mx140_file_select_fw_loop_table]
  generalize (hw_ver &&& 0xff00) >>> 8 = b
  by_cases h1 : b = 0x11
  · subst h1
    refine ⟨by simp, fun _ => ⟨0, ⟨"_11".toList, 0x11⟩, ?_⟩, fun h => absurd h (by simp)⟩
    simp [fw_suffixes, fw_suffixes_at]
  by_cases h2 : b = 0x10
  · subst h2
    refine ⟨by simp, fun _ => ⟨1, ⟨"_10".toList, 0x10⟩, ?_⟩, fun h => absurd h (by simp)⟩
    simp [fw_suffixes, fw_suffixes_at]
  by_cases h3 : b = 0x00
  · subst h3
    refine ⟨by simp, fun _ => ⟨2, ⟨"_00".toList, 0x00⟩, ?_⟩, fun h => absurd h (by simp)⟩
    simp [fw_suffixes, fw_suffixes_at]
  by_cases h4 : b = 0xff
  · subst h4
    refine ⟨by simp, fun _ => ⟨3, ⟨[], 0xff⟩, ?_⟩, fun h => absurd h (by simp)⟩
    simp [fw_suffixes, fw_suffixes_at]
  · refine ⟨?_, fun h => absurd h (by simp [h1, h2, h3, h4]), fun _ => ?_⟩
    · simp only [h1, h2, h3, h4, if_false]
      cases k.MX140_UNIFIED_HW_FW <;> simp [EINVAL, h1, h2, h3, h4]
    · simp only [h1, h2, h3, h4, if_false]
      cases k.MX140_UNIFIED_HW_FW <;> simp

/-- C16: with `firmware_hw_ver` not "manual": (1) while no suffix is known,
`mx140_file_download_fw` makes its attempts in table order; when the attempts for the
entries before one entry all return `-ENOENT` and the attempt for that entry returns
another value `r`, the call returns `r`, and records the index of the entry (and its
suffix as `firmware_hw_ver`) when `r` is 0, leaving `fw_suffix_found` at -1 otherwise;
(2) when the attempts for all four entries return `-ENOENT` the call returns `-ENOENT`
and `fw_suffix_found` stays -1; (3) once an index is recorded, a call makes the single
attempt for the recorded suffix, returns its result, and keeps the index recorded and
`firmware_hw_ver` different from "manual", so that the same holds for the call after
it. -/
theorem mx140_file_download_fw_search_order (k : Kconfig) (fs : Vfs) (dest_size : Nat)
    (st : mx140_file) (d : fw_dest) (hman : st.firmware_hw_ver ≠ "manual".toList) :
    fw_suffixes.map (fun sfx => sfx.suffix) = ["_11".toList, "_10".toList, "_00".toList, []] ∧
    (st.fw_suffix_found = -1 →
      (∀ (pre : List fw_suffix) (sfx : fw_suffix) (post : List fw_suffix)
          (mid : mx140_file × fw_dest) (res : mx140_file × Int × fw_dest),
          fw_suffixes = pre ++ sfx :: post →
          attempts_enoent k fs dest_size pre (st, d) = some mid →
          __mx140_file_download_fw k fs dest_size sfx.suffix mid.1 mid.2 = .ok res →
          res.2.1 ≠ -ENOENT →
          res.1.fw_suffix_found = -1 ∧
          mx140_file_download_fw k fs dest_size st d =
            .ok ((if res.2.1 = 0 then
                    { res.1 with fw_suffix_found := (pre.length : Int)
                                 firmware_hw_ver := sfx.suffix }
                  else res.1), res.2.1, res.2.2)) ∧
      (∀ fin : mx140_file × fw_dest,
          attempts_enoent k fs dest_size fw_suffixes (st, d) = some fin →
          fin.1.fw_suffix_found = -1 ∧
          mx140_file_download_fw k fs dest_size st d = .ok (fin.1, -ENOENT, fin.2))) ∧
    (∀ (i : Nat) (sfx : fw_suffix) (res : mx140_file × Int × fw_dest),
        st.fw_suffix_found = (i : Int) → fw_suffixes[i]? = some sfx →
        __mx140_file_download_fw k fs dest_size sfx.suffix st d = .ok res →
        mx140_file_download_fw k fs dest_size st d =
          .ok ({ res.1 with firmware_hw_ver := sfx.suffix }, res.2.1, res.2.2) ∧
        res.1.fw_suffix_found = (i : Int) ∧ sfx.suffix ≠ "manual".toList) := by
  refine ⟨by rfl, fun hfound => ⟨?_, ?_⟩, ?_⟩
  · intro pre sfx post mid res hsplit hpre hres hr
    have h1 := attempts_enoent_fw_sel k fs dest_size pre _ _ hpre
    have h2 := __mx140_file_download_fw_fw_sel k fs dest_size sfx.suffix mid.1 res.1 mid.2
      res.2.2 res.2.1 hres
    have h3 : res.1.fw_suffix_found = -1 := by
      have := congrArg Prod.fst (h2.trans h1)
      simpa [fw_sel, hfound] using this
    refine ⟨h3, ?_⟩
    have hl := mx140_file_download_fw_loop_skip k fs dest_size pre sfx post 0 (st, d) mid 0 0 hpre
    rw [mx140_file_download_fw_loop_cons, hres, ← hsplit] at hl
    simp only [hr, ne_eq, not_false_eq_true, if_true] at hl
    unfold mx140_file_download_fw
    simp only [hman, decide_False, Bool.false_eq_true, if_false, hfound, ne_eq, not_true_eq_false]
    rw [hl]
    simp only [Nat.zero_add]
    by_cases h0 : res.2.1 = 0
    · simp only [h0, if_true, mx140_file_download_fw_done]
      rw [if_pos ⟨by omega, trivial⟩]
      simp only [fw_suffixes_at_split pre sfx post hsplit]
    · simp only [h0, if_false, mx140_file_download_fw_done, h3, ne_eq, not_true_eq_false,
        false_and]
  · intro fin hall
    have h1 := attempts_enoent_fw_sel k fs dest_size _ _ _ hall
    have h3 : fin.1.fw_suffix_found = -1 := by
      have := congrArg Prod.fst h1
      simpa [fw_sel, hfound] using this
    refine ⟨h3, ?_⟩
    have hl := mx140_file_download_fw_loop_all k fs dest_size fw_suffixes 0 (st, d) fin 0 hall
    unfold mx140_file_download_fw
    simp only [hman, decide_False, Bool.false_eq_true, if_false, hfound, ne_eq, not_true_eq_false]
    dsimp only at hl
    rw [hl]
    have hne : fw_suffixes ≠ [] := by simp [fw_suffixes]
    have he : (-ENOENT : Int) ≠ 0 := by decide
    simp only [hne, if_false, he, mx140_file_download_fw_done, h3, ne_eq, not_true_eq_false,
      false_and]
  · intro i sfx res hi hsfx hres
    have h2 := __mx140_file_download_fw_fw_sel k fs dest_size sfx.suffix st res.1 d
      res.2.2 res.2.1 hres
    have h3 : res.1.fw_suffix_found = (i : Int) := by
      have := congrArg Prod.fst h2
      simpa [fw_sel, hi] using this
    have hat : fw_suffixes_at (i : Int) = some sfx := by
      simp [fw_suffixes_at, hsfx]
    have hne : ((i : Int) = -1) = False := by
      simp
    refine ⟨?_, h3, fw_suffixes_not_manual i sfx hsfx⟩
    unfold mx140_file_download_fw
    simp only [hman, decide_False, Bool.false_eq_true, if_false, hi, ne_eq, hne,
      not_false_eq_true, if_true, hat, hres, mx140_file_download_fw_done, h3, and_self]

theorem mx140_file_download_fw_search_order_witness :
    sample_mx.firmware_hw_ver ≠ "manual".toList ∧
    mx140_file_download_fw sample_kconfig (sample_vfs sample_files) 4 sample_mx sample_dest =
      .ok ({ sample_mx with
              fw_suffix_found := 1
              firmware_hw_ver := "_10".toList
              log := sample_miss "/etc/wifi/mx140_11.bin".toList ++
                sample_hit "/etc/wifi/mx140_10.bin".toList 3 ++ [.memcpy 3, .vfree, .kfree] },
        0, { dest := [7, 8, 9, 0], fw_image_size := 3 }) :=
  ⟨by decide,
   (((mx140_file_download_fw_search_order sample_kconfig (sample_vfs sample_files) 4 sample_mx
        sample_dest (by decide)).2.1 (by rfl)).1
      [⟨"_11".toList, 0x11⟩] ⟨"_10".toList, 0x10⟩ [⟨"_00".toList, 0x00⟩, ⟨[], 0xff⟩]
      ({ sample_mx with log := sample_miss "/etc/wifi/mx140_11.bin".toList }, sample_dest)
      ({ sample_mx with
          log := sample_miss "/etc/wifi/mx140_11.bin".toList ++
            sample_hit "/etc/wifi/mx140_10.bin".toList 3 ++ [.memcpy 3, .vfree, .kfree] },
        0, { dest := [7, 8, 9, 0], fw_image_size := 3 })
      (by rfl) (by rfl) (by rfl) (by decide)).2⟩

/-! ## Bounded copy into the destination -/

/-- C17: when the base directory is known and the image file is loaded as `f`,
`__mx140_file_download_fw` returns `-EINVAL` with the destination and
`*fw_image_size` unchanged if `f.size` exceeds `dest_size`, and otherwise copies
exactly `f.size` bytes, stores `f.size` (as `u32`) in `*fw_image_size` and returns 0;
on both paths the file is released (`vfree`, `kfree`) as the last operations.  On every
path the destination is either unchanged or has received `n ≤ dest_size` bytes. -/
theorem __mx140_file_download_fw_bounded_copy (k : Kconfig) (fs : Vfs) (dest_size : Nat)
    (fw_suffix : List Char) (st st1 : mx140_file) (d : fw_dest) (f : firmware)
    (hb : (mx140_basedir_file k fs st).2 = 0)
    (hr : mx140_request_file k fs
        (__mx140_file_download_fw_path (mx140_basedir_file k fs st).1 fw_suffix)
        (mx140_basedir_file k fs st).1 = .ok (st1, 0, some f)) :
    (dest_size < f.size →
      __mx140_file_download_fw k fs dest_size fw_suffix st d =
        .ok ({ st1 with log := st1.log ++ [.vfree, .kfree] }, -EINVAL, d)) ∧
    (f.size ≤ dest_size →
      __mx140_file_download_fw k fs dest_size fw_suffix st d =
        .ok ({ st1 with log := st1.log ++ [.memcpy f.size, .vfree, .kfree] }, 0,
          { dest := f.data.take f.size ++ d.dest.drop f.size,
            fw_image_size := Decon.u32 f.size }) ∧
      (f.size < 2 ^ 32 → Decon.u32 f.size = f.size)) ∧
    (∀ (sfx' : List Char) (st0 : mx140_file) (d0 : fw_dest) (res : mx140_file × Int × fw_dest),
      __mx140_file_download_fw k fs dest_size sfx' st0 d0 = .ok res →
      res.2.2 = d0 ∨
        ∃ g : firmware, g.size ≤ dest_size ∧ res.2.1 = 0 ∧
          res.2.2 = { dest := g.data.take g.size ++ d0.dest.drop g.size,
                      fw_image_size := Decon.u32 g.size }) := by
  refine ⟨fun hbig => ?_, fun hfit => ⟨?_, fun h32 => ?_⟩, ?_⟩
  · rw [__mx140_file_download_fw_unfold, hr]
    simp only [hb, ne_eq, not_true_eq_false, if_false, gt_iff_lt, hbig, if_true]
  · rw [__mx140_file_download_fw_unfold, hr]
    simp only [hb, ne_eq, not_true_eq_false, if_false, gt_iff_lt, Nat.not_lt.mpr hfit, memcpy]
  · unfold Decon.u32
    exact Nat.mod_eq_of_lt h32
  · intro sfx' st0 d0 res h
    rw [__mx140_file_download_fw_unfold] at h
    split_ifs at h with h1
    · left; rw [← Except.ok.inj h]
    · split at h
      · exact absurd h (by simp)
      · rename_i q hq
        split_ifs at h with h2
        · left; rw [← Except.ok.inj h]
        · split at h
          · left; rw [← Except.ok.inj h]
          · rename_i g hg
            split_ifs at h with h3
            · left; rw [← Except.ok.inj h]
            · right
              refine ⟨g, Nat.not_lt.mp h3, ?_, ?_⟩
              · rw [← Except.ok.inj h]; exact not_not.mp h2
              · rw [← Except.ok.inj h]; rfl

theorem __mx140_file_download_fw_bounded_copy_witness :
    (mx140_basedir_file sample_kconfig (sample_vfs sample_files) sample_mx).2 = 0 ∧
    mx140_request_file sample_kconfig (sample_vfs sample_files)
        "/etc/wifi/mx140_10.bin".toList sample_mx =
      .ok ({ sample_mx with log := sample_hit "/etc/wifi/mx140_10.bin".toList 3 }, 0,
        some { size := 3, data := [7, 8, 9] ++ List.replicate 253 0 }) ∧
    __mx140_file_download_fw sample_kconfig (sample_vfs sample_files) 2 "_10".toList sample_mx
        sample_dest =
      .ok ({ sample_mx with
              log := sample_hit "/etc/wifi/mx140_10.bin".toList 3 ++ [.vfree, .kfree] },
        -EINVAL, sample_dest) :=
  ⟨by rfl, by rfl,
   (__mx140_file_download_fw_bounded_copy sample_kconfig (sample_vfs sample_files) 2
      "_10".toList sample_mx
      { sample_mx with log := sample_hit "/etc/wifi/mx140_10.bin".toList 3 } sample_dest
      { size := 3, data := [7, 8, 9] ++ List.replicate 253 0 } (by rfl) (by rfl)).1
      (by decide)⟩

/-! ## Device configuration path -/

/-- C20 (the code at the failing input): with the suffix `"_11"` selected
(`fw_suffix_found = 0`) and base directory `/etc/wifi`, `mx140_file_request_device_conf`
for `wlan/mac.txt` requests `/etc/wifi/_11conf/wlan/mac.txt` and fails with `-ENOENT`
although `/etc/wifi/conf/wlan/mac.txt` exists; with the empty suffix selected
(`fw_suffix_found = 3`) the same call requests `/etc/wifi/conf/wlan/mac.txt` and loads
it. -/
theorem mx140_file_request_device_conf_path_has_suffix :
    mx140_file_request_device_conf sample_kconfig (sample_vfs sample_files) none
        "wlan/mac.txt".toList { sample_mx with fw_suffix_found := 0 } =
      .ok ({ sample_mx with
              fw_suffix_found := 0
              log := sample_miss "/etc/wifi/_11conf/wlan/mac.txt".toList },
        -ENOENT, none) ∧
    mx140_file_request_device_conf sample_kconfig (sample_vfs sample_files) none
        "wlan/mac.txt".toList { sample_mx with fw_suffix_found := 3 } =
      .ok ({ sample_mx with
              fw_suffix_found := 3
              log := sample_hit "/etc/wifi/conf/wlan/mac.txt".toList 2 },
        0, some { size := 2, data := [1, 2] ++ List.replicate 254 0 }) :=
  ⟨by rfl, by rfl⟩

theorem read_ops_length (fuel : Nat) : ∀ p w : Nat, (w + 4095) / 4096 ≤ fuel →
    (read_ops fuel p w).length = (w + 4095) / 4096 := by
  induction fuel with
  | zero =>
    intro p w h
    have : w = 0 := by omega
    subst this
    rfl
  | succ fuel ih =>
    intro p w h
    unfold read_ops
    split_ifs with h0
    · subst h0; rfl
    · rw [List.length_cons, ih _ _ (by omega)]
      omega

theorem read_ops_bounds (fuel : Nat) : ∀ p w : Nat, ∀ op ∈ read_ops fuel p w,
    ∃ off cnt : Nat, op = Op.vfs_read (off : Int) (cnt : Int) ∧ 0 < cnt ∧ cnt ≤ 4096 ∧
      p ≤ off ∧ off + cnt ≤ p + w := by
  induction fuel with
  | zero => intro p w op h; simp [read_ops] at h
  | succ fuel ih =>
    intro p w op h
    unfold read_ops at h
    split_ifs at h with h0
    · simp at h
    · rcases List.mem_cons.mp h with rfl | h'
      · exact ⟨p, min w 4096, rfl, by omega, by omega, le_refl _, by omega⟩
      · obtain ⟨off, cnt, e, c1, c2, c3, c4⟩ := ih _ _ op h'
        exact ⟨off, cnt, e, c1, c2, by omega, by omega⟩

theorem store_at_length (buf : List Nat) (p : Nat) (bytes : List Nat)
    (h : p + bytes.length ≤ buf.length) : (store_at buf p bytes).length = buf.length := by
  unfold store_at
  simp only [List.length_append, List.length_take, List.length_drop]
  omega

/-- The read loop on a file system whose reads deliver exactly what is asked for. -/
theorem mx140_request_file_loop_exact (fs : Vfs) (path : List Char) (total : Nat)
    (hread : ∀ pos count : Int, 0 ≤ pos → 0 < count → count ≤ 4096 → pos + count ≤ total →
      fs.vfs_read path pos count = count)
    (fuel : Nat) :
    ∀ (s : read_state) (p w : Nat), s.whats_left = (w : Int) → s.p = (p : Int) → 0 ≤ s.r →
      s.f_pos = (p : Int) → p + w = total → w ≤ 2147483647 → p + w ≤ s.buf.length →
      (w + 4095) / 4096 ≤ fuel →
      ∃ s', mx140_request_file_loop fs path fuel s = some s' ∧ 0 ≤ s'.r ∧
        s'.p = ((p + w : Nat) : Int) ∧ s'.buf.length = s.buf.length ∧
        s'.log = s.log ++ read_ops fuel p w := by
  induction fuel with
  | zero =>
    intro s p w hw hp hr hf htot hmax hlen hfuel
    have : w = 0 := by omega
    subst this
    exact ⟨s, by simp [mx140_request_file_loop, hw], hr, by simpa using hp, rfl, by simp [read_ops]⟩
  | succ fuel ih =>
    intro s p w hw hp hr hf htot hmax hlen hfuel
    by_cases h0 : w = 0
    · subst h0
      exact ⟨s, by simp [mx140_request_file_loop, hw], hr, by simpa using hp, rfl,
        by simp [read_ops]⟩
    · have hwpos : (0 : Int) < s.whats_left := by rw [hw]; omega
      have hne : s.whats_left ≠ 0 := by omega
      have hto : (if s.whats_left < 4096 then s.whats_left else 4096) = ((min w 4096 : Nat) : Int) := by
        rw [hw]
        split_ifs with hc
        · rw [Nat.min_eq_left (by omega)]
        · rw [Nat.min_eq_right (by omega)]; rfl
      have hrd : Decon.s32 (fs.vfs_read path s.f_pos ((min w 4096 : Nat) : Int)) =
          ((min w 4096 : Nat) : Int) := by
        rw [hread _ _ (by omega) (by omega) (by omega) (by omega)]
        exact Decon.s32_of_range _ (by omega) (by omega)
      have hc1 : (0 : Int) < ((min w 4096 : Nat) : Int) := by omega
      have hbody : ∃ s2, mx140_request_file_body fs path s = (s2, true) ∧
          s2.whats_left = ((w - min w 4096 : Nat) : Int) ∧
          s2.p = ((p + min w 4096 : Nat) : Int) ∧ 0 ≤ s2.r ∧
          s2.f_pos = ((p + min w 4096 : Nat) : Int) ∧
          s2.buf.length = s.buf.length ∧
          s2.log = s.log ++ [Op.vfs_read (p : Int) ((min w 4096 : Nat) : Int)] := by
        unfold mx140_request_file_body
        simp only [hto, hrd]
        rw [if_neg (by omega), if_neg (by omega)]
        refine ⟨_, rfl, ?_, ?_, ?_, ?_, ?_, ?_⟩
        · simp only [hw]
          rw [Decon.s32_of_range _ (by omega) (by omega)]
          omega
        · simp only [hp]; omega
        · simp only []; omega
        · simp only [hf]; omega
        · simp only []
          apply store_at_length
          rw [hp]
          simp only [Int.toNat_ofNat]
          have := List.length_take_le (min w 4096) (List.drop s.f_pos.toNat (fs.file_data path))
          omega
        · simp only [hp]
      obtain ⟨s2, hb, g1, g2, g3, g4, g5, g6⟩ := hbody
      obtain ⟨s', e1, e2, e3, e4, e5⟩ := ih s2 (p + min w 4096) (w - min w 4096) g1 g2 g3 g4
        (by omega) (by omega) (by rw [g5]; omega) (by omega)
      refine ⟨s', ?_, e2, ?_, e4.trans g5, ?_⟩
      · rw [mx140_request_file_loop, if_neg hne, hb]
        exact e1
      · rw [e3]; congr 1; omega
      · rw [e5, g6, read_ops, if_neg h0, List.append_assoc]
        rfl

theorem mx140_basedir_file_known (k : Kconfig) (fs : Vfs) (st : mx140_file)
    (h : st.base_dir ≠ []) : mx140_basedir_file k fs st = (st, 0) := by
  unfold mx140_basedir_file
  rw [if_pos h]

/-- C28 (as amended): for a file whose stat size `s` satisfies `s + 256 ≤ INT_MAX`,
with the base directory known, both `vfs_stat` calls, both allocations and `filp_open`
successful, every `vfs_read` within the file returning exactly the number of bytes
requested and the
iteration bound of the model not below `ceil(s / 4096)`: `mx140_request_file` returns 0
with a file of size `s` in a buffer of `(s + 256) & ~255` bytes, which is a multiple of
256 and greater than `s`; the read loop makes `ceil(s / 4096)` reads, each of at least
1 and at most 4096 bytes and each ending at or before offset `s` of the buffer; the
file is closed after the last read. -/
theorem mx140_request_file_reads_whole_file (k : Kconfig) (fs : Vfs) (path : List Char)
    (st : mx140_file) (s : Nat)
    (hbase : st.base_dir ≠ [])
    (hdir : fs.vfs_stat st.base_dir = 0) (hstat : fs.vfs_stat path = 0)
    (hsize : fs.stat_size path = (s : Int)) (hmax : s + 256 ≤ 2147483647)
    (hvz : fs.vzalloc (request_buf_size s : Nat) = true) (hkz : fs.kzalloc = true)
    (hopen : fs.filp_open path = 0)
    (hread : ∀ pos count : Int, 0 ≤ pos → 0 < count → count ≤ 4096 → pos + count ≤ s →
      fs.vfs_read path pos count = count)
    (hfuel : (s + 4095) / 4096 ≤ fs.fuel) :
    (∃ data : List Nat,
      mx140_request_file k fs path st =
        .ok ({ st with log := st.log ++
                [.mx140_request_file path, .vfs_stat st.base_dir, .vfs_stat path,
                 .vzalloc (request_buf_size s : Nat), .kzalloc, .filp_open path] ++
                read_ops fs.fuel 0 s ++ [.filp_close] },
          0, some { size := s, data := data }) ∧
      data.length = request_buf_size s) ∧
    request_buf_size s % 256 = 0 ∧ s < request_buf_size s ∧
    (read_ops fs.fuel 0 s).length = (s + 4095) / 4096 ∧
    (∀ op ∈ read_ops fs.fuel 0 s, ∃ off cnt : Nat,
      op = Op.vfs_read (off : Int) (cnt : Int) ∧ 0 < cnt ∧ cnt ≤ 4096 ∧
        off + cnt ≤ s ∧ off + cnt < request_buf_size s) := by
  have hsz1 : request_buf_size s % 256 = 0 := by unfold request_buf_size; omega
  have hsz2 : s < request_buf_size s := by unfold request_buf_size; omega
  have hsz3 : request_buf_size s ≤ 2147483647 := by unfold request_buf_size; omega
  have hsize' : Decon.s32 ((fs.stat_size path + 256) - (fs.stat_size path + 256) % 256) =
      (request_buf_size s : Int) := by
    rw [hsize]
    have e : ((s : Int) + 256) - ((s : Int) + 256) % 256 = (request_buf_size s : Int) := by
      unfold request_buf_size; omega
    rw [e]
    exact Decon.s32_of_range _ (by omega) (by omega)
  have hwl : Decon.s32 (fs.stat_size path) = (s : Int) := by
    rw [hsize]; exact Decon.s32_of_range _ (by omega) (by omega)
  refine ⟨?_, hsz1, hsz2, read_ops_length _ 0 s hfuel, ?_⟩
  · have hbd := mx140_basedir_file_known k fs (record (.mx140_request_file path) st) hbase
    obtain ⟨s', l1, l2, l3, l4, l5⟩ := mx140_request_file_loop_exact fs path s hread fs.fuel
      { whats_left := Decon.s32 (fs.stat_size path), r := 0, p := 0, f_pos := 0,
        buf := List.replicate (request_buf_size s) 0,
        log := st.log ++ [.mx140_request_file path, .vfs_stat st.base_dir, .vfs_stat path,
                 .vzalloc (request_buf_size s : Nat), .kzalloc, .filp_open path] }
      0 s hwl rfl (le_refl _) rfl (by omega) (by omega) (by simp; omega) hfuel
    refine ⟨s'.buf, ?_, by rw [l4]; simp⟩
    unfold mx140_request_file
    simp only [hbd]
    have hdir' : fs.vfs_stat (record (Op.mx140_request_file path) st).base_dir = 0 := hdir
    simp only [ne_eq, one_ne_zero, not_false_eq_true, not_true_eq_false, if_false, hdir', hstat,
      hsize', hvz, hkz, hopen, Bool.true_eq_false, Int.toNat_ofNat]
    simp only [record, List.append_assoc, List.singleton_append, List.cons_append,
      List.nil_append] at l1 l5 ⊢
    rw [l1]
    simp only [ge_iff_le, l2, if_true, l3, l5]
    simp [record, hdir]
  · intro op hop
    obtain ⟨off, cnt, e, c1, c2, c3, c4⟩ := read_ops_bounds _ _ _ op hop
    exact ⟨off, cnt, e, c1, c2, by omega, by omega⟩

theorem mx140_request_file_reads_whole_file_witness :
    sample_mx.base_dir ≠ [] ∧
    (sample_vfs sample_files).stat_size "/etc/wifi/mx140_10.bin".toList = ((3 : Nat) : Int) ∧
    read_ops (sample_vfs sample_files).fuel 0 3 = [.vfs_read 0 3] ∧
    (read_ops (sample_vfs sample_files).fuel 0 3).length = (3 + 4095) / 4096 :=
  ⟨by decide, by rfl, by rfl,
   (mx140_request_file_reads_whole_file sample_kconfig (sample_vfs sample_files)
      "/etc/wifi/mx140_10.bin".toList sample_mx 3 (by decide) (by rfl) (by rfl) (by rfl)
      (by decide) (by rfl) (by rfl) (by rfl)
      (by
        intro pos count h0 h1 h2 h3
        simp only [sample_vfs, sample_files]
        rw [if_neg (by omega)]
        simp
        omega)
      (by decide)).2.2.2.1⟩

/-- C28 (the claim as stated fails): for a file of stat size `2^31 - 1` on which every
read delivers what it asks for, the size computed for the buffer, `(s + 256) & ~255`
held in an `int`, is `-2^31`, not greater than `s`; the allocation of that size
fails and `mx140_request_file` returns `-ENOMEM` without a single read. -/
theorem mx140_request_file_int_size_wraps :
    sample_vfs_huge.stat_size "/etc/wifi/mx140.bin".toList = 2147483647 ∧
    mx140_request_file sample_kconfig sample_vfs_huge "/etc/wifi/mx140.bin".toList sample_mx =
      .ok ({ sample_mx with
              log := [.mx140_request_file "/etc/wifi/mx140.bin".toList,
                      .vfs_stat "/etc/wifi".toList, .vfs_stat "/etc/wifi/mx140.bin".toList,
                      .vzalloc (-2147483648)] },
        -ENOMEM, none) := by
  exact ⟨rfl, rfl⟩

/-- C27 (the code at the failing input): in the initial module state
(`fw_suffix_found = -1`, base directory configured) each of
`mx140_file_supported_hw`, `__mx140_file_request_conf`, `mx140_file_request_debug_conf`
and `mx140_file_request_device_conf` reads `fw_suffixes[-1]`; the same holds after a
call of `mx140_file_select_fw` for an unknown hardware version (here `0x2200`), which
returns `-EINVAL` and leaves `fw_suffix_found` at -1. -/
theorem fw_suffixes_read_at_minus_one :
    sample_mx.fw_suffix_found = -1 ∧
    fw_suffixes_at sample_mx.fw_suffix_found = none ∧
    mx140_file_supported_hw 0x1100 sample_mx = .error .out_of_bounds ∧
    __mx140_file_request_conf sample_kconfig (sample_vfs sample_files) none [] "wlan".toList
      "wlan.hcf".toList false sample_mx = .error .out_of_bounds ∧
    mx140_file_request_debug_conf sample_kconfig (sample_vfs sample_files) none
      "log_strings.bin".toList sample_mx = .error .out_of_bounds ∧
    mx140_file_request_device_conf sample_kconfig (sample_vfs sample_files) none
      "wlan/mac.txt".toList sample_mx = .error .out_of_bounds ∧
    mx140_file_select_fw sample_kconfig 0x2200 sample_mx =
      ({ sample_mx with fw_suffix_found := -1 }, -EINVAL) ∧
    mx140_file_supported_hw 0x2200 (mx140_file_select_fw sample_kconfig 0x2200 sample_mx).1 =
      .error .out_of_bounds := by
  exact ⟨rfl, rfl, rfl, rfl, rfl, rfl, rfl, rfl⟩

/-- A read `fw_suffixes[i]` is inside the table exactly for `0 ≤ i ≤ 3`. -/
theorem fw_suffixes_at_in_range (i : Int) :
    (fw_suffixes_at i).isSome = true ↔ 0 ≤ i ∧ i ≤ 3 := by
  unfold fw_suffixes_at
  split_ifs with h
  · have hl : fw_suffixes.length = 4 := rfl
    rw [Option.isSome_iff_exists]
    constructor
    · rintro ⟨a, ha⟩
      have := (List.getElem?_eq_some_iff.mp ha).1
      omega
    · intro hr
      exact ⟨_, List.getElem?_eq_getElem (by omega)⟩
  · simp; omega

/-! ## Configuration file search -/

theorem requests_append (l1 l2 : List Op) : requests (l1 ++ l2) = requests l1 ++ requests l2 := by
  simp [requests, List.filterMap_append]

theorem mx140_request_file_body_log (fs : Vfs) (path : List Char) (s : read_state) :
    ∃ op, (mx140_request_file_body fs path s).1.log = s.log ++ [op] ∧ Op.request op = none := by
  unfold mx140_request_file_body
  simp only []
  split_ifs <;> exact ⟨_, rfl, rfl⟩

theorem mx140_request_file_loop_log (fs : Vfs) (path : List Char) (fuel : Nat) :
    ∀ s s' : read_state, mx140_request_file_loop fs path fuel s = some s' →
      ∃ l, s'.log = s.log ++ l ∧ requests l = [] := by
  induction fuel with
  | zero =>
    intro s s' h
    simp only [mx140_request_file_loop] at h
    split_ifs at h
    simp only [Option.some.injEq] at h
    exact ⟨[], by rw [← h]; simp, rfl⟩
  | succ n ih =>
    intro s s' h
    simp only [mx140_request_file_loop] at h
    obtain ⟨op, hop, hreq⟩ := mx140_request_file_body_log fs path s
    split_ifs at h with h0 hgo
    · simp only [Option.some.injEq] at h
      exact ⟨[], by rw [← h]; simp, rfl⟩
    · obtain ⟨l, hl, hr⟩ := ih _ s' h
      exact ⟨op :: l, by rw [hl, hop]; simp, by simpa [requests, hreq] using hr⟩
    · simp only [Option.some.injEq] at h
      exact ⟨[op], by rw [← h, hop], by simp [requests, hreq]⟩

/-- With the base directory known, a file request changes nothing in the statics but
the log, to which it adds the request itself followed by operations that are not
requests. -/
theorem mx140_request_file_known (k : Kconfig) (fs : Vfs) (path : List Char)
    (st : mx140_file) (res : mx140_file × Int × Option firmware) (hbase : st.base_dir ≠ [])
    (h : mx140_request_file k fs path st = .ok res) :
    statics res.1 = statics st ∧
    ∃ l, res.1.log = st.log ++ Op.mx140_request_file path :: l ∧ requests l = [] := by
  have hk := mx140_basedir_file_known k fs (record (.mx140_request_file path) st)
    (by simpa [record] using hbase)
  unfold mx140_request_file at h
  simp only [hk, ne_eq, not_true_eq_false, if_false] at h
  split_ifs at h
  all_goals first
    | (simp only [Except.ok.injEq] at h
       rw [← h]
       exact ⟨by simp only [statics, record], ⟨_, by
         simp only [record, List.append_assoc, List.singleton_append, List.cons_append,
           List.nil_append]
         rfl, by simp [requests, Op.request]⟩⟩)
    | (split at h
       · exact absurd h (by simp)
       · rename_i s hloop
         obtain ⟨l, hl, hr⟩ := mx140_request_file_loop_log fs path _ _ _ hloop
         simp only [record] at hl
         split_ifs at h <;>
         (simp only [Except.ok.injEq] at h
          rw [← h]
          exact ⟨by simp only [statics, record], ⟨_, by
            simp only [record, hl, List.append_assoc, List.singleton_append, List.cons_append,
              List.nil_append]
            rfl, by simpa [requests, Op.request, List.filterMap_append] using hr⟩⟩))

theorem statics_fields {a b : mx140_file} (h : statics a = statics b) :
    a.base_dir = b.base_dir ∧ a.fw_suffix_found = b.fw_suffix_found ∧
    a.firmware_variant = b.firmware_variant := by
  have h1 := congrArg mx140_file.base_dir h
  have h2 := congrArg mx140_file.fw_suffix_found h
  have h3 := congrArg mx140_file.firmware_variant h
  exact ⟨h1, h2, h3⟩

/-- With the base directory known and a table entry selected, a request at a location
is the file request for the path formatted for that location. -/
theorem __mx140_file_request_conf_known (k : Kconfig) (fs : Vfs) (conf : Option firmware)
    (platform_dir config_rel_path filename : List Char) (flat : Bool) (st st' : mx140_file)
    (sfx : fw_suffix) (hst : statics st' = statics st) (hbase : st.base_dir ≠ [])
    (hsfx : fw_suffixes_at st.fw_suffix_found = some sfx) :
    __mx140_file_request_conf k fs conf platform_dir config_rel_path filename flat st' =
      mx140_request_file k fs
        (__mx140_file_request_conf_path st sfx platform_dir config_rel_path filename flat) st' := by
  obtain ⟨h1, h2, h3⟩ := statics_fields hst
  have hk := mx140_basedir_file_known k fs st' (by rw [h1]; exact hbase)
  unfold __mx140_file_request_conf
  simp only [hk, ne_eq, not_true_eq_false, if_false, h2, hsfx]
  unfold __mx140_file_request_conf_path
  rw [h1, h3]

theorem request_conf_first_success_files (k : Kconfig) (fs : Vfs)
    (config_rel_path filename : List Char) (st : mx140_file) (sfx : fw_suffix)
    (hbase : st.base_dir ≠ []) (hsfx : fw_suffixes_at st.fw_suffix_found = some sfx)
    (locs : List (List Char × Bool)) :
    ∀ acc : mx140_file × Int × Option firmware, statics acc.1 = statics st →
      request_conf_first_success k fs config_rel_path filename locs acc =
        request_files_first_success k fs
          (locs.map (fun loc =>
            __mx140_file_request_conf_path st sfx loc.1 config_rel_path filename loc.2)) acc := by
  induction locs with
  | nil => intro acc _; rfl
  | cons loc rest ih =>
    intro acc hacc
    simp only [request_conf_first_success, List.map_cons, request_files_first_success]
    rw [__mx140_file_request_conf_known k fs acc.2.2 loc.1 config_rel_path filename loc.2 st
      acc.1 sfx hacc hbase hsfx]
    rcases hr : mx140_request_file k fs
      (__mx140_file_request_conf_path st sfx loc.1 config_rel_path filename loc.2) acc.1
      with e | res
    · rfl
    · simp only []
      split_ifs
      · rfl
      · have hb' : acc.1.base_dir ≠ [] := by rw [(statics_fields hacc).1]; exact hbase
        exact ih res ((mx140_request_file_known k fs _ acc.1 res hb' hr).1.trans hacc)

/-- The log of a search over a list of files: the files requested are an initial
segment of the list, and unless it is the whole list the last request returned 0. -/
theorem request_files_first_success_log (k : Kconfig) (fs : Vfs) (paths : List (List Char)) :
    ∀ (acc res : mx140_file × Int × Option firmware), acc.1.base_dir ≠ [] →
      request_files_first_success k fs paths acc = .ok res →
      ∃ n l, n ≤ paths.length ∧ (paths ≠ [] → 0 < n) ∧ res.1.log = acc.1.log ++ l ∧
        requests l = paths.take n ∧ (n < paths.length → res.2.1 = 0) := by
  induction paths with
  | nil =>
    intro acc res _ h
    simp only [request_files_first_success, Except.ok.injEq] at h
    exact ⟨0, [], le_refl _, fun hc => absurd rfl hc, by rw [← h]; simp, rfl,
      fun hc => absurd hc (by simp)⟩
  | cons p rest ih =>
    intro acc res hb h
    simp only [request_files_first_success] at h
    rcases hr : mx140_request_file k fs p acc.1 with e | r1
    · rw [hr] at h; exact absurd h (by simp)
    · rw [hr] at h
      simp only [] at h
      obtain ⟨hst, l1, hl1, hq1⟩ := mx140_request_file_known k fs p acc.1 r1 hb hr
      split_ifs at h with h0
      · simp only [Except.ok.injEq] at h
        rw [← h]
        exact ⟨1, Op.mx140_request_file p :: l1, by simp, fun _ => Nat.one_pos, hl1,
          by simpa [requests, Op.request] using hq1, fun _ => h0⟩
      · have hb1 : r1.1.base_dir ≠ [] := by rw [(statics_fields hst).1]; exact hb
        obtain ⟨n, l, hn, _, hl, hq, hlast⟩ := ih r1 res hb1 h
        refine ⟨n + 1, Op.mx140_request_file p :: l1 ++ l, by simp; omega,
          fun _ => Nat.succ_pos _, by rw [hl, hl1]; simp, ?_, fun hc => hlast (by simp at hc; omega)⟩
        rw [requests_append]
        simp only [requests, List.filterMap_cons, Op.request, List.take_succ_cons]
        have hq1' : List.filterMap Op.request l1 = [] := hq1
        have hq' : List.filterMap Op.request l = rest.take n := hq
        rw [hq1', hq']
        rfl

/-- C19: `mx140_file_request_conf` makes its requests in the order of
`conf_search_order` (the `cfg_platform` sub-directory alone when `cfg_platform` is not
"default"; otherwise generic, then the platform location if one is configured and not
empty, then flat), stops at the first request that returns 0, and returns the result of
the last request it made.  With the base directory known and a table entry selected,
each request is the file request (`mx140_request_file`) for the path formatted for its
location; the files the call adds to the log as requested are those of the locations
in order, from the first up to the last requested, and every location is requested
unless a request returned 0. -/
theorem mx140_file_request_conf_search_order (k : Kconfig) (fs : Vfs) (conf : Option firmware)
    (config_rel_path filename : List Char) (st : mx140_file) (sfx : fw_suffix) :
    mx140_file_request_conf k fs conf config_rel_path filename st =
      request_conf_first_success k fs config_rel_path filename (conf_search_order k st)
        (st, -ENOENT, conf) ∧
    (st.cfg_platform ≠ "default".toList →
      mx140_file_request_conf k fs conf config_rel_path filename st =
        __mx140_file_request_conf k fs conf st.cfg_platform config_rel_path filename false st) ∧
    (st.base_dir ≠ [] → fw_suffixes_at st.fw_suffix_found = some sfx →
      (∀ (c : Option firmware) (platform_dir : List Char) (flat : Bool),
        __mx140_file_request_conf k fs c platform_dir config_rel_path filename flat st =
          mx140_request_file k fs
            (__mx140_file_request_conf_path st sfx platform_dir config_rel_path filename flat)
            st) ∧
      mx140_file_request_conf k fs conf config_rel_path filename st =
        request_files_first_success k fs (conf_search_paths k st sfx config_rel_path filename)
          (st, -ENOENT, conf) ∧
      (∀ res, mx140_file_request_conf k fs conf config_rel_path filename st = .ok res →
        ∃ n l, 0 < n ∧ n ≤ (conf_search_paths k st sfx config_rel_path filename).length ∧
          res.1.log = st.log ++ l ∧
          requests l = (conf_search_paths k st sfx config_rel_path filename).take n ∧
          (n < (conf_search_paths k st sfx config_rel_path filename).length →
            res.2.1 = 0))) := by
  have hA : mx140_file_request_conf k fs conf config_rel_path filename st =
      request_conf_first_success k fs config_rel_path filename (conf_search_order k st)
        (st, -ENOENT, conf) := by
    unfold mx140_file_request_conf conf_search_order
    by_cases hc : st.cfg_platform = "default".toList
    · simp only [hc, ne_eq, not_true_eq_false, if_false, mx140_file_request_conf_platform]
      rcases k.CONFIG_SCSC_WLBT_CONFIG_PLATFORM with _ | plat
      · simp only [List.append_nil, List.singleton_append, request_conf_first_success]
        rcases __mx140_file_request_conf k fs conf [] config_rel_path filename false st with e | a
        · rfl
        · simp only []
          by_cases h0 : a.2.1 = 0
          · simp only [h0, if_true, not_true_eq_false, if_false]
          · simp only [h0, if_false, not_false_eq_true, if_true]
            rcases __mx140_file_request_conf k fs a.2.2 [] config_rel_path filename true a.1
              with e | b
            · rfl
            · simp only [ite_self]
      · by_cases hp : plat = []
        · simp only [hp, ne_eq, not_true_eq_false, if_false, List.append_nil,
            List.singleton_append, request_conf_first_success, ite_self]
          rcases __mx140_file_request_conf k fs conf [] config_rel_path filename false st
            with e | a
          · rfl
          · simp only []
            by_cases h0 : a.2.1 = 0
            · simp only [h0, if_true, not_true_eq_false, if_false]
            · simp only [h0, if_false, not_false_eq_true, if_true]
              rcases __mx140_file_request_conf k fs a.2.2 [] config_rel_path filename true a.1
                with e | b
              · rfl
              · simp only [ite_self]
        · simp only [hp, ne_eq, not_false_eq_true, if_true, List.singleton_append,
            List.cons_append, List.nil_append, request_conf_first_success]
          rcases __mx140_file_request_conf k fs conf [] config_rel_path filename false st
            with e | a
          · rfl
          · simp only []
            by_cases h0 : a.2.1 = 0
            · simp only [h0, if_true, not_true_eq_false, if_false]
            · simp only [h0, if_false, not_false_eq_true, if_true]
              rcases __mx140_file_request_conf k fs a.2.2 plat config_rel_path filename false a.1
                with e | b
              · rfl
              · simp only []
                by_cases h1 : b.2.1 = 0
                · simp only [h1, if_true, not_true_eq_false, if_false]
                · simp only [h1, if_false, not_false_eq_true, if_true]
                  rcases __mx140_file_request_conf k fs b.2.2 [] config_rel_path filename true b.1
                    with e | c
                  · rfl
                  · simp only [ite_self]
    · simp only [hc, ne_eq, not_false_eq_true, if_true, request_conf_first_success]
      rcases __mx140_file_request_conf k fs conf st.cfg_platform config_rel_path filename false st
        with e | a
      · rfl
      · simp only [ite_self]
  refine ⟨hA, fun hc => ?_, fun hbase hsfx => ⟨fun c dir flat => ?_, ?_, ?_⟩⟩
  · unfold mx140_file_request_conf
    rw [if_pos hc]
  · exact __mx140_file_request_conf_known k fs c dir config_rel_path filename flat st st sfx
      rfl hbase hsfx
  · rw [hA]
    exact request_conf_first_success_files k fs config_rel_path filename st sfx hbase hsfx _
      (st, -ENOENT, conf) rfl
  · intro res hres
    rw [hA, request_conf_first_success_files k fs config_rel_path filename st sfx hbase hsfx _
      (st, -ENOENT, conf) rfl] at hres
    obtain ⟨n, l, hn, hpos, hl, hq, hlast⟩ :=
      request_files_first_success_log k fs _ (st, -ENOENT, conf) res hbase hres
    have hne : conf_search_paths k st sfx config_rel_path filename ≠ [] := by
      unfold conf_search_paths conf_search_order
      split_ifs <;> simp
    exact ⟨n, l, hpos hne, hn, hl, hq, hlast⟩

/-- C19, instantiated: platform `smdk`, firmware `mx140_10`, the file `wlan/wlan.hcf`
present at the platform location only: the generic location is requested and misses,
the platform location is requested and loads the file, the flat location is not
requested. -/
theorem mx140_file_request_conf_search_order_witness :
    ({ sample_mx with fw_suffix_found := 1 } : mx140_file).base_dir ≠ [] ∧
    fw_suffixes_at ({ sample_mx with fw_suffix_found := 1 } : mx140_file).fw_suffix_found =
      some { suffix := "_10".toList, hw_ver := 0x10 } ∧
    conf_search_paths sample_kconfig { sample_mx with fw_suffix_found := 1 }
        { suffix := "_10".toList, hw_ver := 0x10 } "wlan".toList "wlan.hcf".toList =
      ["/etc/wifi/mx140_10/conf/wlan/wlan.hcf".toList,
       "/etc/wifi/mx140_10/conf/smdk/wlan/wlan.hcf".toList,
       "/etc/wifi/mx140_10_wlan.hcf".toList] ∧
    mx140_file_request_conf sample_kconfig (sample_vfs sample_conf_files) none
        "wlan".toList "wlan.hcf".toList { sample_mx with fw_suffix_found := 1 } =
      request_files_first_success sample_kconfig (sample_vfs sample_conf_files)
        (conf_search_paths sample_kconfig { sample_mx with fw_suffix_found := 1 }
          { suffix := "_10".toList, hw_ver := 0x10 } "wlan".toList "wlan.hcf".toList)
        ({ sample_mx with fw_suffix_found := 1 }, -ENOENT, none) ∧
    mx140_file_request_conf sample_kconfig (sample_vfs sample_conf_files) none
        "wlan".toList "wlan.hcf".toList { sample_mx with fw_suffix_found := 1 } =
      .ok ({ sample_mx with
              fw_suffix_found := 1
              log := sample_miss "/etc/wifi/mx140_10/conf/wlan/wlan.hcf".toList ++
                sample_hit "/etc/wifi/mx140_10/conf/smdk/wlan/wlan.hcf".toList 2 },
        0, some { size := 2, data := [4, 5] ++ List.replicate 254 0 }) :=
  ⟨by decide, by rfl, by rfl,
   ((mx140_file_request_conf_search_order sample_kconfig (sample_vfs sample_conf_files) none
      "wlan".toList "wlan.hcf".toList { sample_mx with fw_suffix_found := 1 }
      { suffix := "_10".toList, hw_ver := 0x10 }).2.2 (by decide) (by rfl)).2.1,
   by rfl⟩
end Mx140

namespace Ktd2692

theorem ktd2692_set_bit_eq (h : Header) (bit : Nat) (st : Led) :
    ktd2692_set_bit h bit st =
      { st with log := st.log ++ set_bit_ops h st.pdata.flash_control bit } := by
  unfold ktd2692_set_bit set_bit_ops ktd2692_set_high_bit ktd2692_set_low_bit
  split_ifs <;> simp [record]

theorem ktd2692_write_data_eq (h : Header) (data : Nat) (st : Led) :
    ktd2692_write_data h data st =
      { st with log := st.log ++ write_data_ops h st.pdata.flash_control data } := by
  unfold ktd2692_write_data write_data_ops
  simp only [ktd2692_set_bit_eq, record, List.append_assoc]
  rfl

theorem s32_u32_of_lt (n : Nat) (h : n ≤ 2147483647) : Decon.s32 (Decon.u32 n) = (n : Int) := by
  have e : Decon.u32 n = n := by unfold Decon.u32; omega
  rw [e]
  exact Decon.s32_of_range _ (by omega) (by omega)

theorem s64_of_lt (n : Nat) (h : n < 9223372036854775808) : s64 n = (n : Int) := by
  unfold s64; omega

theorem sprintf_d_nat (n : Nat) : sprintf_d (n : Int) = (toString n).toList := by
  unfold sprintf_d
  show (Int.repr (Int.ofNat n)).toList = _
  simp only [Int.repr]
  rfl

theorem record_pdata (op : Op) (st : Led) : (record op st).pdata = st.pdata := rfl

theorem record_log (op : Op) (st : Led) : (record op st).log = st.log ++ [op] := rfl

theorem ktd2692_write_data_pdata (h : Header) (data : Nat) (st : Led) :
    (ktd2692_write_data h data st).pdata = st.pdata := by
  rw [ktd2692_write_data_eq]

theorem ktd2692_write_data_log (h : Header) (data : Nat) (st : Led) :
    (ktd2692_write_data h data st).log =
      st.log ++ write_data_ops h st.pdata.flash_control data := by
  rw [ktd2692_write_data_eq]

theorem ktd2692_store_put_pdata (v : Bool) (st : Led) :
    (ktd2692_store_put v st).pdata = st.pdata := by
  unfold ktd2692_store_put record; split_ifs <;> rfl

theorem ktd2692_store_put_log (v : Bool) (st : Led) :
    (ktd2692_store_put v st).log = st.log ++ (if v then [Op.devm_pinctrl_put] else []) := by
  unfold ktd2692_store_put record; split_ifs <;> simp

theorem ktd2692_setGpio_zero (st : Led) :
    ktd2692_setGpio 0 st = record (.gpio_set_value st.pdata.flash_control 0) st := by
  unfold ktd2692_setGpio; simp

theorem ktd2692_store_off_pdata (h : Header) (st : Led) :
    (ktd2692_store_off h st).pdata =
      { st.pdata with mode_status := h.KTD2692_DISABLES_MOVIE_FLASH_MODE } := by
  unfold ktd2692_store_off
  simp only [ktd2692_setGpio_zero, record_pdata, ktd2692_write_data_pdata]

theorem ktd2692_store_off_log (h : Header) (st : Led) :
    (ktd2692_store_off h st).log = st.log ++ torch_off_ops h st.pdata := by
  unfold ktd2692_store_off torch_off_ops
  simp [ktd2692_setGpio_zero, record_pdata, record_log, ktd2692_write_data_pdata, ktd2692_write_data_log]

theorem ktd2692_store_on_pdata (h : Header) (st : Led) :
    (ktd2692_store_on h st).pdata =
      { st.pdata with mode_status := h.KTD2692_ENABLE_MOVIE_MODE } := by
  unfold ktd2692_store_on
  simp only [record_pdata, ktd2692_write_data_pdata]

theorem ktd2692_store_on_log (h : Header) (st : Led) :
    (ktd2692_store_on h st).log = st.log ++ torch_on_ops h st.pdata := by
  unfold ktd2692_store_on torch_on_ops
  simp [record_pdata, record_log, ktd2692_write_data_pdata, ktd2692_write_data_log]

theorem ktd2692_store_select_pdata (env : Env) (name : String) (st : Led) :
    (ktd2692_store_select env name st).pdata = st.pdata := by
  unfold ktd2692_store_select; simp only []; split_ifs <;> rfl

theorem ktd2692_store_select_log (env : Env) (name : String) (st : Led) :
    (ktd2692_store_select env name st).log =
      st.log ++ pin_select_ops env name := by
  unfold ktd2692_store_select pin_select_ops; simp only []; split_ifs <;> simp [record]

theorem ktd2692_store_value_off (h : Header) (env : Env) (v : Int) (count : Nat)
    (st : Led) (hv : v ≤ 0) :
    (ktd2692_store_value h env v count st).1.pdata.sysfs_input_data = v ∧
      (ktd2692_store_value h env v count st).1.log =
        st.log ++ ([Op.gpio_request st.pdata.flash_control] ++
          (if env.gpio_request ≠ 0 then
            [Op.LED_ERROR "Failed to requeset ktd2692_led_control"]
           else torch_off_ops h st.pdata) ++
          pin_select_ops env "is" ++ pin_put_ops env "is") ∧
      (ktd2692_store_value h env v count st).2 = s64 count := by
  unfold ktd2692_store_value
  simp only [hv, if_true]
  refine ⟨?_, ?_, trivial⟩
  · simp only [ktd2692_store_put_pdata, ktd2692_store_select_pdata]
    split_ifs
    · rfl
    · rw [ktd2692_store_off_pdata]; rfl
  · simp only [ktd2692_store_put_log, ktd2692_store_select_log, pin_put_ops]
    split_ifs <;>
      simp [record_log, record_pdata, ktd2692_store_off_log] <;> rfl

theorem ktd2692_store_value_on (h : Header) (env : Env) (v : Int) (count : Nat)
    (st : Led) (hv : 0 < v) :
    (ktd2692_store_value h env v count st).1.pdata.sysfs_input_data = v ∧
      (ktd2692_store_value h env v count st).1.log =
        st.log ++ (pin_select_ops env "host" ++ [Op.gpio_request st.pdata.flash_control] ++
          (if env.gpio_request ≠ 0 then
            [Op.LED_ERROR "Failed to requeset ktd2692_led_control"]
           else torch_on_ops h st.pdata) ++
          pin_put_ops env "host") ∧
      (ktd2692_store_value h env v count st).2 = s64 count := by
  unfold ktd2692_store_value
  have hv0 : ¬ (v ≤ 0) := by omega
  simp only [hv0, if_false]
  refine ⟨?_, ?_, trivial⟩
  · simp only [ktd2692_store_put_pdata]
    split_ifs
    · simp only [record_pdata, ktd2692_store_select_pdata]
    · simp only [ktd2692_store_on_pdata, record_pdata, ktd2692_store_select_pdata]
  · simp only [ktd2692_store_put_log, pin_put_ops]
    split_ifs <;>
      simp [record_log, record_pdata, ktd2692_store_on_log, ktd2692_store_select_log,
        ktd2692_store_select_pdata] <;> rfl

theorem ktd2692_store_parsed (h : Header) (env : Env) (buf : List Char) (count : Nat)
    (st : Led) (n : Nat) (hparse : env.kstrtouint buf = some n) (hn : n ≤ 2147483647) :
    ktd2692_store h env (some buf) count st = ktd2692_store_value h env (n : Int) count st := by
  unfold ktd2692_store
  simp only [hparse, s32_u32_of_lt n hn]

theorem ktd2692_show_text (st : Led) (n : Nat) (hs : st.pdata.sysfs_input_data = (n : Int)) :
    (ktd2692_show st).1 = (toString n).toList ++ "\n".toList := by
  unfold ktd2692_show
  simp only [hs, sprintf_d_nat]

/-- C29 (amended): for every input that `kstrtouint` accepts as a value `n` of at most
2147483647, `ktd2692_store` records `n` and returns `count`, and a following
`ktd2692_show` prints the decimal `n` and a newline; when `gpio_request` succeeds the
torch-on sequence (LVP setting, movie current, mode control) is sent for `n > 0` and
the torch-off command for `n = 0`, and when `gpio_request` fails nothing is driven on
the control line.  For an input that `kstrtouint` rejects, and for a NULL buffer, the
function returns -1 and leaves the state unchanged. -/
theorem ktd2692_store_then_show (h : Header) (env : Env) (buf : List Char) (count : Nat)
    (st : Led) (n : Nat) (hparse : env.kstrtouint buf = some n) (hn : n ≤ 2147483647)
    (hcount : count ≤ 9223372036854775807) :
    (ktd2692_store h env (some buf) count st).1.pdata.sysfs_input_data = (n : Int) ∧
    (ktd2692_store h env (some buf) count st).2 = (count : Int) ∧
    (ktd2692_show (ktd2692_store h env (some buf) count st).1).1 =
      (toString n).toList ++ "\n".toList ∧
    (env.gpio_request = 0 → 0 < n →
      (ktd2692_store h env (some buf) count st).1.log =
        st.log ++ (pin_select_ops env "host" ++ [Op.gpio_request st.pdata.flash_control] ++
          torch_on_ops h st.pdata ++ pin_put_ops env "host")) ∧
    (env.gpio_request = 0 → n = 0 →
      (ktd2692_store h env (some buf) count st).1.log =
        st.log ++ ([Op.gpio_request st.pdata.flash_control] ++ torch_off_ops h st.pdata ++
          pin_select_ops env "is" ++ pin_put_ops env "is")) ∧
    (env.gpio_request ≠ 0 →
      ∃ l, (ktd2692_store h env (some buf) count st).1.log = st.log ++ l ∧
        ∀ op ∈ l, op.is_gpio_set_value = false) ∧
    (∀ rejected : List Char, env.kstrtouint rejected = none →
      ktd2692_store h env (some rejected) count st = (st, -1)) ∧
    ktd2692_store h env none count st = (st, -1) := by
  rw [ktd2692_store_parsed h env buf count st n hparse hn]
  have hret : s64 (count : Int) = (count : Int) := by unfold s64; omega
  have hrej : ∀ rejected : List Char, env.kstrtouint rejected = none →
      ktd2692_store h env (some rejected) count st = (st, -1) := by
    intro b hb
    unfold ktd2692_store
    simp only [hb]
  by_cases h0 : n = 0
  · subst h0
    obtain ⟨hp, hl, hr⟩ := ktd2692_store_value_off h env ((0 : Nat) : Int) count st (by simp)
    refine ⟨hp, by rw [hr, hret], ktd2692_show_text _ 0 hp, fun _ hpos => absurd hpos (by omega),
      fun hg _ => ?_, fun hg => ⟨_, hl, ?_⟩, hrej, rfl⟩
    · rw [hl]; simp only [hg, ne_eq, not_true_eq_false, if_false]
    · intro op hop
      simp only [hg, ne_eq, not_false_eq_true, if_true, pin_select_ops, pin_put_ops] at hop
      split_ifs at hop <;> simp at hop <;> rcases hop with rfl | rfl | rfl | rfl | rfl <;> rfl
  · obtain ⟨hp, hl, hr⟩ := ktd2692_store_value_on h env (n : Int) count st (by omega)
    refine ⟨hp, by rw [hr, hret], ktd2692_show_text _ n hp, fun hg _ => ?_,
      fun _ hz => absurd hz h0, fun hg => ⟨_, hl, ?_⟩, hrej, rfl⟩
    · rw [hl]; simp only [hg, ne_eq, not_true_eq_false, if_false]
    · intro op hop
      simp only [hg, ne_eq, not_false_eq_true, if_true, pin_select_ops, pin_put_ops] at hop
      split_ifs at hop <;> simp at hop <;> rcases hop with rfl | rfl | rfl | rfl | rfl <;> rfl

theorem ktd2692_store_then_show_witness :
    (sample_led_env 0).kstrtouint "5".toList = some 5 ∧
    (ktd2692_store sample_header (sample_led_env 0) (some "5".toList) 2
      sample_led).1.pdata.sysfs_input_data = 5 ∧
    (ktd2692_store sample_header (sample_led_env 0) (some "5".toList) 2 sample_led).2 = 2 ∧
    (ktd2692_show (ktd2692_store sample_header (sample_led_env 0) (some "5".toList) 2
      sample_led).1).1 = "5\n".toList ∧
    (ktd2692_store sample_header (sample_led_env 0) (some "5".toList) 2 sample_led).1.log =
      [Op.devm_pinctrl_get_select "host", Op.gpio_request 42] ++
        torch_on_ops sample_header sample_led.pdata ++ [Op.devm_pinctrl_put] :=
  ⟨by decide,
   (ktd2692_store_then_show sample_header (sample_led_env 0) "5".toList 2 sample_led 5
      (by decide) (by decide) (by decide)).1,
   (ktd2692_store_then_show sample_header (sample_led_env 0) "5".toList 2 sample_led 5
      (by decide) (by decide) (by decide)).2.1,
   (ktd2692_store_then_show sample_header (sample_led_env 0) "5".toList 2 sample_led 5
      (by decide) (by decide) (by decide)).2.2.1,
   (ktd2692_store_then_show sample_header (sample_led_env 0) "5".toList 2 sample_led 5
      (by decide) (by decide) (by decide)).2.2.2.1 (by decide) (by decide)⟩

/-- With `gpio_request` failing (-EBUSY), the accepted input "5" is recorded and the
function returns `count`, but the torch-on sequence is not sent: the control line is
never driven. -/
theorem ktd2692_store_gpio_busy_sends_nothing :
    (sample_led_env (-16)).kstrtouint "5".toList = some 5 ∧
    (ktd2692_store sample_header (sample_led_env (-16)) (some "5".toList) 2 sample_led).2 = 2 ∧
    (ktd2692_store sample_header (sample_led_env (-16)) (some "5".toList) 2
      sample_led).1.pdata.sysfs_input_data = 5 ∧
    (ktd2692_store sample_header (sample_led_env (-16)) (some "5".toList) 2 sample_led).1.log =
      [Op.devm_pinctrl_get_select "host", Op.gpio_request 42,
       Op.LED_ERROR "Failed to requeset ktd2692_led_control", Op.devm_pinctrl_put] ∧
    (ktd2692_store sample_header (sample_led_env (-16)) (some "5".toList) 2
      sample_led).1.log.any Op.is_gpio_set_value = false := by
  decide

/-- The input "4294967295" is accepted by `kstrtouint`, lands in the `int value` as -1,
is shown as "-1" and switches the torch off. -/
theorem ktd2692_store_uint_max_is_negative :
    (sample_led_env 0).kstrtouint "4294967295".toList = some 4294967295 ∧
    (ktd2692_store sample_header (sample_led_env 0) (some "4294967295".toList) 11
      sample_led).1.pdata.sysfs_input_data = -1 ∧
    (ktd2692_show (ktd2692_store sample_header (sample_led_env 0)
      (some "4294967295".toList) 11 sample_led).1).1 = "-1\n".toList ∧
    (ktd2692_store sample_header (sample_led_env 0) (some "4294967295".toList) 11
      sample_led).1.log =
      [Op.gpio_request 42] ++ torch_off_ops sample_header sample_led.pdata ++
        [Op.devm_pinctrl_get_select "is", Op.devm_pinctrl_put] := by
  decide

end Ktd2692
